import Mathlib

/-!
# nginx-dlg-auth: the request-authentication pipeline

A shallow embedding of `src/nginx_dlg_auth.c` and `src/ticket.c`.

Conventions of the embedding

* A byte is a `UInt8`; a C buffer is a list of bytes. Reading past the end of a
  buffer yields the terminating NUL that nginx and C string literals place there.
* `ngx_str_t` keeps its two fields: the declared length `len` and the pointer
  `data` (`none` is the NULL pointer, `some bs` a pointer to the bytes `bs`).
* `time_t` and `long` are 64-bit two's-complement words, `int` a 32-bit one,
  `ngx_uint_t` an unsigned 64-bit word. Values are mathematical integers and
  every conversion the C code performs is written out (`wrap64`, `wrap32`).
* The external collaborators (Hawk engine, seal engine, JSON tokenizer, clock)
  are the fields of `Lib`; every function of the module takes them as a parameter.
* Pool allocations (`ngx_pcalloc`, `ngx_pnalloc`, `ngx_list_push`) succeed; the
  out-of-memory branches of the C code are not part of the embedding.
* Dereferencing a NULL pointer (`r->headers_in.host` of a request without a
  `Host` header) has no result: the functions concerned return `none`.
* Calls into the external collaborators are recorded, in order, in a ghost
  trace (`Event`), so that ordering properties can be stated.
-/

namespace DlgAuth

/-! ## Bytes, C strings and machine integers -/

abbrev Bytes := List UInt8

/-- The bytes of an ASCII C string literal (without the terminating NUL). -/
def cstr (s : String) : Bytes := s.toList.map (fun c => UInt8.ofNat c.toNat)

/-- Value of an integer stored in a 64-bit two's-complement word (`time_t`, `long`). -/
def wrap64 (x : Int) : Int := (x + 2 ^ 63) % 2 ^ 64 - 2 ^ 63

/-- Value of an integer stored in a 32-bit two's-complement word (`int`). -/
def wrap32 (x : Int) : Int := (x + 2 ^ 31) % 2 ^ 32 - 2 ^ 31

/-- The libc `abs` on `int`: the argument is converted to `int` first; `abs(INT_MIN)`
is `INT_MIN` (two's-complement negation). -/
def c_abs (x : Int) : Int :=
  let v := wrap32 x
  if v < 0 then wrap32 (-v) else v

/-- The libc `strncmp`, compared to zero: true when the first `n` bytes agree, or the
strings agree up to a common NUL before that. -/
def strncmp_eq : Bytes → Bytes → Nat → Bool
  | _, _, 0 => true
  | s1, s2, n + 1 =>
    let c1 := s1.headD 0
    let c2 := s2.headD 0
    if c1 ≠ c2 then false
    else if c1 = 0 then true
    else strncmp_eq s1.tail s2.tail n

/-- The libc `memcmp`, compared to zero: the first `n` bytes of both buffers agree. -/
def memcmp_eq (a b : Bytes) (n : Nat) : Bool := a.take n == b.take n

/-- The libc `isdigit` on a byte. -/
def isdigit (c : UInt8) : Bool := 48 ≤ c.toNat && c.toNat ≤ 57

/-- A byte read as a (signed) `char`. -/
def char_val (c : UInt8) : Int := if c.toNat < 128 then c.toNat else (c.toNat : Int) - 256

/-! ## ticket.c -/

/-- Modelled from the spec: `ticket.h` is not among the sources. The comment on
`MAX_TOKENS` in `ticket.c` (1 + 16 + MAX_SCOPE = 27) fixes the realm capacity at 10,
and the spec asks for at least 8. -/
def MAX_REALMS : Nat := 10

def MAX_TOKENS : Nat := 27

/-- The error codes of `ticket.h`, in the order of `error_strings`. -/
inductive TicketError
  | OK
  | ERROR_JSON_INVAL
  | ERROR_JSON_NTOKENS
  | ERROR_JSON_PART
  | ERROR_MISSING_EXPECTED_TOKEN
  | ERROR_UNEXPECTED_TOKEN_TYPE
  | ERROR_UNEXPECTED_TOKEN_NAME
  | ERROR_PARSE_TIME_VALUE
  | ERROR_NREALMS
  | ERROR_UNKNOWN_HAWK_ALGORITHM
  | ERROR
  deriving DecidableEq, Repr

/-- Token kinds of the jsmn tokenizer. -/
inductive jsmntype_t
  | JSMN_PRIMITIVE
  | JSMN_OBJECT
  | JSMN_ARRAY
  | JSMN_STRING
  deriving DecidableEq, Repr

/-- Result codes of `jsmn_parse`. -/
inductive jsmnerr_t
  | JSMN_ERROR_NOMEM
  | JSMN_ERROR_INVAL
  | JSMN_ERROR_PART
  | JSMN_SUCCESS
  deriving DecidableEq, Repr

/-- A jsmn token: kind, the slice `[start, end_)` of the input, number of children. -/
structure jsmntok_t where
  type : jsmntype_t
  start : Nat
  end_ : Nat
  size : Nat
  deriving DecidableEq, Repr

/-- A token of the zero-initialised token array. -/
def jsmntok_zero : jsmntok_t := ⟨jsmntype_t.JSMN_PRIMITIVE, 0, 0, 0⟩

/-- A Hawk MAC algorithm descriptor (a non-NULL `HawkcAlgorithm`). -/
structure HawkcAlgorithm where
  id : Nat
  deriving DecidableEq, Repr

/-- The `struct Ticket`: `HawkcString` fields are byte strings (the slice they point
to), `hawkAlgorithm` is a pointer that may be NULL, `realms` is the fixed array. -/
structure Ticket where
  client : Bytes
  pwd : Bytes
  owner : Bytes
  user : Bytes
  hawkAlgorithm : Option HawkcAlgorithm
  exp : Int
  rw : Int
  realms : List Bytes
  nrealms : Nat
  deriving DecidableEq, Repr

/-- The nginx string: declared length and data pointer (`none` is NULL). -/
structure ngx_str_t where
  len : Nat
  data : Option Bytes
  deriving DecidableEq, Repr

/-- The bytes a string designates: the first `len` bytes at `data`. -/
def ngx_str_t.bytes (s : ngx_str_t) : Bytes := (s.data.getD []).take s.len

def ngx_null_string : ngx_str_t := ⟨0, none⟩

/-- A string whose pointer designates exactly the bytes `bs`. -/
def ngx_string (bs : Bytes) : ngx_str_t := ⟨bs.length, some bs⟩

/-- Result codes of the Hawk engine; the module tells three of them apart. -/
inductive HawkcError
  | HAWKC_OK
  | HAWKC_PARSE_ERROR
  | HAWKC_BAD_SCHEME_ERROR
  | HAWKC_OTHER (code : Nat)
  deriving DecidableEq, Repr

/-- Result codes of the seal engine; the module only tests for `CIRON_OK`. -/
inductive CironError
  | CIRON_OK
  | CIRON_OTHER (code : Nat)
  deriving DecidableEq, Repr

/-- The parsed `Authorization` header (`hawkc_ctx.header_in`). -/
structure HawkcAuthorizationHeader where
  id : Bytes
  ts : Int
  nonce : Bytes
  mac : Bytes
  hash : Bytes
  ext : Bytes
  deriving DecidableEq, Repr

/-- The fields of `struct HawkcContext` the module sets or reads. -/
structure HawkcContext where
  method : Bytes
  path : Bytes
  host : Bytes
  port : Bytes
  header_in : HawkcAuthorizationHeader
  password : Bytes
  algorithm : Option HawkcAlgorithm
  www_authenticate_ts : Int
  deriving DecidableEq, Repr

structure CironPwdTableEntry where
  password_id_len : Nat
  password_id : Bytes
  password_len : Nat
  password : Bytes
  deriving DecidableEq, Repr

/-- The password table: `entries` is the array it points to (the `pwd_table_entries` of the
location configuration), `nentries` the number of entries in use. -/
structure CironPwdTable where
  entries : List CironPwdTableEntry
  nentries : Nat
  deriving DecidableEq, Repr

/-- The external collaborators of the module. -/
structure Lib where
  /-- The tokenizer: input buffer, its length, token capacity; yields the result code and
  the tokens written (`parser.toknext` of them). -/
  jsmn_parse : Bytes → Nat → Nat → jsmnerr_t × List jsmntok_t
  /-- Algorithm lookup by name; `none` is NULL. -/
  hawkc_algorithm_by_name : Bytes → Option HawkcAlgorithm
  /-- Header parser: the header value; yields the result code and `header_in`. -/
  hawkc_parse_authorization_header : Bytes → HawkcError × HawkcAuthorizationHeader
  /-- MAC validation on a context; yields the result code and `hmac_is_valid`. -/
  hawkc_validate_hmac : HawkcContext → HawkcError × Bool
  /-- Length query for the challenge with server time. -/
  hawkc_calculate_www_authenticate_header_length : HawkcContext → HawkcError × Nat
  /-- Challenge writer: yields the result code, the bytes written and the length reported. -/
  hawkc_create_www_authenticate_header : HawkcContext → HawkcError × Bytes × Nat
  /-- Decimal rendering of a `time_t`. -/
  hawkc_ttoa : Int → Bytes
  /-- Required size of the decryption work area for a sealed payload of the given length,
  as an `int`. -/
  ciron_calculate_encryption_buffer_length : Nat → Int
  /-- Required size of the unsealed output for a sealed payload of the given length and a
  password id of the given length, as an `int`. -/
  ciron_calculate_unseal_buffer_length : Nat → Nat → Int
  /-- Unseal: sealed payload, password table, single password; yields the result code and
  the unsealed bytes (`output_len` of them). -/
  ciron_unseal : Bytes → CironPwdTable → ngx_str_t → CironError × Bytes
  /-- The clock: the value `time(&now)` stores. -/
  time : Int

/-- The library call `hawkc_context_init`. -/
def hawkc_context_init : HawkcContext :=
  { method := [], path := [], host := [], port := [], header_in := ⟨[], 0, [], [], [], []⟩,
    password := [], algorithm := none, www_authenticate_ts := 0 }

/-- The library call `hawkc_context_set_method`, on the bytes the pointer and length designate. -/
def hawkc_context_set_method (c : HawkcContext) (v : Bytes) : HawkcContext :=
  { c with method := v }

/-- The library call `hawkc_context_set_path`. -/
def hawkc_context_set_path (c : HawkcContext) (v : Bytes) : HawkcContext :=
  { c with path := v }

/-- The library call `hawkc_context_set_host`. -/
def hawkc_context_set_host (c : HawkcContext) (v : Bytes) : HawkcContext :=
  { c with host := v }

/-- The library call `hawkc_context_set_port`. -/
def hawkc_context_set_port (c : HawkcContext) (v : Bytes) : HawkcContext :=
  { c with port := v }

/-- The library call `hawkc_context_set_password`. -/
def hawkc_context_set_password (c : HawkcContext) (v : Bytes) : HawkcContext :=
  { c with password := v }

/-- The library call `hawkc_context_set_algorithm`. -/
def hawkc_context_set_algorithm (c : HawkcContext) (a : Option HawkcAlgorithm) : HawkcContext :=
  { c with algorithm := a }

/-- The library call `hawkc_www_authenticate_header_set_ts`. -/
def hawkc_www_authenticate_header_set_ts (c : HawkcContext) (ts : Int) : HawkcContext :=
  { c with www_authenticate_ts := ts }

/-- The effect of a successful `hawkc_parse_authorization_header` on the context. -/
def hawkc_context_parsed (c : HawkcContext) (hdr : HawkcAuthorizationHeader) : HawkcContext :=
  { c with header_in := hdr }

/-- Parser state of `ticket.c`. -/
structure Builder where
  tokens : List jsmntok_t
  i : Nat
  ticket : Ticket
  ntokens : Nat
  input : Bytes
  deriving DecidableEq, Repr

def my_digittoint (ch : UInt8) : Int :=
  let d := char_val ch - 48
  if 0 ≤ d ∧ d < 10 then d
  else
    let d := char_val ch - 97
    if 0 ≤ d ∧ d < 6 then d + 10
    else
      let d := char_val ch - 65
      if 0 ≤ d ∧ d < 6 then d + 10
      else -1

/-- The function `ticket_init`: `memset` to zero. -/
def ticket_init : Ticket :=
  { client := [], pwd := [], owner := [], user := [], hawkAlgorithm := none,
    exp := 0, rw := 0, realms := List.replicate MAX_REALMS [], nrealms := 0 }

/-- The function `do_string`; `s` is the old content of the destination, the third
component of the result its new content. -/
def do_string (b : Builder) (s : Bytes) : TicketError × Builder × Bytes :=
  let b := { b with i := b.i + 1 }
  if b.i ≥ b.ntokens then (TicketError.ERROR_MISSING_EXPECTED_TOKEN, b, s)
  else
    let t := b.tokens.getD b.i jsmntok_zero
    if t.type ≠ jsmntype_t.JSMN_STRING then (TicketError.ERROR_UNEXPECTED_TOKEN_TYPE, b, s)
    else (TicketError.OK, b, (b.input.drop t.start).take (t.end_ - t.start))

/-- The digit loop of `do_time`: `x = (x * 10) + my_digittoint(*p)` in `time_t`. -/
def do_time_loop : Bytes → Int → Option Int
  | [], x => some x
  | c :: cs, x =>
    if !isdigit c then none
    else do_time_loop cs (wrap64 (wrap64 (x * 10) + my_digittoint c))

/-- The function `do_time`; `tp` is the old content of the destination. -/
def do_time (b : Builder) (tp : Int) : TicketError × Builder × Int :=
  let b := { b with i := b.i + 1 }
  if b.i ≥ b.ntokens then (TicketError.ERROR_MISSING_EXPECTED_TOKEN, b, tp)
  else
    let t := b.tokens.getD b.i jsmntok_zero
    if t.type ≠ jsmntype_t.JSMN_PRIMITIVE then (TicketError.ERROR_UNEXPECTED_TOKEN_TYPE, b, tp)
    else
      match do_time_loop ((b.input.drop t.start).take (t.end_ - t.start)) 0 with
      | none => (TicketError.ERROR_PARSE_TIME_VALUE, b, tp)
      | some x => (TicketError.OK, b, x)

/-- The function `do_rw`; the destination is set to 0 before anything else. -/
def do_rw (b : Builder) : TicketError × Builder × Int :=
  let b := { b with i := b.i + 1 }
  if b.i ≥ b.ntokens then (TicketError.ERROR_MISSING_EXPECTED_TOKEN, b, 0)
  else
    let t := b.tokens.getD b.i jsmntok_zero
    if t.type = jsmntype_t.JSMN_PRIMITIVE ∧ t.end_ - t.start = 4
        ∧ strncmp_eq (b.input.drop t.start) (cstr "true") 4 = true then
      (TicketError.OK, b, 1)
    else (TicketError.OK, b, 0)

/-- The `for` loop of `do_scope`: `k` iterations are left, `i` is the loop variable. The
result of `do_string` is dropped, as in the source. -/
def do_scope_loop : Nat → Nat → Builder → Builder
  | 0, _, b => b
  | k + 1, i, b =>
    let r := do_string b (b.ticket.realms.getD i [])
    let b1 := r.2.1
    do_scope_loop k (i + 1)
      { b1 with ticket := { b1.ticket with realms := b1.ticket.realms.set i r.2.2 } }

def do_scope (b : Builder) : TicketError × Builder :=
  let b := { b with i := b.i + 1 }
  if b.i ≥ b.ntokens then (TicketError.ERROR_MISSING_EXPECTED_TOKEN, b)
  else
    let t := b.tokens.getD b.i jsmntok_zero
    if t.type ≠ jsmntype_t.JSMN_ARRAY then (TicketError.ERROR_UNEXPECTED_TOKEN_TYPE, b)
    else if t.size > MAX_REALMS then (TicketError.ERROR_NREALMS, b)
    else
      let b := do_scope_loop t.size 0 b
      (TicketError.OK, { b with ticket := { b.ticket with nrealms := t.size } })

def do_algo (lib : Lib) (b : Builder) : TicketError × Builder :=
  let r := do_string b []
  if r.1 ≠ TicketError.OK then (r.1, r.2.1)
  else
    match lib.hawkc_algorithm_by_name r.2.2 with
    | none => (TicketError.ERROR_UNKNOWN_HAWK_ALGORITHM, r.2.1)
    | some a => (TicketError.OK, { r.2.1 with ticket := { r.2.1.ticket with hawkAlgorithm := some a } })

/-- The body of the `for` loop of `ticket_from_string` for the token at `builder.i`
(without the final `builder.i++`). -/
def ticket_dispatch (lib : Lib) (b : Builder) : TicketError × Builder :=
  let t := b.tokens.getD b.i jsmntok_zero
  let length := t.end_ - t.start
  let s := b.input.drop t.start
  match t.type with
  | jsmntype_t.JSMN_STRING =>
    if length = 6 ∧ strncmp_eq s (cstr "client") length = true then
      let r := do_string b b.ticket.client
      (r.1, { r.2.1 with ticket := { r.2.1.ticket with client := r.2.2 } })
    else if length = 3 ∧ strncmp_eq s (cstr "pwd") length = true then
      let r := do_string b b.ticket.pwd
      (r.1, { r.2.1 with ticket := { r.2.1.ticket with pwd := r.2.2 } })
    else if length = 13 ∧ strncmp_eq s (cstr "hawkAlgorithm") length = true then
      do_algo lib b
    else if length = 5 ∧ strncmp_eq s (cstr "owner") length = true then
      let r := do_string b b.ticket.owner
      (r.1, { r.2.1 with ticket := { r.2.1.ticket with owner := r.2.2 } })
    else if length = 5 ∧ strncmp_eq s (cstr "scope") length = true then
      do_scope b
    else if length = 6 ∧ strncmp_eq s (cstr "scopes") length = true then
      do_scope b
    else if length = 4 ∧ strncmp_eq s (cstr "user") length = true then
      let r := do_string b b.ticket.user
      (r.1, { r.2.1 with ticket := { r.2.1.ticket with user := r.2.2 } })
    else if length = 3 ∧ strncmp_eq s (cstr "exp") length = true then
      let r := do_time b b.ticket.exp
      (r.1, { r.2.1 with ticket := { r.2.1.ticket with exp := r.2.2 } })
    else if length = 2 ∧ strncmp_eq s (cstr "rw") length = true then
      let r := do_rw b
      (r.1, { r.2.1 with ticket := { r.2.1.ticket with rw := r.2.2 } })
    else (TicketError.ERROR_UNEXPECTED_TOKEN_NAME, b)
  | jsmntype_t.JSMN_PRIMITIVE => (TicketError.ERROR_UNEXPECTED_TOKEN_TYPE, b)
  | jsmntype_t.JSMN_ARRAY => (TicketError.ERROR_UNEXPECTED_TOKEN_TYPE, b)
  | jsmntype_t.JSMN_OBJECT =>
    if b.i ≠ 0 then (TicketError.ERROR_UNEXPECTED_TOKEN_TYPE, b) else (TicketError.OK, b)

/-- The `for` loop of `ticket_from_string`. Every iteration advances `builder.i`, so
`ntokens + 1` units of fuel always suffice; without fuel the result is `ERROR`. -/
def ticket_loop (lib : Lib) : Nat → Builder → TicketError × Builder
  | 0, b => (TicketError.ERROR, b)
  | fuel + 1, b =>
    if b.i < b.ntokens then
      let r := ticket_dispatch lib b
      if r.1 ≠ TicketError.OK then r
      else ticket_loop lib fuel { r.2 with i := r.2.i + 1 }
    else (TicketError.OK, b)

/-- The function `ticket_from_string`: the result code and the content of `*ticket`. The
`default` branch of the switch on the tokenizer's result is excluded by `jsmnerr_t`. -/
def ticket_from_string (lib : Lib) (json_string : Bytes) (len : Nat) : TicketError × Ticket :=
  let r := lib.jsmn_parse json_string len MAX_TOKENS
  match r.1 with
  | jsmnerr_t.JSMN_ERROR_INVAL => (TicketError.ERROR_JSON_INVAL, ticket_init)
  | jsmnerr_t.JSMN_ERROR_NOMEM => (TicketError.ERROR_JSON_NTOKENS, ticket_init)
  | jsmnerr_t.JSMN_ERROR_PART => (TicketError.ERROR_JSON_PART, ticket_init)
  | jsmnerr_t.JSMN_SUCCESS =>
    let b : Builder :=
      { tokens := r.2, i := 0, ticket := ticket_init, ntokens := r.2.length, input := json_string }
    let o := ticket_loop lib (r.2.length + 1) b
    (o.1, o.2.ticket)

/-- The loop body of `ticket_has_realm` over the indices `i, i+1, ...`, `k` of them. -/
def ticket_has_realm_loop (ticket : Ticket) (realm : Bytes) (realm_len : Nat) : Nat → Nat → Int
  | 0, _ => 0
  | k + 1, i =>
    if (ticket.realms.getD i []).length = realm_len
        ∧ memcmp_eq (ticket.realms.getD i []) realm realm_len = true then 1
    else ticket_has_realm_loop ticket realm realm_len k (i + 1)

def ticket_has_realm (ticket : Ticket) (realm : Bytes) (realm_len : Nat) : Int :=
  ticket_has_realm_loop ticket realm realm_len ticket.nrealms 0

/-- Modelled from the spec: `ticket_has_scope`, which `ngx_dlg_auth_authenticate` calls, is
not among the sources. The spec makes the scope match a predicate over the host, the realm
and the ticket's realms whose obligation is that the ticket's realms contain the realm;
the host is not used. -/
def ticket_has_scope (ticket : Ticket) (_host : Bytes) (_host_len : Nat)
    (realm : Bytes) (realm_len : Nat) : Int :=
  ticket_has_realm ticket realm realm_len

/-! ## nginx_dlg_auth.c: data -/

def ENCRYPTION_BUFFER_SIZE : Int := 1024
def OUTPUT_BUFFER_SIZE : Int := 512
def MAX_PWD_TAB_ENTRIES : Nat := 100

/- Method bits and result codes of nginx (`ngx_http_request.h`, `ngx_core.h`). -/
def NGX_HTTP_GET : Nat := 0x0002
def NGX_HTTP_HEAD : Nat := 0x0004
def NGX_HTTP_POST : Nat := 0x0008
def NGX_HTTP_PUT : Nat := 0x0010
def NGX_HTTP_DELETE : Nat := 0x0020
def NGX_HTTP_OPTIONS : Nat := 0x0200
def NGX_HTTP_PROPFIND : Nat := 0x0400

def NGX_OK : Int := 0
def NGX_ERROR : Int := -1
def NGX_DECLINED : Int := -5
def NGX_HTTP_BAD_REQUEST : Int := 400
def NGX_HTTP_UNAUTHORIZED : Int := 401
def NGX_HTTP_FORBIDDEN : Int := 403
def NGX_HTTP_INTERNAL_SERVER_ERROR : Int := 500

/-- The value `(ngx_uint_t) -1` that marks an unset number. -/
def NGX_CONF_UNSET_UINT : Nat := 2 ^ 64 - 1

/-- The macro `IS_UNSAFE_METHOD`. -/
def IS_UNSAFE_METHOD (m : Nat) : Bool :=
  !(m == NGX_HTTP_GET || m == NGX_HTTP_HEAD || m == NGX_HTTP_OPTIONS || m == NGX_HTTP_PROPFIND)

/-- Module per-location configuration. The table `pwd_table` points to the array
`pwd_table_entries` of the same configuration, so the array is kept inside it. -/
structure ngx_http_dlg_auth_loc_conf_t where
  realm : ngx_str_t
  iron_password : ngx_str_t
  pwd_table : CironPwdTable
  allowed_clock_skew : Nat
  host : ngx_str_t
  port : ngx_str_t
  deriving DecidableEq, Repr

/-- A header: `lowcase_key` is a plain byte pointer. -/
structure ngx_table_elt_t where
  hash : Nat
  key : ngx_str_t
  value : ngx_str_t
  lowcase_key : Bytes
  deriving DecidableEq, Repr

/-- The nginx list of headers: the elements of the first part (`part.elts`, `part.nelts` of
them) and the elements of the parts chained after it. -/
structure ngx_list_t where
  part : List ngx_table_elt_t
  next : List (List ngx_table_elt_t)
  deriving DecidableEq, Repr

/-- Per-request context: the values published as variables. -/
structure ngx_http_dlg_auth_ctx_t where
  client : ngx_str_t
  expires : ngx_str_t
  clockskew : ngx_str_t
  deriving DecidableEq, Repr

/-- The incoming headers; `host` and `authorization` are pointers to a header (`none` is
NULL), represented by the header they point to. -/
structure ngx_http_headers_in_t where
  headers : ngx_list_t
  host : Option ngx_table_elt_t
  authorization : Option ngx_table_elt_t
  deriving DecidableEq, Repr

/-- The outgoing headers: the elements of `headers` in the order they were pushed. -/
structure ngx_http_headers_out_t where
  headers : List ngx_table_elt_t
  www_authenticate : Option ngx_table_elt_t
  deriving DecidableEq, Repr

/-- The fields of the request the module reads or writes; `ssl` is `r->connection->ssl`,
`ctx` the module context set by `ngx_http_set_ctx`. -/
structure ngx_http_request_t where
  method : Nat
  method_name : ngx_str_t
  unparsed_uri : ngx_str_t
  headers_in : ngx_http_headers_in_t
  headers_out : ngx_http_headers_out_t
  ssl : Bool
  ctx : Option ngx_http_dlg_auth_ctx_t
  deriving DecidableEq, Repr

/-- A call into an external collaborator or into the ticket codec, with the arguments that
matter. -/
inductive Event
  | hawkc_parse_authorization_header (value : Bytes)
  | ciron_unseal (id : Bytes) (pwd_table : CironPwdTable) (iron_password : ngx_str_t)
  | ticket_from_string (json : Bytes)
  | hawkc_validate_hmac (ctx : HawkcContext)
  | hawkc_www_authenticate_header_set_ts (ts : Int)
  deriving DecidableEq, Repr

/-- What a request-processing function leaves behind: the value it returns, the request
as it stands afterwards, and the calls made so far. -/
structure Outcome where
  rc : Int
  r : ngx_http_request_t
  trace : List Event
  deriving DecidableEq, Repr

/-! ## nginx_dlg_auth.c: request processing -/

/-- The first loop of `get_host_and_port`: advance `i` while `i < len` and the byte at `i`
is not a colon. At most `len` iterations are made, which is the fuel given. -/
def get_host_scan (buf : Bytes) (len : Nat) : Nat → Nat → Nat
  | 0, i => i
  | fuel + 1, i =>
    if i < len ∧ buf.getD i 0 ≠ 58 then get_host_scan buf len fuel (i + 1) else i

/-- The function `get_host_and_port`. The source reads `r->connection->ssl` although `r` is
not among its parameters; the flag is passed as `ssl` (false when built without
`NGX_HTTP_SSL`). The second loop only counts the bytes left after the colon. -/
def get_host_and_port (host_header : ngx_str_t) (ssl : Bool) : ngx_str_t × ngx_str_t :=
  let buf := host_header.data.getD []
  let i := get_host_scan buf host_header.len host_header.len 0
  let host : ngx_str_t := ⟨i, host_header.data⟩
  let port : ngx_str_t :=
    if buf.getD i 0 = 58 ∧ i + 1 < host_header.len then
      ⟨host_header.len - (i + 1), some (buf.drop (i + 1))⟩
    else ⟨0, none⟩
  if port.len = 0 then
    if ssl then (host, ⟨3, some (cstr "443")⟩) else (host, ⟨2, some (cstr "80")⟩)
  else (host, port)

/-- The function `determine_host_and_port`: the pair `(*host, *port)` it leaves, or `none`
when `r->headers_in.host` is NULL at the point it is dereferenced. -/
def determine_host_and_port (conf : ngx_http_dlg_auth_loc_conf_t) (r : ngx_http_request_t) :
    Option (ngx_str_t × ngx_str_t) :=
  let host := ngx_null_string
  let port := ngx_null_string
  let host := if conf.host.len ≠ 0 then conf.host else host
  let host := if conf.port.len ≠ 0 then conf.port else host
  if host.len ≠ 0 ∧ port.len ≠ 0 then some (host, port)
  else
    match r.headers_in.host with
    | none => none
    | some h =>
      let rp := get_host_and_port h.value r.ssl
      let host := if host.len ≠ 0 then rp.1 else host
      let port := if port.len ≠ 0 then rp.2 else port
      some (host, port)

/-- The function `ngx_dlg_auth_send_simple_401`: the value returned and the request
afterwards. The challenge has the declared length `13 + realm->len`; its data are the
bytes the three `ngx_cpymem` calls write. -/
def ngx_dlg_auth_send_simple_401 (r : ngx_http_request_t) (realm : ngx_str_t) :
    Int × ngx_http_request_t :=
  let challenge : ngx_str_t :=
    ⟨13 + realm.len,
      some ((cstr "Hawk realm=\"").take 12 ++ realm.bytes ++ (cstr "\"").take 1)⟩
  let h : ngx_table_elt_t := ⟨1, ngx_string (cstr "WWW-Authenticate"), challenge, []⟩
  (NGX_HTTP_UNAUTHORIZED,
    { r with headers_out := { headers := r.headers_out.headers ++ [h], www_authenticate := some h } })

/-- The function `ngx_dlg_auth_send_401`. When the challenge cannot be written after the
header was pushed, the pushed header keeps its key and has no value. -/
def ngx_dlg_auth_send_401 (lib : Lib) (r : ngx_http_request_t) (hawkc_ctx : HawkcContext) :
    Int × ngx_http_request_t :=
  let n := lib.hawkc_calculate_www_authenticate_header_length hawkc_ctx
  if n.1 ≠ HawkcError.HAWKC_OK then (NGX_HTTP_INTERNAL_SERVER_ERROR, r)
  else
    let h0 : ngx_table_elt_t := ⟨1, ngx_string (cstr "WWW-Authenticate"), ngx_null_string, []⟩
    let c := lib.hawkc_create_www_authenticate_header hawkc_ctx
    if c.1 ≠ HawkcError.HAWKC_OK ∨ c.2.2 ≠ n.2 then
      (NGX_HTTP_INTERNAL_SERVER_ERROR,
        { r with headers_out :=
            { headers := r.headers_out.headers ++ [h0], www_authenticate := some h0 } })
    else
      let h : ngx_table_elt_t := { h0 with value := ⟨n.2, some c.2.1⟩ }
      (NGX_HTTP_UNAUTHORIZED,
        { r with headers_out :=
            { headers := r.headers_out.headers ++ [h], www_authenticate := some h } })

/-- The loop of `ngx_dlg_auth_rename_authorization_header` over the elements of the first
part: the elements afterwards, and whether a header was renamed. -/
def rename_loop : List ngx_table_elt_t → List ngx_table_elt_t × Bool
  | [] => ([], false)
  | d :: ds =>
    if d.key.len = 13 ∧ memcmp_eq d.lowcase_key (cstr "authorization") 13 = true then
      ({ d with
          key := { d.key with data := d.key.data.map (fun k => cstr "X-" ++ k.drop 2) },
          lowcase_key := cstr "x-" ++ d.lowcase_key.drop 2 } :: ds, true)
    else ((d :: (rename_loop ds).1), (rename_loop ds).2)

def ngx_dlg_auth_rename_authorization_header (r : ngx_http_request_t) : ngx_http_request_t :=
  let l := rename_loop r.headers_in.headers.part
  { r with headers_in :=
      { headers := { r.headers_in.headers with part := l.1 },
        host := r.headers_in.host,
        authorization := if l.2 then none else r.headers_in.authorization } }

def store_client (ctx : ngx_http_dlg_auth_ctx_t) (ticket : Ticket) : ngx_http_dlg_auth_ctx_t :=
  { ctx with client := ngx_string ticket.client }

def store_expires (lib : Lib) (ctx : ngx_http_dlg_auth_ctx_t) (ticket : Ticket) :
    ngx_http_dlg_auth_ctx_t :=
  { ctx with expires := ngx_string (lib.hawkc_ttoa ticket.exp) }

def store_clockskew (lib : Lib) (ctx : ngx_http_dlg_auth_ctx_t) (clockskew : Int) :
    ngx_http_dlg_auth_ctx_t :=
  { ctx with clockskew := ngx_string (lib.hawkc_ttoa clockskew) }

/-- The last part of `ngx_dlg_auth_authenticate` (from the method test to the end): access
rights from the ticket. -/
def authenticate_authorize (conf : ngx_http_dlg_auth_loc_conf_t) (r : ngx_http_request_t)
    (host : ngx_str_t) (ticket : Ticket) (now : Int) (tr : List Event) : Outcome :=
  if IS_UNSAFE_METHOD r.method = true ∧ ticket.rw = 0 then ⟨NGX_HTTP_FORBIDDEN, r, tr⟩
  else if ticket.exp < now then
    ⟨(ngx_dlg_auth_send_simple_401 r conf.realm).1, (ngx_dlg_auth_send_simple_401 r conf.realm).2, tr⟩
  else if ticket_has_scope ticket (host.data.getD []) host.len
      (conf.realm.data.getD []) conf.realm.len = 0 then
    ⟨(ngx_dlg_auth_send_simple_401 r conf.realm).1, (ngx_dlg_auth_send_simple_401 r conf.realm).2, tr⟩
  else ⟨NGX_OK, r, tr⟩

/-- The clock-skew test of `ngx_dlg_auth_authenticate`:
`abs(clock_skew) > (time_t)(conf->allowed_clock_skew)`. -/
def clock_skew_too_large (conf : ngx_http_dlg_auth_loc_conf_t) (clock_skew : Int) : Bool :=
  decide (c_abs clock_skew > wrap64 conf.allowed_clock_skew)

/-- The middle part of `ngx_dlg_auth_authenticate` (from `store_client` to the clock-skew
test): publish the variables, validate the signature, compare the clocks. -/
def authenticate_verify (lib : Lib) (conf : ngx_http_dlg_auth_loc_conf_t)
    (r : ngx_http_request_t) (ctx : ngx_http_dlg_auth_ctx_t) (host : ngx_str_t)
    (hawkc_ctx : HawkcContext) (ticket : Ticket) (tr : List Event) : Outcome :=
  let ctx := store_expires lib (store_client ctx ticket) ticket
  let r := { r with ctx := some ctx }
  let hawkc_ctx :=
    hawkc_context_set_algorithm (hawkc_context_set_password hawkc_ctx ticket.pwd)
      ticket.hawkAlgorithm
  let tr := tr ++ [Event.hawkc_validate_hmac hawkc_ctx]
  let v := lib.hawkc_validate_hmac hawkc_ctx
  if v.1 ≠ HawkcError.HAWKC_OK then ⟨NGX_HTTP_INTERNAL_SERVER_ERROR, r, tr⟩
  else if v.2 = false then
    ⟨(ngx_dlg_auth_send_simple_401 r conf.realm).1, (ngx_dlg_auth_send_simple_401 r conf.realm).2, tr⟩
  else
    let now := lib.time
    let clock_skew := wrap64 (now - hawkc_ctx.header_in.ts)
    let r := { r with ctx := some (store_clockskew lib ctx clock_skew) }
    if clock_skew_too_large conf clock_skew = true then
      let hawkc_ctx := hawkc_www_authenticate_header_set_ts hawkc_ctx now
      let tr := tr ++ [Event.hawkc_www_authenticate_header_set_ts now]
      ⟨(ngx_dlg_auth_send_401 lib r hawkc_ctx).1, (ngx_dlg_auth_send_401 lib r hawkc_ctx).2, tr⟩
    else authenticate_authorize conf r host ticket now tr

/-- The function `ngx_dlg_auth_authenticate`, up to the parsed ticket; `none` when a NULL
header pointer is dereferenced. -/
def ngx_dlg_auth_authenticate (lib : Lib) (conf : ngx_http_dlg_auth_loc_conf_t)
    (r : ngx_http_request_t) (ctx : ngx_http_dlg_auth_ctx_t) : Option Outcome :=
  match determine_host_and_port conf r, r.headers_in.authorization with
  | none, _ => none
  | some _, none => none
  | some hp, some authorization =>
    let hawkc_ctx :=
      hawkc_context_set_port
        (hawkc_context_set_host
          (hawkc_context_set_path
            (hawkc_context_set_method hawkc_context_init r.method_name.bytes)
            r.unparsed_uri.bytes)
          hp.1.bytes)
        hp.2.bytes
    let tr := [Event.hawkc_parse_authorization_header authorization.value.bytes]
    let he := lib.hawkc_parse_authorization_header authorization.value.bytes
    if he.1 ≠ HawkcError.HAWKC_OK then
      if he.1 = HawkcError.HAWKC_BAD_SCHEME_ERROR then
        some ⟨(ngx_dlg_auth_send_simple_401 r conf.realm).1,
          (ngx_dlg_auth_send_simple_401 r conf.realm).2, tr⟩
      else if he.1 = HawkcError.HAWKC_PARSE_ERROR then some ⟨NGX_HTTP_BAD_REQUEST, r, tr⟩
      else some ⟨NGX_HTTP_INTERNAL_SERVER_ERROR, r, tr⟩
    else
      let hawkc_ctx := hawkc_context_parsed hawkc_ctx he.2
      let id := hawkc_ctx.header_in.id
      if lib.ciron_calculate_encryption_buffer_length id.length > ENCRYPTION_BUFFER_SIZE then
        some ⟨NGX_HTTP_BAD_REQUEST, r, tr⟩
      else if lib.ciron_calculate_unseal_buffer_length id.length 0 > OUTPUT_BUFFER_SIZE then
        some ⟨NGX_HTTP_BAD_REQUEST, r, tr⟩
      else
        let tr := tr ++ [Event.ciron_unseal id conf.pwd_table conf.iron_password]
        let ce := lib.ciron_unseal id conf.pwd_table conf.iron_password
        if ce.1 ≠ CironError.CIRON_OK then some ⟨NGX_HTTP_BAD_REQUEST, r, tr⟩
        else
          let tr := tr ++ [Event.ticket_from_string ce.2]
          let te := ticket_from_string lib ce.2 ce.2.length
          if te.1 ≠ TicketError.OK then some ⟨NGX_HTTP_BAD_REQUEST, r, tr⟩
          else some (authenticate_verify lib conf r ctx hp.1 hawkc_ctx te.2 tr)

/-- The function `ngx_dlg_auth_handler`, the access-phase entry point. -/
def ngx_dlg_auth_handler (lib : Lib) (conf : ngx_http_dlg_auth_loc_conf_t)
    (r : ngx_http_request_t) : Option Outcome :=
  let ctx : ngx_http_dlg_auth_ctx_t := ⟨ngx_null_string, ngx_null_string, ngx_null_string⟩
  let r := { r with ctx := some ctx }
  if conf.realm.data = none then some ⟨NGX_DECLINED, r, []⟩
  else if conf.realm.len = 3 ∧ strncmp_eq (conf.realm.data.getD []) (cstr "off") 3 = true then
    some ⟨NGX_DECLINED, r, []⟩
  else if r.headers_in.authorization = none then
    some ⟨(ngx_dlg_auth_send_simple_401 r conf.realm).1,
      (ngx_dlg_auth_send_simple_401 r conf.realm).2, []⟩
  else
    match ngx_dlg_auth_authenticate lib conf r ctx with
    | none => none
    | some o =>
      if o.rc ≠ NGX_OK then some o
      else some ⟨NGX_OK, ngx_dlg_auth_rename_authorization_header o.r, o.trace⟩

/-! ## Stages of a request, as the claims refer to them -/

/-- The request with its `Host` header replaced: `l` is the header list afterwards, `h` the
header the host pointer designates afterwards. -/
def replace_host_header (r : ngx_http_request_t) (l : ngx_list_t) (h : ngx_table_elt_t) :
    ngx_http_request_t :=
  { r with headers_in :=
      { headers := l, host := some h, authorization := r.headers_in.authorization } }

/-- The Hawk context after the header was parsed: the canonical request data (method,
request target, host and port as determined) and the parsed header. -/
def hawkc_parsed_context (r : ngx_http_request_t) (hp : ngx_str_t × ngx_str_t)
    (hdr : HawkcAuthorizationHeader) : HawkcContext :=
  hawkc_context_parsed
    (hawkc_context_set_port
      (hawkc_context_set_host
        (hawkc_context_set_path
          (hawkc_context_set_method hawkc_context_init r.method_name.bytes)
          r.unparsed_uri.bytes)
        hp.1.bytes)
      hp.2.bytes)
    hdr

/-- The Hawk context the module hands to MAC validation: the parsed context with the key
and the algorithm of the ticket. -/
def hawkc_request_context (r : ngx_http_request_t) (hp : ngx_str_t × ngx_str_t)
    (hdr : HawkcAuthorizationHeader) (ticket : Ticket) : HawkcContext :=
  hawkc_context_set_algorithm
    (hawkc_context_set_password (hawkc_parsed_context r hp hdr) ticket.pwd)
    ticket.hawkAlgorithm

/-- The request gets as far as a parsed ticket: host and port are determined (`hp`), the
`Authorization` header parses (`hdr`), both buffer-size checks pass, the ticket unseals
(`json`) and parses (`ticket`). -/
def TicketObtained (lib : Lib) (conf : ngx_http_dlg_auth_loc_conf_t) (r : ngx_http_request_t)
    (hp : ngx_str_t × ngx_str_t) (authorization : ngx_table_elt_t)
    (hdr : HawkcAuthorizationHeader) (json : Bytes) (ticket : Ticket) : Prop :=
  determine_host_and_port conf r = some hp
  ∧ r.headers_in.authorization = some authorization
  ∧ lib.hawkc_parse_authorization_header authorization.value.bytes
      = (HawkcError.HAWKC_OK, hdr)
  ∧ lib.ciron_calculate_encryption_buffer_length hdr.id.length ≤ ENCRYPTION_BUFFER_SIZE
  ∧ lib.ciron_calculate_unseal_buffer_length hdr.id.length 0 ≤ OUTPUT_BUFFER_SIZE
  ∧ lib.ciron_unseal hdr.id conf.pwd_table conf.iron_password = (CironError.CIRON_OK, json)
  ∧ ticket_from_string lib json json.length = (TicketError.OK, ticket)

/-- The request gets as far as a valid signature: a ticket is obtained and the MAC
validates under the key and algorithm of the ticket. -/
def SignatureValid (lib : Lib) (conf : ngx_http_dlg_auth_loc_conf_t) (r : ngx_http_request_t)
    (hp : ngx_str_t × ngx_str_t) (authorization : ngx_table_elt_t)
    (hdr : HawkcAuthorizationHeader) (json : Bytes) (ticket : Ticket) : Prop :=
  TicketObtained lib conf r hp authorization hdr json ticket
  ∧ lib.hawkc_validate_hmac (hawkc_request_context r hp hdr ticket)
      = (HawkcError.HAWKC_OK, true)

/-- The calls made up to and including the parsing of the ticket. -/
def ticket_trace (conf : ngx_http_dlg_auth_loc_conf_t) (authorization : ngx_table_elt_t)
    (hdr : HawkcAuthorizationHeader) (json : Bytes) : List Event :=
  [Event.hawkc_parse_authorization_header authorization.value.bytes,
   Event.ciron_unseal hdr.id conf.pwd_table conf.iron_password,
   Event.ticket_from_string json]

/-- The calls made up to and including MAC validation. -/
def verification_trace (conf : ngx_http_dlg_auth_loc_conf_t) (r : ngx_http_request_t)
    (hp : ngx_str_t × ngx_str_t) (authorization : ngx_table_elt_t)
    (hdr : HawkcAuthorizationHeader) (json : Bytes) (ticket : Ticket) : List Event :=
  ticket_trace conf authorization hdr json
    ++ [Event.hawkc_validate_hmac (hawkc_request_context r hp hdr ticket)]

/-- The request after the three variables were published. -/
def published_request (lib : Lib) (r : ngx_http_request_t) (ctx : ngx_http_dlg_auth_ctx_t)
    (hdr : HawkcAuthorizationHeader) (ticket : Ticket) : ngx_http_request_t :=
  { r with ctx := some (store_clockskew lib (store_expires lib (store_client ctx ticket) ticket)
      (wrap64 (lib.time - hdr.ts))) }

instance (lib : Lib) (conf : ngx_http_dlg_auth_loc_conf_t) (r : ngx_http_request_t)
    (hp : ngx_str_t × ngx_str_t) (authorization : ngx_table_elt_t)
    (hdr : HawkcAuthorizationHeader) (json : Bytes) (ticket : Ticket) :
    Decidable (TicketObtained lib conf r hp authorization hdr json ticket) := by
  unfold TicketObtained; exact inferInstance

instance (lib : Lib) (conf : ngx_http_dlg_auth_loc_conf_t) (r : ngx_http_request_t)
    (hp : ngx_str_t × ngx_str_t) (authorization : ngx_table_elt_t)
    (hdr : HawkcAuthorizationHeader) (json : Bytes) (ticket : Ticket) :
    Decidable (SignatureValid lib conf r hp authorization hdr json ticket) := by
  unfold SignatureValid; exact inferInstance

/-! ## A small instance of the external collaborators

Used to run the module on concrete requests. The sealed payload is the ticket text
itself, guarded by the single password `pw`; the tokenizer knows the two tickets below;
a MAC is valid when it spells out method, path, host, port and key. -/

/-- A ticket of client `c1` granting read and write access to realm `api` until second
2000. -/
def ticket_rw_json : Bytes :=
  cstr ("\x7b\"client\":\"c1\",\"pwd\":\"k\",\"hawkAlgorithm\":\"sha256\","
    ++ "\"exp\":2000,\"rw\":true,\"scope\":[\"api\"]\x7d")

/-- A ticket of client `c1` granting read access only to realm `api` until second 2000. -/
def ticket_ro_json : Bytes :=
  cstr ("\x7b\"client\":\"c1\",\"pwd\":\"k\",\"hawkAlgorithm\":\"sha256\","
    ++ "\"exp\":2000,\"rw\":false,\"scope\":[\"api\"]\x7d")

def ticket_rw_tokens : List jsmntok_t :=
  [⟨jsmntype_t.JSMN_OBJECT, 0, 87, 12⟩, ⟨jsmntype_t.JSMN_STRING, 2, 8, 0⟩,
   ⟨jsmntype_t.JSMN_STRING, 11, 13, 0⟩, ⟨jsmntype_t.JSMN_STRING, 16, 19, 0⟩,
   ⟨jsmntype_t.JSMN_STRING, 22, 23, 0⟩, ⟨jsmntype_t.JSMN_STRING, 26, 39, 0⟩,
   ⟨jsmntype_t.JSMN_STRING, 42, 48, 0⟩, ⟨jsmntype_t.JSMN_STRING, 51, 54, 0⟩,
   ⟨jsmntype_t.JSMN_PRIMITIVE, 56, 60, 0⟩, ⟨jsmntype_t.JSMN_STRING, 62, 64, 0⟩,
   ⟨jsmntype_t.JSMN_PRIMITIVE, 66, 70, 0⟩, ⟨jsmntype_t.JSMN_STRING, 72, 77, 0⟩,
   ⟨jsmntype_t.JSMN_ARRAY, 79, 86, 1⟩, ⟨jsmntype_t.JSMN_STRING, 81, 84, 0⟩]

def ticket_ro_tokens : List jsmntok_t :=
  [⟨jsmntype_t.JSMN_OBJECT, 0, 88, 12⟩, ⟨jsmntype_t.JSMN_STRING, 2, 8, 0⟩,
   ⟨jsmntype_t.JSMN_STRING, 11, 13, 0⟩, ⟨jsmntype_t.JSMN_STRING, 16, 19, 0⟩,
   ⟨jsmntype_t.JSMN_STRING, 22, 23, 0⟩, ⟨jsmntype_t.JSMN_STRING, 26, 39, 0⟩,
   ⟨jsmntype_t.JSMN_STRING, 42, 48, 0⟩, ⟨jsmntype_t.JSMN_STRING, 51, 54, 0⟩,
   ⟨jsmntype_t.JSMN_PRIMITIVE, 56, 60, 0⟩, ⟨jsmntype_t.JSMN_STRING, 62, 64, 0⟩,
   ⟨jsmntype_t.JSMN_PRIMITIVE, 66, 71, 0⟩, ⟨jsmntype_t.JSMN_STRING, 73, 78, 0⟩,
   ⟨jsmntype_t.JSMN_ARRAY, 80, 87, 1⟩, ⟨jsmntype_t.JSMN_STRING, 82, 85, 0⟩]

/-- The ticket both sample texts parse to, up to the flag `rw`. -/
def sample_ticket (rw : Int) : Ticket :=
  { client := cstr "c1", pwd := cstr "k", owner := [], user := [],
    hawkAlgorithm := some ⟨256⟩, exp := 2000, rw := rw,
    realms := cstr "api" :: List.replicate 9 [], nrealms := 1 }

def zero_header : HawkcAuthorizationHeader := ⟨[], 0, [], [], [], []⟩

/-- The sample header parser: `Hawk1<mac>` carries the read-write ticket, `Hawk2<mac>` the
read-only one; `ts` is the timestamp the header claims. -/
def sample_parse (ts : Int) (v : Bytes) : HawkcError × HawkcAuthorizationHeader :=
  if v.take 4 ≠ cstr "Hawk" then (HawkcError.HAWKC_BAD_SCHEME_ERROR, zero_header)
  else
    match v.drop 4 with
    | 49 :: mac => (HawkcError.HAWKC_OK, ⟨ticket_rw_json, ts, [], mac, [], []⟩)
    | 50 :: mac => (HawkcError.HAWKC_OK, ⟨ticket_ro_json, ts, [], mac, [], []⟩)
    | _ => (HawkcError.HAWKC_PARSE_ERROR, zero_header)

/-- The sample library, with the clock at `now` and headers claiming the timestamp `ts`. -/
def sample_lib (now ts : Int) : Lib :=
  { jsmn_parse := fun input _ _ =>
      if input = ticket_rw_json then (jsmnerr_t.JSMN_SUCCESS, ticket_rw_tokens)
      else if input = ticket_ro_json then (jsmnerr_t.JSMN_SUCCESS, ticket_ro_tokens)
      else (jsmnerr_t.JSMN_ERROR_INVAL, []),
    hawkc_algorithm_by_name := fun name =>
      if name = cstr "sha256" then some ⟨256⟩ else none,
    hawkc_parse_authorization_header := sample_parse ts,
    hawkc_validate_hmac := fun c =>
      (HawkcError.HAWKC_OK,
        c.header_in.mac == c.method ++ c.path ++ c.host ++ c.port ++ c.password),
    hawkc_calculate_www_authenticate_header_length := fun _ => (HawkcError.HAWKC_OK, 4),
    hawkc_create_www_authenticate_header := fun _ => (HawkcError.HAWKC_OK, cstr "Hawk", 4),
    hawkc_ttoa := fun _ => [],
    ciron_calculate_encryption_buffer_length := fun n => n,
    ciron_calculate_unseal_buffer_length := fun n m => (n : Int) + m,
    ciron_unseal := fun id _ pw =>
      if pw.bytes = cstr "pw" then (CironError.CIRON_OK, id) else (CironError.CIRON_OTHER 1, []),
    time := now }

/-- A location with realm `api`, single password `pw`, clock skew 1, no overrides. -/
def sample_conf : ngx_http_dlg_auth_loc_conf_t :=
  { realm := ngx_string (cstr "api"), iron_password := ngx_string (cstr "pw"),
    pwd_table := ⟨[], 0⟩, allowed_clock_skew := 1,
    host := ngx_null_string, port := ngx_null_string }

def sample_header (key lowcase value : String) : ngx_table_elt_t :=
  ⟨1, ngx_string (cstr key), ngx_string (cstr value), cstr lowcase⟩

/-- A request with the given method, a `Host` header and an `Authorization` header. -/
def sample_request (method : Nat) (method_name host authorization : String) :
    ngx_http_request_t :=
  { method := method, method_name := ngx_string (cstr method_name),
    unparsed_uri := ngx_string (cstr "/x"),
    headers_in :=
      { headers := ⟨[sample_header "Host" "host" host,
                     sample_header "Authorization" "authorization" authorization], []⟩,
        host := some (sample_header "Host" "host" host),
        authorization := some (sample_header "Authorization" "authorization" authorization) },
    headers_out := ⟨[], none⟩, ssl := false, ctx := none }


/-- The sample location with an empty realm given as a (non-NULL) empty string, as the
directive `dlg_auth "";` stores it. -/
def sample_conf_empty_realm : ngx_http_dlg_auth_loc_conf_t :=
  { sample_conf with realm := ⟨0, some []⟩ }

/-- The sample location with both overrides configured. -/
def sample_conf_overrides : ngx_http_dlg_auth_loc_conf_t :=
  { sample_conf with host := ngx_string (cstr "proxy.internal"),
                     port := ngx_string (cstr "8443") }

/-- The sample location with realm `admin`, which the sample tickets do not grant. -/
def sample_conf_admin : ngx_http_dlg_auth_loc_conf_t :=
  { sample_conf with realm := ngx_string (cstr "admin") }

/-- The parsed header of a sample request: the sealed ticket, the timestamp, the MAC. -/
def sample_hdr (json : Bytes) (ts : Int) (mac : String) : HawkcAuthorizationHeader :=
  ⟨json, ts, [], cstr mac, [], []⟩

/-- The context of a freshly allocated request context. -/
def ctx_zero : ngx_http_dlg_auth_ctx_t := ⟨ngx_null_string, ngx_null_string, ngx_null_string⟩

/-- A request with a `Host` header and no `Authorization` header. -/
def sample_request_anonymous (method : Nat) (method_name host : String) : ngx_http_request_t :=
  { method := method, method_name := ngx_string (cstr method_name),
    unparsed_uri := ngx_string (cstr "/x"),
    headers_in :=
      { headers := ⟨[sample_header "Host" "host" host], []⟩,
        host := some (sample_header "Host" "host" host),
        authorization := none },
    headers_out := ⟨[], none⟩, ssl := false, ctx := none }

/-! ## nginx_dlg_auth.c: configuration -/

/-- The two values a directive handler or merge handler returns (`char *`). -/
inductive ngx_conf_rc
  | NGX_CONF_OK
  | NGX_CONF_ERROR
  deriving DecidableEq, Repr

/-- What a configuration handler leaves behind: the value it returns, the configuration it
worked on as it stands afterwards, and the messages it logged. -/
structure ConfOutcome where
  rc : ngx_conf_rc
  conf : ngx_http_dlg_auth_loc_conf_t
  log : List String
  deriving DecidableEq, Repr

/-- An entry of the zero-initialised password array. -/
def CironPwdTableEntry_zero : CironPwdTableEntry := ⟨0, [], 0, []⟩

/-- The function `ngx_http_dlg_auth_create_loc_conf`: the configuration it returns. -/
def ngx_http_dlg_auth_create_loc_conf : ngx_http_dlg_auth_loc_conf_t :=
  { realm := ⟨0, none⟩, iron_password := ⟨0, none⟩,
    pwd_table := ⟨List.replicate MAX_PWD_TAB_ENTRIES CironPwdTableEntry_zero, 0⟩,
    allowed_clock_skew := NGX_CONF_UNSET_UINT,
    host := ⟨0, none⟩, port := ⟨0, none⟩ }

/-- The function `ngx_http_dlg_auth_iron_passwd`; `args` is `cf->args` (the directive name
followed by its arguments), `lcf` the configuration the directive applies to. -/
def ngx_http_dlg_auth_iron_passwd (args : List ngx_str_t)
    (lcf : ngx_http_dlg_auth_loc_conf_t) : ConfOutcome :=
  let value := args
  if args.length = 2 then
    if lcf.iron_password.len ≠ 0 then
      ⟨ngx_conf_rc.NGX_CONF_ERROR, lcf,
        ["dlg_auth_iron_pwd directive must not be used more than once for setting single password"]⟩
    else if lcf.pwd_table.nentries ≠ 0 then
      ⟨ngx_conf_rc.NGX_CONF_ERROR, lcf,
        ["dlg_auth_iron_pwd directive does not allow mixed use of password table and single password"]⟩
    else
      ⟨ngx_conf_rc.NGX_CONF_OK,
        { lcf with iron_password :=
            ⟨(value.getD 1 ngx_null_string).len, some (value.getD 1 ngx_null_string).bytes⟩ },
        []⟩
  else if args.length = 3 then
    if lcf.iron_password.len ≠ 0 then
      ⟨ngx_conf_rc.NGX_CONF_ERROR, lcf,
        ["dlg_auth_iron_pwd directive does not allow mixed use of password table and single password"]⟩
    else if lcf.pwd_table.nentries = MAX_PWD_TAB_ENTRIES then
      ⟨ngx_conf_rc.NGX_CONF_ERROR, lcf,
        ["Too many dlg_auth_iron_pwd directives, please use less id/password pairs"]⟩
    else
      let i := lcf.pwd_table.nentries
      let e : CironPwdTableEntry :=
        ⟨(value.getD 1 ngx_null_string).len, (value.getD 1 ngx_null_string).data.getD [],
          (value.getD 2 ngx_null_string).len, (value.getD 2 ngx_null_string).data.getD []⟩
      ⟨ngx_conf_rc.NGX_CONF_OK,
        { lcf with pwd_table := ⟨lcf.pwd_table.entries.set i e, i + 1⟩ }, []⟩
  else
    ⟨ngx_conf_rc.NGX_CONF_ERROR, lcf,
      ["dlg_auth_iron_pwd directive takes only one or two arguments"]⟩

/-- The loop of `is_digits_only` from index `i`; `str->len - i` units of fuel are given,
which is the number of iterations left at most. A byte is read as a `char`. -/
def is_digits_only_loop (str : ngx_str_t) : Nat → Nat → Int
  | 0, _ => 1
  | fuel + 1, i =>
    if i < str.len then
      if char_val ((str.data.getD []).getD i 0) < 48
          ∨ char_val ((str.data.getD []).getD i 0) > 57 then 0
      else is_digits_only_loop str fuel (i + 1)
    else 1

def is_digits_only (str : ngx_str_t) : Int := is_digits_only_loop str str.len 0

/-- The loop of `ngx_http_dlg_auth_merge_loc_conf` that copies the password table: `k`
iterations are left, `i` is the loop variable, the list is the array of the child. -/
def merge_pwd_table_loop (parent : List CironPwdTableEntry) :
    Nat → Nat → List CironPwdTableEntry → List CironPwdTableEntry
  | 0, _, child => child
  | k + 1, i, child =>
    merge_pwd_table_loop parent k (i + 1) (child.set i (parent.getD i CironPwdTableEntry_zero))

/-- The macro `ngx_conf_merge_uint_value`. -/
def ngx_conf_merge_uint_value (conf prev default : Nat) : Nat :=
  if conf = NGX_CONF_UNSET_UINT then
    (if prev = NGX_CONF_UNSET_UINT then default else prev)
  else conf

/-- The step `if (child->f.len == 0) { child->f.len = parent->f.len; child->f.data =
parent->f.data; }` of the merge, for a string field `f`: the field of the child afterwards. -/
def merge_str (child parent : ngx_str_t) : ngx_str_t :=
  if child.len = 0 then ⟨parent.len, parent.data⟩ else child

/-- The step of the merge that inherits the password table: the table of the child
afterwards. -/
def merge_pwd_table (child parent : CironPwdTable) : CironPwdTable :=
  if child.nentries = 0 then
    ⟨merge_pwd_table_loop parent.entries parent.nentries 0 child.entries, parent.nentries⟩
  else child

/-- The first part of `ngx_http_dlg_auth_merge_loc_conf` (up to the sanity checks): the
child with every field merged, in the order of the source. -/
def merge_fields (parent child : ngx_http_dlg_auth_loc_conf_t) : ngx_http_dlg_auth_loc_conf_t :=
  { realm := merge_str child.realm parent.realm,
    iron_password := merge_str child.iron_password parent.iron_password,
    pwd_table := merge_pwd_table child.pwd_table parent.pwd_table,
    allowed_clock_skew :=
      ngx_conf_merge_uint_value child.allowed_clock_skew parent.allowed_clock_skew 1,
    host := merge_str child.host parent.host,
    port := merge_str child.port parent.port }

/-- The function `ngx_http_dlg_auth_merge_loc_conf`; the configuration of the outcome is the
child as the function leaves it. -/
def ngx_http_dlg_auth_merge_loc_conf (parent child : ngx_http_dlg_auth_loc_conf_t) :
    ConfOutcome :=
  let child := merge_fields parent child
  if child.realm.len ≠ 0 then
    if child.iron_password.len = 0 ∧ child.pwd_table.nentries = 0 then
      ⟨ngx_conf_rc.NGX_CONF_ERROR, child,
        ["Neither iron password nor iron password table configured"]⟩
    else if child.port.len > 0 ∧ is_digits_only child.port = 0 then
      ⟨ngx_conf_rc.NGX_CONF_ERROR, child, ["%V is not a valid port number"]⟩
    else ⟨ngx_conf_rc.NGX_CONF_OK, child, []⟩
  else ⟨ngx_conf_rc.NGX_CONF_OK, child, []⟩

/-! ## The ticket parser, as the claims refer to it -/

/-- The text of a token: the slice of the input it designates. -/
def token_text (input : Bytes) (t : jsmntok_t) : Bytes :=
  (input.drop t.start).take (t.end_ - t.start)

/-- The token has exactly the length and the bytes of `name`. -/
def name_is (input : Bytes) (t : jsmntok_t) (name : Bytes) : Prop :=
  t.end_ - t.start = name.length ∧ (input.drop t.start).take name.length = name

instance (input : Bytes) (t : jsmntok_t) (name : Bytes) : Decidable (name_is input t name) := by
  unfold name_is; exact inferInstance

/-- The token is a string token spelling `name`: a key `name` when the loop dispatches on it. -/
def key_is (input : Bytes) (t : jsmntok_t) (name : String) : Prop :=
  t.type = jsmntype_t.JSMN_STRING ∧ name_is input t (cstr name)

instance (input : Bytes) (t : jsmntok_t) (name : String) : Decidable (key_is input t name) := by
  unfold key_is; exact inferInstance

/-- The builder `ticket_from_string` starts its loop with. -/
def initial_builder (json_string : Bytes) (tokens : List jsmntok_t) : Builder :=
  { tokens := tokens, i := 0, ticket := ticket_init, ntokens := tokens.length,
    input := json_string }

/-- The builder at the head of the loop of `ticket_from_string` after `k` iterations that
all went without error; `none` when the loop has ended or failed before. -/
def ticket_iterations (lib : Lib) : Nat → Builder → Option Builder
  | 0, b => some b
  | k + 1, b =>
    if b.i < b.ntokens then
      if (ticket_dispatch lib b).1 ≠ TicketError.OK then none
      else ticket_iterations lib k
        { (ticket_dispatch lib b).2 with i := (ticket_dispatch lib b).2.i + 1 }
    else none

/-- The number a string of decimal digits denotes in base 10. -/
def digits_value (ds : Bytes) : Nat :=
  ds.foldl (fun acc c => acc * 10 + (c.toNat - 48)) 0

/-- The sample library with a tokenizer that knows the one ticket text `json`. -/
def tokens_lib (json : Bytes) (tokens : List jsmntok_t) : Lib :=
  { sample_lib 0 0 with
    jsmn_parse := fun input _ _ =>
      if input = json then (jsmnerr_t.JSMN_SUCCESS, tokens)
      else (jsmnerr_t.JSMN_ERROR_INVAL, []) }

/-- A ticket whose scope array holds a number. -/
def ticket_scope_number_json : Bytes := cstr "\x7b\"scope\":[1]\x7d"

def ticket_scope_number_tokens : List jsmntok_t :=
  [⟨jsmntype_t.JSMN_OBJECT, 0, 13, 2⟩, ⟨jsmntype_t.JSMN_STRING, 2, 7, 0⟩,
   ⟨jsmntype_t.JSMN_ARRAY, 9, 12, 1⟩, ⟨jsmntype_t.JSMN_PRIMITIVE, 10, 11, 0⟩]

/-- A ticket with two scope arrays, the second of which holds a number. -/
def ticket_scope_twice_json : Bytes :=
  cstr "\x7b\"scope\":[\"admin\"],\"scope\":[1]\x7d"

def ticket_scope_twice_tokens : List jsmntok_t :=
  [⟨jsmntype_t.JSMN_OBJECT, 0, 31, 4⟩, ⟨jsmntype_t.JSMN_STRING, 2, 7, 0⟩,
   ⟨jsmntype_t.JSMN_ARRAY, 9, 18, 1⟩, ⟨jsmntype_t.JSMN_STRING, 11, 16, 0⟩,
   ⟨jsmntype_t.JSMN_STRING, 20, 25, 0⟩, ⟨jsmntype_t.JSMN_ARRAY, 27, 30, 1⟩,
   ⟨jsmntype_t.JSMN_PRIMITIVE, 28, 29, 0⟩]

/-- A ticket whose `rw` value is the string `true`. -/
def ticket_rw_string_json : Bytes := cstr "\x7b\"rw\":\"true\"\x7d"

def ticket_rw_string_tokens : List jsmntok_t :=
  [⟨jsmntype_t.JSMN_OBJECT, 0, 13, 2⟩, ⟨jsmntype_t.JSMN_STRING, 2, 4, 0⟩,
   ⟨jsmntype_t.JSMN_STRING, 7, 11, 0⟩]

/-- A ticket whose `client` value is a number. -/
def ticket_client_number_json : Bytes := cstr "\x7b\"client\":1234\x7d"

def ticket_client_number_tokens : List jsmntok_t :=
  [⟨jsmntype_t.JSMN_OBJECT, 0, 15, 2⟩, ⟨jsmntype_t.JSMN_STRING, 2, 8, 0⟩,
   ⟨jsmntype_t.JSMN_PRIMITIVE, 10, 14, 0⟩]

/-- A ticket whose expiry is `2^63`. -/
def ticket_exp_overflow_json : Bytes := cstr "\x7b\"exp\":9223372036854775808\x7d"

def ticket_exp_overflow_tokens : List jsmntok_t :=
  [⟨jsmntype_t.JSMN_OBJECT, 0, 27, 2⟩, ⟨jsmntype_t.JSMN_STRING, 2, 5, 0⟩,
   ⟨jsmntype_t.JSMN_PRIMITIVE, 7, 26, 0⟩]

/-! ## Further sample requests and locations -/

/-- The sample request with its header list replaced by `l`. -/
def sample_request_with_headers (method : Nat) (method_name host authorization : String)
    (l : ngx_list_t) : ngx_http_request_t :=
  { method := method, method_name := ngx_string (cstr method_name),
    unparsed_uri := ngx_string (cstr "/x"),
    headers_in :=
      { headers := l,
        host := some (sample_header "Host" "host" host),
        authorization := some (sample_header "Authorization" "authorization" authorization) },
    headers_out := ⟨[], none⟩, ssl := false, ctx := none }

/-- A header list whose first part is full (a `Host` header and nineteen others) and whose
`Authorization` header sits in the second part. -/
def headers_authorization_in_second_part : ngx_list_t :=
  ⟨sample_header "Host" "host" "example.com:443"
      :: List.replicate 19 (sample_header "X-Pad" "x-pad" "0"),
    [[sample_header "Authorization" "authorization" "Hawk1GET/xk"]]⟩

/-- A header list with two `Authorization` headers. -/
def headers_authorization_twice : ngx_list_t :=
  ⟨[sample_header "Host" "host" "example.com:443",
    sample_header "Authorization" "authorization" "Hawk1GET/xk",
    sample_header "Authorization" "authorization" "Hawk1GET/xk"], []⟩

/-- All the headers of a list, over all its parts. -/
def ngx_list_t.elts (l : ngx_list_t) : List ngx_table_elt_t := l.part ++ l.next.flatten

/-- A location as `dlg_auth off;` alone configures it. -/
def conf_off : ngx_http_dlg_auth_loc_conf_t :=
  { ngx_http_dlg_auth_create_loc_conf with realm := ngx_string (cstr "off") }

/-- A location with realm `api` and the password table entry `(id1, pw1)`. -/
def conf_api_table : ngx_http_dlg_auth_loc_conf_t :=
  (ngx_http_dlg_auth_iron_passwd
    [ngx_string (cstr "dlg_auth_iron_pwd"), ngx_string (cstr "id1"), ngx_string (cstr "pw1")]
    { ngx_http_dlg_auth_create_loc_conf with realm := ngx_string (cstr "api") }).conf

/-- An enclosing level with the single password `pw`. -/
def conf_parent_single : ngx_http_dlg_auth_loc_conf_t :=
  (ngx_http_dlg_auth_iron_passwd
    [ngx_string (cstr "dlg_auth_iron_pwd"), ngx_string (cstr "pw")]
    ngx_http_dlg_auth_create_loc_conf).conf

/-- A location with no realm and the port override `abc`. -/
def conf_port_abc : ngx_http_dlg_auth_loc_conf_t :=
  { ngx_http_dlg_auth_create_loc_conf with port := ngx_string (cstr "abc") }

/-- The call is a `ciron_unseal` that is handed both a password table in use and a single
password. -/
def Event.unseal_with_both : Event → Bool
  | Event.ciron_unseal _ t p => t.nentries != 0 && p.len != 0
  | _ => false

/-- The header still goes by the name `Authorization`. -/
def is_authorization_header (h : ngx_table_elt_t) : Bool :=
  h.lowcase_key == cstr "authorization"

/-- A location with realm `api`, the single password `pw` and the port override `80a`. -/
def conf_api_port_80a : ngx_http_dlg_auth_loc_conf_t :=
  { (ngx_http_dlg_auth_iron_passwd
      [ngx_string (cstr "dlg_auth_iron_pwd"), ngx_string (cstr "pw")]
      { ngx_http_dlg_auth_create_loc_conf with realm := ngx_string (cstr "api") }).conf
    with port := ngx_string (cstr "80a") }

/-! ## Further sample tickets -/

/-- The sample library with a tokenizer that knows the one ticket text `json` and honours
the capacity it is given, as a bounded tokenizer does: a text of more tokens than the
capacity gives `JSMN_ERROR_NOMEM`. -/
def bounded_tokens_lib (json : Bytes) (tokens : List jsmntok_t) : Lib :=
  { sample_lib 0 0 with
    jsmn_parse := fun input _ cap =>
      if input = json then
        (if tokens.length > cap then (jsmnerr_t.JSMN_ERROR_NOMEM, tokens.take cap)
         else (jsmnerr_t.JSMN_SUCCESS, tokens))
      else (jsmnerr_t.JSMN_ERROR_INVAL, []) }

/-- The library `tokens_lib json tokens` with a header parser that finds the sealed ticket
`json` in every header. -/
def sealed_ticket_lib (json : Bytes) (tokens : List jsmntok_t) : Lib :=
  { tokens_lib json tokens with
    hawkc_parse_authorization_header := fun _ => (HawkcError.HAWKC_OK, sample_hdr json 0 "") }

/-- A ticket with all eight keys and eleven realms: twenty-eight tokens. -/
def ticket_full_eleven_json : Bytes :=
  cstr ("\x7b\"client\":\"c1\",\"pwd\":\"k\",\"hawkAlgorithm\":\"sha256\",\"owner\":\"o\","
    ++ "\"user\":\"u\",\"exp\":2000,\"rw\":true,"
    ++ "\"scope\":[\"a\",\"b\",\"c\",\"d\",\"e\",\"f\",\"g\",\"h\",\"i\",\"j\",\"k\"]\x7d")

def ticket_full_eleven_tokens : List jsmntok_t :=
  [⟨jsmntype_t.JSMN_OBJECT, 0, 148, 16⟩, ⟨jsmntype_t.JSMN_STRING, 2, 8, 0⟩,
   ⟨jsmntype_t.JSMN_STRING, 11, 13, 0⟩, ⟨jsmntype_t.JSMN_STRING, 16, 19, 0⟩,
   ⟨jsmntype_t.JSMN_STRING, 22, 23, 0⟩, ⟨jsmntype_t.JSMN_STRING, 26, 39, 0⟩,
   ⟨jsmntype_t.JSMN_STRING, 42, 48, 0⟩, ⟨jsmntype_t.JSMN_STRING, 51, 56, 0⟩,
   ⟨jsmntype_t.JSMN_STRING, 59, 60, 0⟩, ⟨jsmntype_t.JSMN_STRING, 63, 67, 0⟩,
   ⟨jsmntype_t.JSMN_STRING, 70, 71, 0⟩, ⟨jsmntype_t.JSMN_STRING, 74, 77, 0⟩,
   ⟨jsmntype_t.JSMN_PRIMITIVE, 79, 83, 0⟩, ⟨jsmntype_t.JSMN_STRING, 85, 87, 0⟩,
   ⟨jsmntype_t.JSMN_PRIMITIVE, 89, 93, 0⟩, ⟨jsmntype_t.JSMN_STRING, 95, 100, 0⟩,
   ⟨jsmntype_t.JSMN_ARRAY, 102, 147, 11⟩, ⟨jsmntype_t.JSMN_STRING, 104, 105, 0⟩,
   ⟨jsmntype_t.JSMN_STRING, 108, 109, 0⟩, ⟨jsmntype_t.JSMN_STRING, 112, 113, 0⟩,
   ⟨jsmntype_t.JSMN_STRING, 116, 117, 0⟩, ⟨jsmntype_t.JSMN_STRING, 120, 121, 0⟩,
   ⟨jsmntype_t.JSMN_STRING, 124, 125, 0⟩, ⟨jsmntype_t.JSMN_STRING, 128, 129, 0⟩,
   ⟨jsmntype_t.JSMN_STRING, 132, 133, 0⟩, ⟨jsmntype_t.JSMN_STRING, 136, 137, 0⟩,
   ⟨jsmntype_t.JSMN_STRING, 140, 141, 0⟩, ⟨jsmntype_t.JSMN_STRING, 144, 145, 0⟩]

/-- A ticket with nothing but a scope array of eleven realms. -/
def ticket_eleven_realms_json : Bytes :=
  cstr "\x7b\"scope\":[\"a\",\"b\",\"c\",\"d\",\"e\",\"f\",\"g\",\"h\",\"i\",\"j\",\"k\"]\x7d"

def ticket_eleven_realms_tokens : List jsmntok_t :=
  [⟨jsmntype_t.JSMN_OBJECT, 0, 55, 2⟩, ⟨jsmntype_t.JSMN_STRING, 2, 7, 0⟩,
   ⟨jsmntype_t.JSMN_ARRAY, 9, 54, 11⟩, ⟨jsmntype_t.JSMN_STRING, 11, 12, 0⟩,
   ⟨jsmntype_t.JSMN_STRING, 15, 16, 0⟩, ⟨jsmntype_t.JSMN_STRING, 19, 20, 0⟩,
   ⟨jsmntype_t.JSMN_STRING, 23, 24, 0⟩, ⟨jsmntype_t.JSMN_STRING, 27, 28, 0⟩,
   ⟨jsmntype_t.JSMN_STRING, 31, 32, 0⟩, ⟨jsmntype_t.JSMN_STRING, 35, 36, 0⟩,
   ⟨jsmntype_t.JSMN_STRING, 39, 40, 0⟩, ⟨jsmntype_t.JSMN_STRING, 43, 44, 0⟩,
   ⟨jsmntype_t.JSMN_STRING, 47, 48, 0⟩, ⟨jsmntype_t.JSMN_STRING, 51, 52, 0⟩]

/-- A ticket whose expiry carries a sign. -/
def ticket_exp_negative_json : Bytes := cstr "\x7b\"exp\":-5\x7d"

def ticket_exp_negative_tokens : List jsmntok_t :=
  [⟨jsmntype_t.JSMN_OBJECT, 0, 10, 2⟩, ⟨jsmntype_t.JSMN_STRING, 2, 5, 0⟩,
   ⟨jsmntype_t.JSMN_PRIMITIVE, 7, 9, 0⟩]

/-- A ticket with a `scope` array of two realms followed by a `scopes` array whose first
element is a number. -/
def ticket_scope_scopes_json : Bytes :=
  cstr "\x7b\"scope\":[\"a\",\"b\"],\"scopes\":[1,\"c\"]\x7d"

def ticket_scope_scopes_tokens : List jsmntok_t :=
  [⟨jsmntype_t.JSMN_OBJECT, 0, 36, 4⟩, ⟨jsmntype_t.JSMN_STRING, 2, 7, 0⟩,
   ⟨jsmntype_t.JSMN_ARRAY, 9, 18, 2⟩, ⟨jsmntype_t.JSMN_STRING, 11, 12, 0⟩,
   ⟨jsmntype_t.JSMN_STRING, 15, 16, 0⟩, ⟨jsmntype_t.JSMN_STRING, 20, 26, 0⟩,
   ⟨jsmntype_t.JSMN_ARRAY, 28, 35, 2⟩, ⟨jsmntype_t.JSMN_PRIMITIVE, 29, 30, 0⟩,
   ⟨jsmntype_t.JSMN_STRING, 32, 33, 0⟩]

/-- A ticket whose `rw` value is an object with a member `rw`. -/
def ticket_rw_nested_json : Bytes := cstr "\x7b\"rw\":\x7b\"rw\":true\x7d\x7d"

def ticket_rw_nested_tokens : List jsmntok_t :=
  [⟨jsmntype_t.JSMN_OBJECT, 0, 18, 2⟩, ⟨jsmntype_t.JSMN_STRING, 2, 4, 0⟩,
   ⟨jsmntype_t.JSMN_OBJECT, 6, 17, 2⟩, ⟨jsmntype_t.JSMN_STRING, 8, 10, 0⟩,
   ⟨jsmntype_t.JSMN_PRIMITIVE, 12, 16, 0⟩]

/-- A ticket whose scope array holds an array of two strings. -/
def ticket_scope_nested_json : Bytes := cstr "\x7b\"scope\":[[\"client\",\"x\"]]\x7d"

def ticket_scope_nested_tokens : List jsmntok_t :=
  [⟨jsmntype_t.JSMN_OBJECT, 0, 26, 2⟩, ⟨jsmntype_t.JSMN_STRING, 2, 7, 0⟩,
   ⟨jsmntype_t.JSMN_ARRAY, 9, 25, 1⟩, ⟨jsmntype_t.JSMN_ARRAY, 10, 24, 2⟩,
   ⟨jsmntype_t.JSMN_STRING, 12, 18, 0⟩, ⟨jsmntype_t.JSMN_STRING, 21, 22, 0⟩]

/-- A ticket with nothing but the `scopes` array of `ticket_scope_scopes_json`. -/
def ticket_scopes_only_json : Bytes := cstr "\x7b\"scopes\":[1,\"c\"]\x7d"

def ticket_scopes_only_tokens : List jsmntok_t :=
  [⟨jsmntype_t.JSMN_OBJECT, 0, 18, 2⟩, ⟨jsmntype_t.JSMN_STRING, 2, 8, 0⟩,
   ⟨jsmntype_t.JSMN_ARRAY, 10, 17, 2⟩, ⟨jsmntype_t.JSMN_PRIMITIVE, 11, 12, 0⟩,
   ⟨jsmntype_t.JSMN_STRING, 14, 15, 0⟩]

/-- The test of the rename loop on a header: key length 13 and lowercase key
`authorization`. -/
def rename_matches (d : ngx_table_elt_t) : Bool :=
  decide (d.key.len = 13) && memcmp_eq d.lowcase_key (cstr "authorization") 13

/-- A header after the two `memcpy` calls of the rename loop: the first two bytes of the key
are `X-`, those of the lowercase key `x-`. -/
def renamed (d : ngx_table_elt_t) : ngx_table_elt_t :=
  { d with
    key := { d.key with data := d.key.data.map (fun k => cstr "X-" ++ k.drop 2) },
    lowcase_key := cstr "x-" ++ d.lowcase_key.drop 2 }

/-- A ticket whose `rw` value is an array holding the string `rw` and the primitive
`true`. -/
def ticket_rw_array_json : Bytes := cstr "\x7b\"rw\":[\"rw\",true]\x7d"

def ticket_rw_array_tokens : List jsmntok_t :=
  [⟨jsmntype_t.JSMN_OBJECT, 0, 18, 2⟩, ⟨jsmntype_t.JSMN_STRING, 2, 4, 0⟩,
   ⟨jsmntype_t.JSMN_ARRAY, 6, 17, 2⟩, ⟨jsmntype_t.JSMN_STRING, 8, 10, 0⟩,
   ⟨jsmntype_t.JSMN_PRIMITIVE, 12, 16, 0⟩]

/-! ## Auxiliary facts -/

set_option maxRecDepth 8000

theorem strncmp_eq_off (buf : Bytes) :
    strncmp_eq buf (cstr "off") 3 = true ↔ buf.take 3 = cstr "off" := by
  have hc : cstr "off" = [111, 102, 102] := by decide
  rw [hc]
  match buf with
  | [] => simp [strncmp_eq]
  | [a] =>
    by_cases h1 : a = 111
    · subst h1; simp [strncmp_eq]
    · simp [strncmp_eq, h1]
  | [a, b] =>
    by_cases h1 : a = 111
    · subst h1
      by_cases h2 : b = 102
      · subst h2; simp [strncmp_eq]
      · simp [strncmp_eq, h2]
    · simp [strncmp_eq, h1]
  | a :: b :: c :: rest =>
    by_cases h1 : a = 111
    · subst h1
      by_cases h2 : b = 102
      · subst h2
        by_cases h3 : c = 102
        · subst h3; simp [strncmp_eq]
        · simp [strncmp_eq, h3]
      · simp [strncmp_eq, h2]
    · simp [strncmp_eq, h1]

/-- The handler declines, leaving the headers as they were, when the realm pointer is NULL
or the realm is the literal `off`. -/
theorem handler_declines (lib : Lib) (conf : ngx_http_dlg_auth_loc_conf_t)
    (r : ngx_http_request_t)
    (h : conf.realm.data = none ∨
      (conf.realm.len = 3 ∧ (conf.realm.data.getD []).take 3 = cstr "off")) :
    ngx_dlg_auth_handler lib conf r
      = some ⟨NGX_DECLINED,
          { r with ctx := some ⟨ngx_null_string, ngx_null_string, ngx_null_string⟩ }, []⟩ := by
  unfold ngx_dlg_auth_handler
  rcases h with h | ⟨h3, hoff⟩
  · simp [h]
  · have := (strncmp_eq_off (conf.realm.data.getD [])).2 hoff
    by_cases hd : conf.realm.data = none
    · simp [hd]
    · simp [hd, h3, this]

theorem authenticate_of_ticket (lib : Lib) (conf : ngx_http_dlg_auth_loc_conf_t)
    (r : ngx_http_request_t) (ctx : ngx_http_dlg_auth_ctx_t)
    (hp : ngx_str_t × ngx_str_t) (authorization : ngx_table_elt_t)
    (hdr : HawkcAuthorizationHeader) (json : Bytes) (ticket : Ticket)
    (h : TicketObtained lib conf r hp authorization hdr json ticket) :
    ngx_dlg_auth_authenticate lib conf r ctx
      = some (authenticate_verify lib conf r ctx hp.1 (hawkc_parsed_context r hp hdr) ticket
          (ticket_trace conf authorization hdr json)) := by
  obtain ⟨hd, ha, hparse, henc, hout, hun, hti⟩ := h
  have hid : (hawkc_context_parsed
      (hawkc_context_set_port
        (hawkc_context_set_host
          (hawkc_context_set_path
            (hawkc_context_set_method hawkc_context_init r.method_name.bytes)
            r.unparsed_uri.bytes)
          hp.1.bytes)
        hp.2.bytes)
      hdr).header_in.id = hdr.id := rfl
  unfold ngx_dlg_auth_authenticate
  simp only [hd, ha, hparse, hid, hun, hti]
  rw [if_neg (by simp), if_neg (not_lt.mpr henc), if_neg (not_lt.mpr hout), if_neg (by simp),
    if_neg (by simp)]
  rfl

theorem authenticate_verify_of_valid (lib : Lib) (conf : ngx_http_dlg_auth_loc_conf_t)
    (r : ngx_http_request_t) (ctx : ngx_http_dlg_auth_ctx_t) (host : ngx_str_t)
    (hp : ngx_str_t × ngx_str_t) (hdr : HawkcAuthorizationHeader) (ticket : Ticket)
    (tr : List Event)
    (hv : lib.hawkc_validate_hmac (hawkc_request_context r hp hdr ticket)
      = (HawkcError.HAWKC_OK, true))
    (hskew : clock_skew_too_large conf (wrap64 (lib.time - hdr.ts)) = false) :
    authenticate_verify lib conf r ctx host (hawkc_parsed_context r hp hdr) ticket tr
      = authenticate_authorize conf (published_request lib r ctx hdr ticket) host ticket
          lib.time (tr ++ [Event.hawkc_validate_hmac (hawkc_request_context r hp hdr ticket)]) := by
  have hts : (hawkc_context_set_algorithm
      (hawkc_context_set_password (hawkc_parsed_context r hp hdr) ticket.pwd)
      ticket.hawkAlgorithm).header_in.ts = hdr.ts := rfl
  unfold hawkc_request_context at hv ⊢
  unfold authenticate_verify
  simp only [hv, hts, hskew]
  rw [if_neg (by simp), if_neg (by simp), if_neg (by simp)]
  rfl

theorem authenticate_of_signature (lib : Lib) (conf : ngx_http_dlg_auth_loc_conf_t)
    (r : ngx_http_request_t) (ctx : ngx_http_dlg_auth_ctx_t)
    (hp : ngx_str_t × ngx_str_t) (authorization : ngx_table_elt_t)
    (hdr : HawkcAuthorizationHeader) (json : Bytes) (ticket : Ticket)
    (h : SignatureValid lib conf r hp authorization hdr json ticket)
    (hskew : clock_skew_too_large conf (wrap64 (lib.time - hdr.ts)) = false) :
    ngx_dlg_auth_authenticate lib conf r ctx
      = some (authenticate_authorize conf (published_request lib r ctx hdr ticket) hp.1 ticket
          lib.time (verification_trace conf r hp authorization hdr json ticket)) := by
  obtain ⟨ht, hv⟩ := h
  rw [authenticate_of_ticket lib conf r ctx hp authorization hdr json ticket ht,
    authenticate_verify_of_valid lib conf r ctx hp.1 hp hdr ticket _ hv hskew]
  rfl

theorem wrap64_of_bounds (x : Int) (h1 : -2 ^ 63 ≤ x) (h2 : x < 2 ^ 63) : wrap64 x = x := by
  unfold wrap64
  norm_num at h1 h2 ⊢
  omega

theorem c_abs_le_of_abs_le (x a : Int) (h : |x| ≤ a) : c_abs x ≤ a := by
  have h' := abs_le.mp h
  unfold c_abs wrap32
  norm_num
  split_ifs <;> omega

theorem c_abs_of_small (x : Int) (h : |x| < 2 ^ 31) : c_abs x = |x| := by
  have h' := abs_lt.mp h
  norm_num at h'
  unfold c_abs wrap32
  norm_num
  rcases abs_cases x with ⟨he, _⟩ | ⟨he, _⟩ <;> rw [he] <;> split_ifs <;> omega

/-- The clock-skew test does not fire when the skew is within an allowance that fits a
`time_t`. -/
theorem clock_skew_ok_of_abs_le (conf : ngx_http_dlg_auth_loc_conf_t) (d : Int)
    (h : |d| ≤ (conf.allowed_clock_skew : Int)) (ha : (conf.allowed_clock_skew : Int) < 2 ^ 63) :
    clock_skew_too_large conf (wrap64 d) = false := by
  have h' := abs_le.mp h
  have hd : wrap64 d = d := wrap64_of_bounds d (by omega) (by omega)
  have hw : wrap64 (conf.allowed_clock_skew : Int) = conf.allowed_clock_skew :=
    wrap64_of_bounds _ (by norm_num; omega) ha
  have := c_abs_le_of_abs_le d _ h
  unfold clock_skew_too_large
  rw [hd, hw]
  simpa using this

/-- Within 31 bits of skew and an allowance that fits a `time_t`, the clock-skew test is
the comparison of the absolute skew with the allowance. -/
theorem clock_skew_too_large_iff (conf : ngx_http_dlg_auth_loc_conf_t) (d : Int)
    (h : |d| < 2 ^ 31) (ha : (conf.allowed_clock_skew : Int) < 2 ^ 63) :
    clock_skew_too_large conf (wrap64 d) = true ↔ |d| > (conf.allowed_clock_skew : Int) := by
  have h' := abs_lt.mp h
  have hd : wrap64 d = d := wrap64_of_bounds d (by norm_num at h' ⊢; omega) (by norm_num at h' ⊢; omega)
  have hw : wrap64 (conf.allowed_clock_skew : Int) = conf.allowed_clock_skew :=
    wrap64_of_bounds _ (by norm_num; omega) ha
  unfold clock_skew_too_large
  rw [hd, hw, c_abs_of_small d h]
  simp

theorem IS_UNSAFE_METHOD_iff (m : Nat) :
    IS_UNSAFE_METHOD m = true
      ↔ m ≠ NGX_HTTP_GET ∧ m ≠ NGX_HTTP_HEAD ∧ m ≠ NGX_HTTP_OPTIONS ∧ m ≠ NGX_HTTP_PROPFIND := by
  unfold IS_UNSAFE_METHOD
  simp [and_assoc]

theorem ticket_has_realm_loop_one (ticket : Ticket) (realm : Bytes) (n : Nat) :
    ∀ k i, ticket_has_realm_loop ticket realm n k i = 1
      ↔ ∃ j, i ≤ j ∧ j < i + k ∧ (ticket.realms.getD j []).length = n
          ∧ (ticket.realms.getD j []).take n = realm.take n := by
  intro k
  induction k with
  | zero =>
    intro i
    constructor
    · intro h; simp [ticket_has_realm_loop] at h
    · rintro ⟨j, h1, h2, _⟩; omega
  | succ k ih =>
    intro i
    unfold ticket_has_realm_loop
    by_cases hc : (ticket.realms.getD i []).length = n
        ∧ memcmp_eq (ticket.realms.getD i []) realm n = true
    · rw [if_pos hc]
      simp only [true_iff]
      refine ⟨i, le_refl _, by omega, hc.1, ?_⟩
      simpa [memcmp_eq] using hc.2
    · rw [if_neg hc, ih]
      constructor
      · rintro ⟨j, h1, h2, h3, h4⟩
        exact ⟨j, by omega, by omega, h3, h4⟩
      · rintro ⟨j, h1, h2, h3, h4⟩
        have hji : j ≠ i := by
          rintro rfl
          exact hc ⟨h3, by simpa [memcmp_eq] using h4⟩
        exact ⟨j, by omega, by omega, h3, h4⟩

theorem ticket_has_realm_loop_zero_or_one (ticket : Ticket) (realm : Bytes) (n : Nat) :
    ∀ k i, ticket_has_realm_loop ticket realm n k i = 0
      ∨ ticket_has_realm_loop ticket realm n k i = 1 := by
  intro k
  induction k with
  | zero => intro i; simp [ticket_has_realm_loop]
  | succ k ih =>
    intro i
    unfold ticket_has_realm_loop
    split_ifs
    · right; rfl
    · exact ih (i + 1)

/-- The realm test on a realm given by pointer and length: it yields 1 when one of the
first `nrealms` realms of the ticket has exactly the bytes designated, and 0 otherwise. -/
theorem ticket_has_realm_bytes (ticket : Ticket) (buf : Bytes) (n : Nat) (hn : n ≤ buf.length) :
    (ticket_has_realm ticket buf n = 1
        ↔ ∃ i, i < ticket.nrealms ∧ ticket.realms.getD i [] = buf.take n)
    ∧ (ticket_has_realm ticket buf n = 0
        ↔ ¬ ∃ i, i < ticket.nrealms ∧ ticket.realms.getD i [] = buf.take n) := by
  have h1 : ticket_has_realm ticket buf n = 1
      ↔ ∃ i, i < ticket.nrealms ∧ ticket.realms.getD i [] = buf.take n := by
    unfold ticket_has_realm
    rw [ticket_has_realm_loop_one]
    constructor
    · rintro ⟨j, _, h2, h3, h4⟩
      refine ⟨j, by omega, ?_⟩
      rw [← h4, List.take_of_length_le (by omega)]
    · rintro ⟨j, h2, h3⟩
      refine ⟨j, by omega, by omega, ?_, ?_⟩
      · rw [h3, List.length_take]; omega
      · rw [h3, List.take_take]; simp
  refine ⟨h1, ?_⟩
  rw [← h1]
  rcases ticket_has_realm_loop_zero_or_one ticket buf n ticket.nrealms 0 with h | h
  · unfold ticket_has_realm; rw [h]; simp
  · unfold ticket_has_realm; rw [h]; simp

theorem authenticate_authorize_trace (conf : ngx_http_dlg_auth_loc_conf_t)
    (r : ngx_http_request_t) (host : ngx_str_t) (ticket : Ticket) (now : Int)
    (tr : List Event) : (authenticate_authorize conf r host ticket now tr).trace = tr := by
  unfold authenticate_authorize
  split_ifs <;> rfl

/-- Whatever `authenticate_verify` does, it validates the MAC exactly once, first thing,
on the context carrying the key and algorithm of the ticket. -/
theorem authenticate_verify_trace (lib : Lib) (conf : ngx_http_dlg_auth_loc_conf_t)
    (r : ngx_http_request_t) (ctx : ngx_http_dlg_auth_ctx_t) (host : ngx_str_t)
    (c0 : HawkcContext) (ticket : Ticket) (tr : List Event) :
    ∃ rest, (authenticate_verify lib conf r ctx host c0 ticket tr).trace
        = tr ++ Event.hawkc_validate_hmac
            (hawkc_context_set_algorithm (hawkc_context_set_password c0 ticket.pwd)
              ticket.hawkAlgorithm) :: rest
      ∧ ∀ c, Event.hawkc_validate_hmac c ∉ rest := by
  unfold authenticate_verify
  simp only []
  split_ifs
  · exact ⟨[], by simp, by simp⟩
  · exact ⟨[], by simp, by simp⟩
  · exact ⟨[Event.hawkc_www_authenticate_header_set_ts lib.time], by simp, by simp⟩
  · exact ⟨[], by simp [authenticate_authorize_trace], by simp⟩

theorem authenticate_with_validation (lib : Lib) (conf : ngx_http_dlg_auth_loc_conf_t)
    (r : ngx_http_request_t) (ctx : ngx_http_dlg_auth_ctx_t) (o : Outcome)
    (h : ngx_dlg_auth_authenticate lib conf r ctx = some o)
    (c : HawkcContext) (hc : Event.hawkc_validate_hmac c ∈ o.trace) :
    ∃ hp authorization hdr json ticket,
      TicketObtained lib conf r hp authorization hdr json ticket
      ∧ o = authenticate_verify lib conf r ctx hp.1 (hawkc_parsed_context r hp hdr) ticket
          (ticket_trace conf authorization hdr json) := by
  rcases hd : determine_host_and_port conf r with _ | hp
  · simp [ngx_dlg_auth_authenticate, hd] at h
  rcases ha : r.headers_in.authorization with _ | a
  · simp [ngx_dlg_auth_authenticate, hd, ha] at h
  unfold ngx_dlg_auth_authenticate at h
  simp only [hd, ha] at h
  split_ifs at h with h1 h2 h3 h4 h5 h6 h7
  iterate 7
    · have ho := Option.some.inj h
      subst ho
      simp at hc
  · refine ⟨hp, a, (lib.hawkc_parse_authorization_header a.value.bytes).2,
      (lib.ciron_unseal (lib.hawkc_parse_authorization_header a.value.bytes).2.id
        conf.pwd_table conf.iron_password).2,
      (ticket_from_string lib
        (lib.ciron_unseal (lib.hawkc_parse_authorization_header a.value.bytes).2.id
          conf.pwd_table conf.iron_password).2
        (lib.ciron_unseal (lib.hawkc_parse_authorization_header a.value.bytes).2.id
          conf.pwd_table conf.iron_password).2.length).2,
      ⟨hd, ha, ?_, ?_, ?_, ?_, ?_⟩, ?_⟩
    · exact Prod.ext (not_not.mp h1) rfl
    · exact not_lt.mp h4
    · exact not_lt.mp h5
    · exact Prod.ext (not_not.mp h6) rfl
    · exact Prod.ext (not_not.mp h7) rfl
    · exact (Option.some.inj h).symm

theorem SignatureValid_set_ctx (lib : Lib) (conf : ngx_http_dlg_auth_loc_conf_t)
    (r : ngx_http_request_t) (c : Option ngx_http_dlg_auth_ctx_t)
    (hp : ngx_str_t × ngx_str_t) (authorization : ngx_table_elt_t)
    (hdr : HawkcAuthorizationHeader) (json : Bytes) (ticket : Ticket)
    (h : SignatureValid lib conf r hp authorization hdr json ticket) :
    SignatureValid lib conf { r with ctx := c } hp authorization hdr json ticket := h

/-- The realm test of the scope check succeeds when the ticket grants the realm. -/
theorem ticket_has_scope_of_granted (conf : ngx_http_dlg_auth_loc_conf_t) (host : ngx_str_t)
    (ticket : Ticket) (buf : Bytes) (hdata : conf.realm.data = some buf)
    (hlen : conf.realm.len ≤ buf.length)
    (hscope : ∃ i, i < ticket.nrealms ∧ ticket.realms.getD i [] = conf.realm.bytes) :
    ticket_has_scope ticket (host.data.getD []) host.len (conf.realm.data.getD [])
      conf.realm.len = 1 := by
  unfold ticket_has_scope
  rw [hdata]
  have hb : conf.realm.bytes = buf.take conf.realm.len := by simp [ngx_str_t.bytes, hdata]
  rw [hb] at hscope
  exact (ticket_has_realm_bytes ticket buf conf.realm.len hlen).1.2 hscope

/-- The realm test of the scope check fails when the ticket does not grant the realm. -/
theorem ticket_has_scope_of_not_granted (conf : ngx_http_dlg_auth_loc_conf_t)
    (host : ngx_str_t) (ticket : Ticket) (buf : Bytes) (hdata : conf.realm.data = some buf)
    (hlen : conf.realm.len ≤ buf.length)
    (hscope : ¬ ∃ i, i < ticket.nrealms ∧ ticket.realms.getD i [] = conf.realm.bytes) :
    ticket_has_scope ticket (host.data.getD []) host.len (conf.realm.data.getD [])
      conf.realm.len = 0 := by
  unfold ticket_has_scope
  rw [hdata]
  have hb : conf.realm.bytes = buf.take conf.realm.len := by simp [ngx_str_t.bytes, hdata]
  rw [hb] at hscope
  exact (ticket_has_realm_bytes ticket buf conf.realm.len hlen).2.2 hscope

/-- The handler passes on what `ngx_dlg_auth_authenticate` returns when the location
applies and the request carries an `Authorization` header. -/
theorem handler_of_authenticate (lib : Lib) (conf : ngx_http_dlg_auth_loc_conf_t)
    (r : ngx_http_request_t) (buf : Bytes) (authorization : ngx_table_elt_t) (o : Outcome)
    (hdata : conf.realm.data = some buf) (hoff : conf.realm.bytes ≠ cstr "off")
    (ha : r.headers_in.authorization = some authorization)
    (ho : ngx_dlg_auth_authenticate lib conf
        { r with ctx := some ⟨ngx_null_string, ngx_null_string, ngx_null_string⟩ }
        ⟨ngx_null_string, ngx_null_string, ngx_null_string⟩ = some o) :
    ngx_dlg_auth_handler lib conf r
      = some (if o.rc ≠ NGX_OK then o
          else ⟨NGX_OK, ngx_dlg_auth_rename_authorization_header o.r, o.trace⟩) := by
  have hb : conf.realm.bytes = buf.take conf.realm.len := by
    simp [ngx_str_t.bytes, hdata]
  have hnoff : ¬ (conf.realm.len = 3 ∧ strncmp_eq ((some buf).getD []) (cstr "off") 3 = true) := by
    rintro ⟨h3, hs⟩
    apply hoff
    have := (strncmp_eq_off _).1 hs
    rw [hb, h3]
    simpa using this
  unfold ngx_dlg_auth_handler
  simp only [hdata, ha, ho]
  rw [if_neg (by simp), if_neg hnoff, if_neg (by simp)]
  split_ifs <;> rfl

theorem send_401_rc (lib : Lib) (r r' : ngx_http_request_t) (c : HawkcContext) :
    (ngx_dlg_auth_send_401 lib r c).1 = (ngx_dlg_auth_send_401 lib r' c).1 := by
  unfold ngx_dlg_auth_send_401
  simp only []
  split_ifs <;> rfl

theorem authenticate_authorize_rc (conf : ngx_http_dlg_auth_loc_conf_t)
    (r r' : ngx_http_request_t) (host : ngx_str_t) (ticket : Ticket) (now : Int)
    (tr tr' : List Event) (hm : r.method = r'.method) :
    (authenticate_authorize conf r host ticket now tr).rc
      = (authenticate_authorize conf r' host ticket now tr').rc := by
  unfold authenticate_authorize
  rw [hm]
  split_ifs <;> rfl

theorem authenticate_verify_rc (lib : Lib) (conf : ngx_http_dlg_auth_loc_conf_t)
    (r r' : ngx_http_request_t) (ctx ctx' : ngx_http_dlg_auth_ctx_t) (host : ngx_str_t)
    (c0 : HawkcContext) (ticket : Ticket) (tr tr' : List Event) (hm : r.method = r'.method) :
    (authenticate_verify lib conf r ctx host c0 ticket tr).rc
      = (authenticate_verify lib conf r' ctx' host c0 ticket tr').rc := by
  unfold authenticate_verify
  simp only []
  split_ifs
  · rfl
  · rfl
  · exact send_401_rc lib _ _ _
  · exact authenticate_authorize_rc conf _ _ host ticket lib.time _ _ hm

/-- The value `ngx_dlg_auth_authenticate` returns depends on the request only through the
method, its name, the request target, the `Authorization` header and the host and port
that `determine_host_and_port` yields. -/
theorem authenticate_rc (lib : Lib) (conf : ngx_http_dlg_auth_loc_conf_t)
    (r r' : ngx_http_request_t) (ctx ctx' : ngx_http_dlg_auth_ctx_t)
    (hd : determine_host_and_port conf r = determine_host_and_port conf r')
    (ha : r.headers_in.authorization = r'.headers_in.authorization)
    (hm : r.method = r'.method) (hn : r.method_name = r'.method_name)
    (hu : r.unparsed_uri = r'.unparsed_uri) :
    (ngx_dlg_auth_authenticate lib conf r ctx).map Outcome.rc
      = (ngx_dlg_auth_authenticate lib conf r' ctx').map Outcome.rc := by
  unfold ngx_dlg_auth_authenticate
  rw [← hd, ← ha, ← hn, ← hu]
  rcases determine_host_and_port conf r with _ | hp
  · rfl
  rcases r.headers_in.authorization with _ | a
  · rfl
  simp only []
  split_ifs
  · rfl
  · rfl
  · rfl
  · rfl
  · rfl
  · rfl
  · rfl
  · simp only [Option.map_some']
    exact congrArg some (authenticate_verify_rc lib conf r r' ctx ctx' _ _ _ _ _ hm)

/-- The value the handler returns, in terms of the value `ngx_dlg_auth_authenticate`
returns. -/
theorem handler_rc (lib : Lib) (conf : ngx_http_dlg_auth_loc_conf_t) (r : ngx_http_request_t) :
    (ngx_dlg_auth_handler lib conf r).map Outcome.rc
      = if conf.realm.data = none then some NGX_DECLINED
        else if conf.realm.len = 3
            ∧ strncmp_eq (conf.realm.data.getD []) (cstr "off") 3 = true then some NGX_DECLINED
        else if r.headers_in.authorization = none then some NGX_HTTP_UNAUTHORIZED
        else (ngx_dlg_auth_authenticate lib conf
            { r with ctx := some ⟨ngx_null_string, ngx_null_string, ngx_null_string⟩ }
            ⟨ngx_null_string, ngx_null_string, ngx_null_string⟩).map Outcome.rc := by
  unfold ngx_dlg_auth_handler
  simp only []
  split_ifs
  · rfl
  · rfl
  · rfl
  · rcases ngx_dlg_auth_authenticate lib conf
        { r with ctx := some ⟨ngx_null_string, ngx_null_string, ngx_null_string⟩ }
        ⟨ngx_null_string, ngx_null_string, ngx_null_string⟩ with _ | o
    · rfl
    · simp only [Option.map_some']
      split_ifs with h1
      · rfl
      · simp only [Option.map_some']
        exact congrArg some (not_not.mp h1).symm

theorem determine_host_and_port_no_override (conf : ngx_http_dlg_auth_loc_conf_t)
    (r : ngx_http_request_t) (h : ngx_table_elt_t) (hh : conf.host.len = 0)
    (hpo : conf.port.len = 0) (hhost : r.headers_in.host = some h) :
    determine_host_and_port conf r = some (ngx_null_string, ngx_null_string) := by
  unfold determine_host_and_port
  simp [hh, hpo, hhost, ngx_null_string]

theorem ticket_has_realm_loop_congr (t t' : Ticket) (realm : Bytes) (n : Nat)
    (hr : t.realms = t'.realms) :
    ∀ k i, ticket_has_realm_loop t realm n k i = ticket_has_realm_loop t' realm n k i := by
  intro k
  induction k with
  | zero => intro i; rfl
  | succ k ih =>
    intro i
    unfold ticket_has_realm_loop
    rw [hr, ih]

/-- The scope check does not look at the flag `rw`. -/
theorem ticket_has_scope_rw (ticket : Ticket) (v : Int) (host : Bytes) (host_len : Nat)
    (realm : Bytes) (realm_len : Nat) :
    ticket_has_scope { ticket with rw := v } host host_len realm realm_len
      = ticket_has_scope ticket host host_len realm realm_len := by
  unfold ticket_has_scope ticket_has_realm
  exact ticket_has_realm_loop_congr { ticket with rw := v } ticket realm realm_len rfl
    ticket.nrealms 0

/-- For a safe method the access checks are the expiry test and the scope check. -/
theorem authenticate_authorize_safe (conf : ngx_http_dlg_auth_loc_conf_t)
    (r : ngx_http_request_t) (host : ngx_str_t) (ticket : Ticket) (now : Int)
    (tr : List Event) (hu : ¬ IS_UNSAFE_METHOD r.method = true) :
    authenticate_authorize conf r host ticket now tr
      = if ticket.exp < now then
          ⟨(ngx_dlg_auth_send_simple_401 r conf.realm).1,
            (ngx_dlg_auth_send_simple_401 r conf.realm).2, tr⟩
        else if ticket_has_scope ticket (host.data.getD []) host.len
            (conf.realm.data.getD []) conf.realm.len = 0 then
          ⟨(ngx_dlg_auth_send_simple_401 r conf.realm).1,
            (ngx_dlg_auth_send_simple_401 r conf.realm).2, tr⟩
        else ⟨NGX_OK, r, tr⟩ := by
  unfold authenticate_authorize
  rw [if_neg (fun hc => hu hc.1)]

/-! ### The ticket parser -/

/-- On a literal without NUL, `strncmp` over the length of the literal compares the first
bytes of the buffer with the literal. -/
theorem strncmp_eq_lit (lit : Bytes) (h0 : ∀ c ∈ lit, c ≠ 0) :
    ∀ s : Bytes, strncmp_eq s lit lit.length = true ↔ s.take lit.length = lit := by
  induction lit with
  | nil => intro s; simp [strncmp_eq]
  | cons c cs ih =>
    intro s
    have hc : c ≠ 0 := h0 c (List.mem_cons_self _ _)
    have ih' := ih (fun x hx => h0 x (List.mem_cons_of_mem _ hx))
    cases s with
    | nil =>
      have : (0 : UInt8) ≠ c := fun h => hc h.symm
      simp [strncmp_eq, this]
    | cons a s' =>
      by_cases hac : a = c
      · subst hac
        simp [strncmp_eq, hc, ih' s']
      · simp [strncmp_eq, hac]

theorem key_cond_iff (input : Bytes) (t : jsmntok_t) (name : Bytes) (n : Nat)
    (hn : name.length = n) (h0 : ∀ c ∈ name, c ≠ 0) :
    (t.end_ - t.start = n
        ∧ strncmp_eq (input.drop t.start) name (t.end_ - t.start) = true)
      ↔ name_is input t name := by
  unfold name_is
  subst hn
  constructor
  · rintro ⟨h1, h2⟩
    rw [h1] at h2
    exact ⟨h1, (strncmp_eq_lit name h0 _).1 h2⟩
  · rintro ⟨h1, h2⟩
    refine ⟨h1, ?_⟩
    rw [h1]
    exact (strncmp_eq_lit name h0 _).2 h2

theorem name_is_unique (input : Bytes) (t : jsmntok_t) (a b : Bytes)
    (ha : name_is input t a) (hb : name_is input t b) : a = b := by
  obtain ⟨h1, h2⟩ := ha
  obtain ⟨h3, h4⟩ := hb
  have hl : a.length = b.length := h1.symm.trans h3
  rw [← h2, ← h4, hl]

/-- The dispatch on a string token, with the nine name tests written as `name_is`. -/
theorem ticket_dispatch_string (lib : Lib) (b : Builder)
    (ht : (b.tokens.getD b.i jsmntok_zero).type = jsmntype_t.JSMN_STRING) :
    ticket_dispatch lib b
      = if name_is b.input (b.tokens.getD b.i jsmntok_zero) (cstr "client") then
          ((do_string b b.ticket.client).1,
            { (do_string b b.ticket.client).2.1 with
              ticket := { (do_string b b.ticket.client).2.1.ticket with
                client := (do_string b b.ticket.client).2.2 } })
        else if name_is b.input (b.tokens.getD b.i jsmntok_zero) (cstr "pwd") then
          ((do_string b b.ticket.pwd).1,
            { (do_string b b.ticket.pwd).2.1 with
              ticket := { (do_string b b.ticket.pwd).2.1.ticket with
                pwd := (do_string b b.ticket.pwd).2.2 } })
        else if name_is b.input (b.tokens.getD b.i jsmntok_zero) (cstr "hawkAlgorithm") then
          do_algo lib b
        else if name_is b.input (b.tokens.getD b.i jsmntok_zero) (cstr "owner") then
          ((do_string b b.ticket.owner).1,
            { (do_string b b.ticket.owner).2.1 with
              ticket := { (do_string b b.ticket.owner).2.1.ticket with
                owner := (do_string b b.ticket.owner).2.2 } })
        else if name_is b.input (b.tokens.getD b.i jsmntok_zero) (cstr "scope") then
          do_scope b
        else if name_is b.input (b.tokens.getD b.i jsmntok_zero) (cstr "scopes") then
          do_scope b
        else if name_is b.input (b.tokens.getD b.i jsmntok_zero) (cstr "user") then
          ((do_string b b.ticket.user).1,
            { (do_string b b.ticket.user).2.1 with
              ticket := { (do_string b b.ticket.user).2.1.ticket with
                user := (do_string b b.ticket.user).2.2 } })
        else if name_is b.input (b.tokens.getD b.i jsmntok_zero) (cstr "exp") then
          ((do_time b b.ticket.exp).1,
            { (do_time b b.ticket.exp).2.1 with
              ticket := { (do_time b b.ticket.exp).2.1.ticket with
                exp := (do_time b b.ticket.exp).2.2 } })
        else if name_is b.input (b.tokens.getD b.i jsmntok_zero) (cstr "rw") then
          ((do_rw b).1,
            { (do_rw b).2.1 with
              ticket := { (do_rw b).2.1.ticket with rw := (do_rw b).2.2 } })
        else (TicketError.ERROR_UNEXPECTED_TOKEN_NAME, b) := by
  unfold ticket_dispatch
  simp only [ht]
  simp only [key_cond_iff b.input _ (cstr "client") 6 (by decide) (by decide),
    key_cond_iff b.input _ (cstr "pwd") 3 (by decide) (by decide),
    key_cond_iff b.input _ (cstr "hawkAlgorithm") 13 (by decide) (by decide),
    key_cond_iff b.input _ (cstr "owner") 5 (by decide) (by decide),
    key_cond_iff b.input _ (cstr "scope") 5 (by decide) (by decide),
    key_cond_iff b.input _ (cstr "scopes") 6 (by decide) (by decide),
    key_cond_iff b.input _ (cstr "user") 4 (by decide) (by decide),
    key_cond_iff b.input _ (cstr "exp") 3 (by decide) (by decide),
    key_cond_iff b.input _ (cstr "rw") 2 (by decide) (by decide)]

theorem do_string_builder (b : Builder) (s : Bytes) :
    (do_string b s).2.1 = { b with i := b.i + 1 } := by
  unfold do_string
  simp only []
  split_ifs <;> rfl

theorem do_time_builder (b : Builder) (tp : Int) :
    (do_time b tp).2.1 = { b with i := b.i + 1 } := by
  unfold do_time
  simp only []
  split_ifs
  · rfl
  · rfl
  · split <;> rfl

theorem do_rw_builder (b : Builder) : (do_rw b).2.1 = { b with i := b.i + 1 } := by
  unfold do_rw
  simp only []
  split_ifs <;> rfl

/-- The loop of `do_scope` advances the index by the number of iterations and touches
nothing but the realms. -/
theorem do_scope_loop_frame :
    ∀ (k i : Nat) (b : Builder), ∃ R,
      do_scope_loop k i b = { b with i := b.i + k, ticket := { b.ticket with realms := R } } := by
  intro k
  induction k with
  | zero => intro i b; exact ⟨b.ticket.realms, rfl⟩
  | succ k ih =>
    intro i b
    unfold do_scope_loop
    simp only [do_string_builder]
    obtain ⟨R, hR⟩ := ih (i + 1)
      { tokens := b.tokens, i := b.i + 1,
        ticket := { b.ticket with
          realms := b.ticket.realms.set i (do_string b (b.ticket.realms.getD i [])).2.2 },
        ntokens := b.ntokens, input := b.input }
    refine ⟨R, ?_⟩
    rw [hR]
    simp only [Builder.mk.injEq, true_and, and_true]
    omega

theorem do_scope_frame (b : Builder) :
    ∃ i' R n, (do_scope b).2 = { b with i := i', ticket := { b.ticket with realms := R, nrealms := n } }
      ∧ b.i + 1 ≤ i' := by
  unfold do_scope
  simp only []
  split_ifs
  · exact ⟨b.i + 1, b.ticket.realms, b.ticket.nrealms, rfl, le_refl _⟩
  · exact ⟨b.i + 1, b.ticket.realms, b.ticket.nrealms, rfl, le_refl _⟩
  · exact ⟨b.i + 1, b.ticket.realms, b.ticket.nrealms, rfl, le_refl _⟩
  · obtain ⟨R, hR⟩ := do_scope_loop_frame
      (b.tokens.getD (b.i + 1) jsmntok_zero).size 0 { b with i := b.i + 1 }
    refine ⟨b.i + 1 + (b.tokens.getD (b.i + 1) jsmntok_zero).size, R,
      (b.tokens.getD (b.i + 1) jsmntok_zero).size, ?_, by omega⟩
    simp only [hR]

theorem do_algo_frame (lib : Lib) (b : Builder) :
    ∃ x, (do_algo lib b).2
        = { b with i := b.i + 1, ticket := { b.ticket with hawkAlgorithm := x } }
      ∧ (x = b.ticket.hawkAlgorithm
        ∨ ((do_algo lib b).1 = TicketError.OK
            ∧ ∃ name a, lib.hawkc_algorithm_by_name name = some a ∧ x = some a)) := by
  unfold do_algo
  simp only [do_string_builder]
  split_ifs with h1
  · exact ⟨b.ticket.hawkAlgorithm, rfl, Or.inl rfl⟩
  · rcases hl : lib.hawkc_algorithm_by_name (do_string b []).2.2 with _ | a
    · exact ⟨b.ticket.hawkAlgorithm, rfl, Or.inl rfl⟩
    · exact ⟨some a, rfl, Or.inr ⟨rfl, _, a, hl, rfl⟩⟩

/-- The eleven ways a dispatch can go: on a token that is not a string the builder is
returned as it is; on a key, the function for that key runs; on any other string the name
error is returned. -/
theorem ticket_dispatch_cases (lib : Lib) (b : Builder) :
    ((b.tokens.getD b.i jsmntok_zero).type ≠ jsmntype_t.JSMN_STRING
        ∧ ∃ e, ticket_dispatch lib b = (e, b))
    ∨ (key_is b.input (b.tokens.getD b.i jsmntok_zero) "client"
        ∧ ticket_dispatch lib b
          = ((do_string b b.ticket.client).1,
              { b with i := b.i + 1,
                       ticket := { b.ticket with client := (do_string b b.ticket.client).2.2 } }))
    ∨ (key_is b.input (b.tokens.getD b.i jsmntok_zero) "pwd"
        ∧ ticket_dispatch lib b
          = ((do_string b b.ticket.pwd).1,
              { b with i := b.i + 1,
                       ticket := { b.ticket with pwd := (do_string b b.ticket.pwd).2.2 } }))
    ∨ (key_is b.input (b.tokens.getD b.i jsmntok_zero) "hawkAlgorithm"
        ∧ ticket_dispatch lib b = do_algo lib b)
    ∨ (key_is b.input (b.tokens.getD b.i jsmntok_zero) "owner"
        ∧ ticket_dispatch lib b
          = ((do_string b b.ticket.owner).1,
              { b with i := b.i + 1,
                       ticket := { b.ticket with owner := (do_string b b.ticket.owner).2.2 } }))
    ∨ (key_is b.input (b.tokens.getD b.i jsmntok_zero) "scope"
        ∧ ticket_dispatch lib b = do_scope b)
    ∨ (key_is b.input (b.tokens.getD b.i jsmntok_zero) "scopes"
        ∧ ticket_dispatch lib b = do_scope b)
    ∨ (key_is b.input (b.tokens.getD b.i jsmntok_zero) "user"
        ∧ ticket_dispatch lib b
          = ((do_string b b.ticket.user).1,
              { b with i := b.i + 1,
                       ticket := { b.ticket with user := (do_string b b.ticket.user).2.2 } }))
    ∨ (key_is b.input (b.tokens.getD b.i jsmntok_zero) "exp"
        ∧ ticket_dispatch lib b
          = ((do_time b b.ticket.exp).1,
              { b with i := b.i + 1,
                       ticket := { b.ticket with exp := (do_time b b.ticket.exp).2.2 } }))
    ∨ (key_is b.input (b.tokens.getD b.i jsmntok_zero) "rw"
        ∧ ticket_dispatch lib b
          = ((do_rw b).1,
              { b with i := b.i + 1, ticket := { b.ticket with rw := (do_rw b).2.2 } }))
    ∨ ((b.tokens.getD b.i jsmntok_zero).type = jsmntype_t.JSMN_STRING
        ∧ ticket_dispatch lib b = (TicketError.ERROR_UNEXPECTED_TOKEN_NAME, b)) := by
  by_cases ht : (b.tokens.getD b.i jsmntok_zero).type = jsmntype_t.JSMN_STRING
  · right
    have hd := ticket_dispatch_string lib b ht
    by_cases h1 : name_is b.input (b.tokens.getD b.i jsmntok_zero) (cstr "client")
    · rw [if_pos h1, do_string_builder] at hd
      exact Or.inl ⟨⟨ht, h1⟩, hd⟩
    right
    rw [if_neg h1] at hd
    by_cases h2 : name_is b.input (b.tokens.getD b.i jsmntok_zero) (cstr "pwd")
    · rw [if_pos h2, do_string_builder] at hd
      exact Or.inl ⟨⟨ht, h2⟩, hd⟩
    right
    rw [if_neg h2] at hd
    by_cases h3 : name_is b.input (b.tokens.getD b.i jsmntok_zero) (cstr "hawkAlgorithm")
    · rw [if_pos h3] at hd
      exact Or.inl ⟨⟨ht, h3⟩, hd⟩
    right
    rw [if_neg h3] at hd
    by_cases h4 : name_is b.input (b.tokens.getD b.i jsmntok_zero) (cstr "owner")
    · rw [if_pos h4, do_string_builder] at hd
      exact Or.inl ⟨⟨ht, h4⟩, hd⟩
    right
    rw [if_neg h4] at hd
    by_cases h5 : name_is b.input (b.tokens.getD b.i jsmntok_zero) (cstr "scope")
    · rw [if_pos h5] at hd
      exact Or.inl ⟨⟨ht, h5⟩, hd⟩
    right
    rw [if_neg h5] at hd
    by_cases h6 : name_is b.input (b.tokens.getD b.i jsmntok_zero) (cstr "scopes")
    · rw [if_pos h6] at hd
      exact Or.inl ⟨⟨ht, h6⟩, hd⟩
    right
    rw [if_neg h6] at hd
    by_cases h7 : name_is b.input (b.tokens.getD b.i jsmntok_zero) (cstr "user")
    · rw [if_pos h7, do_string_builder] at hd
      exact Or.inl ⟨⟨ht, h7⟩, hd⟩
    right
    rw [if_neg h7] at hd
    by_cases h8 : name_is b.input (b.tokens.getD b.i jsmntok_zero) (cstr "exp")
    · rw [if_pos h8, do_time_builder] at hd
      exact Or.inl ⟨⟨ht, h8⟩, hd⟩
    right
    rw [if_neg h8] at hd
    by_cases h9 : name_is b.input (b.tokens.getD b.i jsmntok_zero) (cstr "rw")
    · rw [if_pos h9, do_rw_builder] at hd
      exact Or.inl ⟨⟨ht, h9⟩, hd⟩
    right
    rw [if_neg h9] at hd
    exact ⟨ht, hd⟩
  · left
    refine ⟨ht, ?_⟩
    rcases ht' : (b.tokens.getD b.i jsmntok_zero).type with _ | _ | _ | _
    · exact ⟨TicketError.ERROR_UNEXPECTED_TOKEN_TYPE, by unfold ticket_dispatch; simp only [ht']⟩
    · by_cases h0 : b.i ≠ 0
      · exact ⟨TicketError.ERROR_UNEXPECTED_TOKEN_TYPE, by
          unfold ticket_dispatch; simp only [ht']; rw [if_pos h0]⟩
      · exact ⟨TicketError.OK, by
          unfold ticket_dispatch; simp only [ht']; rw [if_neg h0]⟩
    · exact ⟨TicketError.ERROR_UNEXPECTED_TOKEN_TYPE, by unfold ticket_dispatch; simp only [ht']⟩
    · exact absurd ht' ht

/-- One dispatch leaves tokens and input alone, never moves the index back, sets
`hawkAlgorithm` only on a key `hawkAlgorithm` (to a result of the lookup) and `pwd` only
on a key `pwd`. -/
theorem ticket_dispatch_frame (lib : Lib) (b : Builder) :
    (ticket_dispatch lib b).2.tokens = b.tokens
    ∧ (ticket_dispatch lib b).2.ntokens = b.ntokens
    ∧ (ticket_dispatch lib b).2.input = b.input
    ∧ b.i ≤ (ticket_dispatch lib b).2.i
    ∧ ((ticket_dispatch lib b).2.ticket.hawkAlgorithm = b.ticket.hawkAlgorithm
        ∨ (key_is b.input (b.tokens.getD b.i jsmntok_zero) "hawkAlgorithm"
            ∧ ∃ name a, lib.hawkc_algorithm_by_name name = some a
                ∧ (ticket_dispatch lib b).2.ticket.hawkAlgorithm = some a))
    ∧ ((ticket_dispatch lib b).2.ticket.pwd = b.ticket.pwd
        ∨ key_is b.input (b.tokens.getD b.i jsmntok_zero) "pwd") := by
  rcases ticket_dispatch_cases lib b with
    ⟨_, e, hd⟩ | ⟨_, hd⟩ | ⟨hk, hd⟩ | ⟨hk, hd⟩ | ⟨_, hd⟩ | ⟨_, hd⟩ | ⟨_, hd⟩ | ⟨_, hd⟩
      | ⟨_, hd⟩ | ⟨_, hd⟩ | ⟨_, hd⟩
  · rw [hd]; exact ⟨rfl, rfl, rfl, le_refl _, Or.inl rfl, Or.inl rfl⟩
  · rw [hd]; exact ⟨rfl, rfl, rfl, Nat.le_succ _, Or.inl rfl, Or.inl rfl⟩
  · rw [hd]; exact ⟨rfl, rfl, rfl, Nat.le_succ _, Or.inl rfl, Or.inr hk⟩
  · rw [hd]
    obtain ⟨x, hx, hx'⟩ := do_algo_frame lib b
    rw [hx]
    refine ⟨rfl, rfl, rfl, Nat.le_succ _, ?_, Or.inl rfl⟩
    rcases hx' with hx' | ⟨_, name, a, hl, hxa⟩
    · exact Or.inl hx'
    · exact Or.inr ⟨hk, name, a, hl, hxa⟩
  · rw [hd]; exact ⟨rfl, rfl, rfl, Nat.le_succ _, Or.inl rfl, Or.inl rfl⟩
  · rw [hd]
    obtain ⟨i', R, n, hx, hi⟩ := do_scope_frame b
    rw [hx]
    exact ⟨rfl, rfl, rfl, by show b.i ≤ i'; omega, Or.inl rfl, Or.inl rfl⟩
  · rw [hd]
    obtain ⟨i', R, n, hx, hi⟩ := do_scope_frame b
    rw [hx]
    exact ⟨rfl, rfl, rfl, by show b.i ≤ i'; omega, Or.inl rfl, Or.inl rfl⟩
  · rw [hd]; exact ⟨rfl, rfl, rfl, Nat.le_succ _, Or.inl rfl, Or.inl rfl⟩
  · rw [hd]; exact ⟨rfl, rfl, rfl, Nat.le_succ _, Or.inl rfl, Or.inl rfl⟩
  · rw [hd]; exact ⟨rfl, rfl, rfl, Nat.le_succ _, Or.inl rfl, Or.inl rfl⟩
  · rw [hd]; exact ⟨rfl, rfl, rfl, le_refl _, Or.inl rfl, Or.inl rfl⟩

/-- A property of the builder that every successful iteration keeps holds of the result
of the loop when the loop returns `OK`. -/
theorem ticket_loop_invariant (lib : Lib) (P : Builder → Prop)
    (hstep : ∀ b, P b → b.i < b.ntokens → (ticket_dispatch lib b).1 = TicketError.OK →
      P { (ticket_dispatch lib b).2 with i := (ticket_dispatch lib b).2.i + 1 }) :
    ∀ (fuel : Nat) (b : Builder), P b → (ticket_loop lib fuel b).1 = TicketError.OK →
      P (ticket_loop lib fuel b).2 := by
  intro fuel
  induction fuel with
  | zero =>
    intro b _ h
    simp [ticket_loop] at h
  | succ fuel ih =>
    intro b hb h
    unfold ticket_loop at h ⊢
    by_cases hi : b.i < b.ntokens
    · rw [if_pos hi] at h ⊢
      simp only [] at h ⊢
      by_cases hd : (ticket_dispatch lib b).1 = TicketError.OK
      · rw [if_neg (not_not.mpr hd)] at h ⊢
        exact ih _ (hstep b hb hi hd) h
      · rw [if_pos hd] at h
        exact absurd h hd
    · rw [if_neg hi]
      exact hb

theorem ticket_iterations_frame (lib : Lib) :
    ∀ (k : Nat) (b b' : Builder), ticket_iterations lib k b = some b' →
      b'.tokens = b.tokens ∧ b'.ntokens = b.ntokens ∧ b'.input = b.input ∧ b.i + k ≤ b'.i := by
  intro k
  induction k with
  | zero =>
    intro b b' h
    have := Option.some.inj h
    subst this
    exact ⟨rfl, rfl, rfl, le_refl _⟩
  | succ k ih =>
    intro b b' h
    unfold ticket_iterations at h
    split_ifs at h with h1 h2
    obtain ⟨f1, f2, f3, f4, _⟩ := ticket_dispatch_frame lib b
    obtain ⟨g1, g2, g3, g4⟩ := ih _ b' h
    refine ⟨g1.trans f1, g2.trans f2, g3.trans f3, ?_⟩
    have : (ticket_dispatch lib b).2.i + 1 + k ≤ b'.i := g4
    omega

/-- After `k` iterations without error the loop goes on from the builder they lead to. -/
theorem ticket_loop_of_iterations (lib : Lib) :
    ∀ (k : Nat) (b b' : Builder) (fuel : Nat), ticket_iterations lib k b = some b' →
      k ≤ fuel → ticket_loop lib fuel b = ticket_loop lib (fuel - k) b' := by
  intro k
  induction k with
  | zero =>
    intro b b' fuel h _
    have := Option.some.inj h
    subst this
    rfl
  | succ k ih =>
    intro b b' fuel h hk
    unfold ticket_iterations at h
    split_ifs at h with h1 h2
    obtain ⟨fuel', rfl⟩ : ∃ f, fuel = f + 1 := ⟨fuel - 1, by omega⟩
    rw [ticket_loop]
    rw [if_pos h1]
    simp only []
    rw [if_neg h2, ih _ b' fuel' h (by omega)]
    congr 1
    omega

/-- An error of the dispatch on a builder that iterations without error lead to is the
result of `ticket_from_string`. -/
theorem ticket_from_string_of_iterations (lib : Lib) (json : Bytes) (len : Nat)
    (tokens : List jsmntok_t) (k : Nat) (b : Builder)
    (hparse : lib.jsmn_parse json len MAX_TOKENS = (jsmnerr_t.JSMN_SUCCESS, tokens))
    (hk : ticket_iterations lib k (initial_builder json tokens) = some b)
    (hi : b.i < b.ntokens)
    (herr : (ticket_dispatch lib b).1 ≠ TicketError.OK) :
    (ticket_from_string lib json len).1 = (ticket_dispatch lib b).1 := by
  obtain ⟨_, f2, _, f4⟩ := ticket_iterations_frame lib k _ b hk
  have hn : b.ntokens = tokens.length := f2
  have hkl : k + 1 ≤ tokens.length + 1 := by
    have : 0 + k ≤ b.i := f4
    omega
  unfold ticket_from_string
  simp only [hparse]
  have hloop := ticket_loop_of_iterations lib k (initial_builder json tokens) b
    (tokens.length + 1) hk (by omega)
  unfold initial_builder at hloop
  rw [hloop]
  obtain ⟨f, hf⟩ : ∃ f, tokens.length + 1 - k = f + 1 := ⟨tokens.length - k, by omega⟩
  rw [hf, ticket_loop, if_pos hi]
  simp only []
  rw [if_pos herr]

theorem ticket_dispatch_client (lib : Lib) (b : Builder)
    (hk : key_is b.input (b.tokens.getD b.i jsmntok_zero) "client") :
    ticket_dispatch lib b
      = ((do_string b b.ticket.client).1,
          { b with i := b.i + 1,
                   ticket := { b.ticket with client := (do_string b b.ticket.client).2.2 } }) := by
  rw [ticket_dispatch_string lib b hk.1,
    if_pos hk.2, do_string_builder]

theorem ticket_dispatch_pwd (lib : Lib) (b : Builder)
    (hk : key_is b.input (b.tokens.getD b.i jsmntok_zero) "pwd") :
    ticket_dispatch lib b
      = ((do_string b b.ticket.pwd).1,
          { b with i := b.i + 1,
                   ticket := { b.ticket with pwd := (do_string b b.ticket.pwd).2.2 } }) := by
  rw [ticket_dispatch_string lib b hk.1,
    if_neg (fun h => absurd (name_is_unique _ _ _ _ hk.2 h) (by decide)),
    if_pos hk.2, do_string_builder]

theorem ticket_dispatch_hawkAlgorithm (lib : Lib) (b : Builder)
    (hk : key_is b.input (b.tokens.getD b.i jsmntok_zero) "hawkAlgorithm") :
    ticket_dispatch lib b
      = do_algo lib b := by
  rw [ticket_dispatch_string lib b hk.1,
    if_neg (fun h => absurd (name_is_unique _ _ _ _ hk.2 h) (by decide)),
    if_neg (fun h => absurd (name_is_unique _ _ _ _ hk.2 h) (by decide)),
    if_pos hk.2]

theorem ticket_dispatch_owner (lib : Lib) (b : Builder)
    (hk : key_is b.input (b.tokens.getD b.i jsmntok_zero) "owner") :
    ticket_dispatch lib b
      = ((do_string b b.ticket.owner).1,
          { b with i := b.i + 1,
                   ticket := { b.ticket with owner := (do_string b b.ticket.owner).2.2 } }) := by
  rw [ticket_dispatch_string lib b hk.1,
    if_neg (fun h => absurd (name_is_unique _ _ _ _ hk.2 h) (by decide)),
    if_neg (fun h => absurd (name_is_unique _ _ _ _ hk.2 h) (by decide)),
    if_neg (fun h => absurd (name_is_unique _ _ _ _ hk.2 h) (by decide)),
    if_pos hk.2, do_string_builder]

theorem ticket_dispatch_scope (lib : Lib) (b : Builder)
    (hk : key_is b.input (b.tokens.getD b.i jsmntok_zero) "scope") :
    ticket_dispatch lib b
      = do_scope b := by
  rw [ticket_dispatch_string lib b hk.1,
    if_neg (fun h => absurd (name_is_unique _ _ _ _ hk.2 h) (by decide)),
    if_neg (fun h => absurd (name_is_unique _ _ _ _ hk.2 h) (by decide)),
    if_neg (fun h => absurd (name_is_unique _ _ _ _ hk.2 h) (by decide)),
    if_neg (fun h => absurd (name_is_unique _ _ _ _ hk.2 h) (by decide)),
    if_pos hk.2]

theorem ticket_dispatch_scopes (lib : Lib) (b : Builder)
    (hk : key_is b.input (b.tokens.getD b.i jsmntok_zero) "scopes") :
    ticket_dispatch lib b
      = do_scope b := by
  rw [ticket_dispatch_string lib b hk.1,
    if_neg (fun h => absurd (name_is_unique _ _ _ _ hk.2 h) (by decide)),
    if_neg (fun h => absurd (name_is_unique _ _ _ _ hk.2 h) (by decide)),
    if_neg (fun h => absurd (name_is_unique _ _ _ _ hk.2 h) (by decide)),
    if_neg (fun h => absurd (name_is_unique _ _ _ _ hk.2 h) (by decide)),
    if_neg (fun h => absurd (name_is_unique _ _ _ _ hk.2 h) (by decide)),
    if_pos hk.2]

theorem ticket_dispatch_user (lib : Lib) (b : Builder)
    (hk : key_is b.input (b.tokens.getD b.i jsmntok_zero) "user") :
    ticket_dispatch lib b
      = ((do_string b b.ticket.user).1,
          { b with i := b.i + 1,
                   ticket := { b.ticket with user := (do_string b b.ticket.user).2.2 } }) := by
  rw [ticket_dispatch_string lib b hk.1,
    if_neg (fun h => absurd (name_is_unique _ _ _ _ hk.2 h) (by decide)),
    if_neg (fun h => absurd (name_is_unique _ _ _ _ hk.2 h) (by decide)),
    if_neg (fun h => absurd (name_is_unique _ _ _ _ hk.2 h) (by decide)),
    if_neg (fun h => absurd (name_is_unique _ _ _ _ hk.2 h) (by decide)),
    if_neg (fun h => absurd (name_is_unique _ _ _ _ hk.2 h) (by decide)),
    if_neg (fun h => absurd (name_is_unique _ _ _ _ hk.2 h) (by decide)),
    if_pos hk.2, do_string_builder]

theorem ticket_dispatch_exp (lib : Lib) (b : Builder)
    (hk : key_is b.input (b.tokens.getD b.i jsmntok_zero) "exp") :
    ticket_dispatch lib b
      = ((do_time b b.ticket.exp).1,
          { b with i := b.i + 1,
                   ticket := { b.ticket with exp := (do_time b b.ticket.exp).2.2 } }) := by
  rw [ticket_dispatch_string lib b hk.1,
    if_neg (fun h => absurd (name_is_unique _ _ _ _ hk.2 h) (by decide)),
    if_neg (fun h => absurd (name_is_unique _ _ _ _ hk.2 h) (by decide)),
    if_neg (fun h => absurd (name_is_unique _ _ _ _ hk.2 h) (by decide)),
    if_neg (fun h => absurd (name_is_unique _ _ _ _ hk.2 h) (by decide)),
    if_neg (fun h => absurd (name_is_unique _ _ _ _ hk.2 h) (by decide)),
    if_neg (fun h => absurd (name_is_unique _ _ _ _ hk.2 h) (by decide)),
    if_neg (fun h => absurd (name_is_unique _ _ _ _ hk.2 h) (by decide)),
    if_pos hk.2, do_time_builder]

theorem ticket_dispatch_rw (lib : Lib) (b : Builder)
    (hk : key_is b.input (b.tokens.getD b.i jsmntok_zero) "rw") :
    ticket_dispatch lib b
      = ((do_rw b).1,
          { b with i := b.i + 1, ticket := { b.ticket with rw := (do_rw b).2.2 } }) := by
  rw [ticket_dispatch_string lib b hk.1,
    if_neg (fun h => absurd (name_is_unique _ _ _ _ hk.2 h) (by decide)),
    if_neg (fun h => absurd (name_is_unique _ _ _ _ hk.2 h) (by decide)),
    if_neg (fun h => absurd (name_is_unique _ _ _ _ hk.2 h) (by decide)),
    if_neg (fun h => absurd (name_is_unique _ _ _ _ hk.2 h) (by decide)),
    if_neg (fun h => absurd (name_is_unique _ _ _ _ hk.2 h) (by decide)),
    if_neg (fun h => absurd (name_is_unique _ _ _ _ hk.2 h) (by decide)),
    if_neg (fun h => absurd (name_is_unique _ _ _ _ hk.2 h) (by decide)),
    if_neg (fun h => absurd (name_is_unique _ _ _ _ hk.2 h) (by decide)),
    if_pos hk.2, do_rw_builder]

theorem do_string_wrong_type (b : Builder) (s : Bytes) (hv : b.i + 1 < b.ntokens)
    (ht : (b.tokens.getD (b.i + 1) jsmntok_zero).type ≠ jsmntype_t.JSMN_STRING) :
    (do_string b s).1 = TicketError.ERROR_UNEXPECTED_TOKEN_TYPE := by
  unfold do_string
  simp only []
  rw [if_neg (by simp only [ge_iff_le, not_le]; exact hv), if_pos ht]

theorem do_time_wrong_type (b : Builder) (tp : Int) (hv : b.i + 1 < b.ntokens)
    (ht : (b.tokens.getD (b.i + 1) jsmntok_zero).type ≠ jsmntype_t.JSMN_PRIMITIVE) :
    (do_time b tp).1 = TicketError.ERROR_UNEXPECTED_TOKEN_TYPE := by
  unfold do_time
  simp only []
  rw [if_neg (by simp only [ge_iff_le, not_le]; exact hv), if_pos ht]

theorem do_scope_wrong_type (b : Builder) (hv : b.i + 1 < b.ntokens)
    (ht : (b.tokens.getD (b.i + 1) jsmntok_zero).type ≠ jsmntype_t.JSMN_ARRAY) :
    (do_scope b).1 = TicketError.ERROR_UNEXPECTED_TOKEN_TYPE := by
  unfold do_scope
  simp only []
  rw [if_neg (by simp only [ge_iff_le, not_le]; exact hv), if_pos ht]

theorem do_algo_wrong_type (lib : Lib) (b : Builder) (hv : b.i + 1 < b.ntokens)
    (ht : (b.tokens.getD (b.i + 1) jsmntok_zero).type ≠ jsmntype_t.JSMN_STRING) :
    (do_algo lib b).1 = TicketError.ERROR_UNEXPECTED_TOKEN_TYPE := by
  unfold do_algo
  simp only []
  have h := do_string_wrong_type b [] hv ht
  rw [if_pos (by rw [h]; decide), h]

theorem do_rw_ok (b : Builder) (hv : b.i + 1 < b.ntokens) : (do_rw b).1 = TicketError.OK := by
  unfold do_rw
  simp only []
  rw [if_neg (by simp only [ge_iff_le, not_le]; exact hv)]
  split_ifs <;> rfl

theorem my_digittoint_digit (c : UInt8) (h : isdigit c = true) :
    my_digittoint c = ((c.toNat - 48 : Nat) : Int) := by
  unfold isdigit at h
  simp only [Bool.and_eq_true, decide_eq_true_eq] at h
  simp only [my_digittoint, char_val]
  split_ifs <;> omega

theorem digits_foldl_ge : ∀ (cs : Bytes) (n : Nat),
    n ≤ cs.foldl (fun acc c => acc * 10 + (c.toNat - 48)) n := by
  intro cs
  induction cs with
  | nil => intro n; exact le_refl _
  | cons c cs ih =>
    intro n
    rw [List.foldl_cons]
    have := ih (n * 10 + (c.toNat - 48))
    omega

theorem do_time_loop_digits : ∀ (cs : Bytes) (n : Nat),
    (∀ c ∈ cs, isdigit c = true) →
    cs.foldl (fun acc c => acc * 10 + (c.toNat - 48)) n < 2 ^ 63 →
    do_time_loop cs (n : Int)
      = some ((cs.foldl (fun acc c => acc * 10 + (c.toNat - 48)) n : Nat) : Int) := by
  intro cs
  induction cs with
  | nil => intro n _ _; rfl
  | cons c cs ih =>
    intro n hd hfit
    have hc : isdigit c = true := hd c (List.mem_cons_self _ _)
    rw [List.foldl_cons] at hfit ⊢
    have hge := digits_foldl_ge cs (n * 10 + (c.toNat - 48))
    have hb : n * 10 + (c.toNat - 48) < 2 ^ 63 := lt_of_le_of_lt hge hfit
    unfold do_time_loop
    rw [hc, my_digittoint_digit c hc]
    have h1 : wrap64 ((n : Int) * 10) = (n : Int) * 10 := by
      apply wrap64_of_bounds
      · norm_num; omega
      · norm_num at hb ⊢; omega
    have h2 : wrap64 ((n : Int) * 10 + ((c.toNat - 48 : Nat) : Int))
        = ((n * 10 + (c.toNat - 48) : Nat) : Int) := by
      rw [wrap64_of_bounds]
      · push_cast; rfl
      · norm_num; omega
      · norm_num at hb ⊢; omega
    rw [h1, h2]
    simp only [Bool.not_true, Bool.false_eq_true, if_false]
    exact ih _ (fun x hx => hd x (List.mem_cons_of_mem _ hx)) hfit

theorem char_digit_iff (c : UInt8) :
    ¬ (char_val c < 48 ∨ char_val c > 57) ↔ isdigit c = true := by
  have h256 : c.toNat < 256 := c.val.isLt
  unfold isdigit char_val
  simp only [Bool.and_eq_true, decide_eq_true_eq]
  split_ifs <;> omega

theorem is_digits_only_loop_spec (str : ngx_str_t) :
    ∀ fuel i, (is_digits_only_loop str fuel i = 1
        ↔ ∀ j, i ≤ j → j < i + fuel → j < str.len →
            isdigit ((str.data.getD []).getD j 0) = true)
      ∧ (is_digits_only_loop str fuel i = 0 ∨ is_digits_only_loop str fuel i = 1) := by
  intro fuel
  induction fuel with
  | zero =>
    intro i
    refine ⟨⟨fun _ j h1 h2 _ => by omega, fun _ => rfl⟩, Or.inr rfl⟩
  | succ fuel ih =>
    intro i
    unfold is_digits_only_loop
    by_cases hi : i < str.len
    · rw [if_pos hi]
      by_cases hc : char_val ((str.data.getD []).getD i 0) < 48
          ∨ char_val ((str.data.getD []).getD i 0) > 57
      · rw [if_pos hc]
        refine ⟨⟨fun h => absurd h (by decide), fun h => ?_⟩, Or.inl rfl⟩
        exact absurd ((char_digit_iff _).2 (h i (le_refl _) (by omega) hi)) (not_not.mpr hc)
      · rw [if_neg hc]
        refine ⟨?_, (ih (i + 1)).2⟩
        rw [(ih (i + 1)).1]
        constructor
        · intro h j h1 h2 h3
          by_cases hj : j = i
          · subst hj; exact (char_digit_iff _).1 hc
          · exact h j (by omega) (by omega) h3
        · intro h j h1 h2 h3
          exact h j (by omega) (by omega) h3
    · rw [if_neg hi]
      refine ⟨⟨fun _ j h1 _ h3 => by omega, fun _ => rfl⟩, Or.inr rfl⟩

theorem is_digits_only_spec (str : ngx_str_t) (buf : Bytes) (hdata : str.data = some buf)
    (hlen : str.len ≤ buf.length) :
    (is_digits_only str = 1 ↔ ∀ c ∈ str.bytes, isdigit c = true)
    ∧ (is_digits_only str = 0 ↔ ∃ c ∈ str.bytes, isdigit c = false) := by
  have hb : str.bytes = buf.take str.len := by simp [ngx_str_t.bytes, hdata]
  have h1 : is_digits_only str = 1 ↔ ∀ c ∈ str.bytes, isdigit c = true := by
    unfold is_digits_only
    rw [(is_digits_only_loop_spec str str.len 0).1, hb, hdata]
    constructor
    · intro h c hc
      obtain ⟨j, hj, rfl⟩ := List.mem_iff_getElem.mp hc
      rw [List.length_take] at hj
      have := h j (Nat.zero_le _) (by omega) (by omega)
      rw [List.getElem_take]
      simpa [List.getD_eq_getElem?_getD, List.getElem?_eq_getElem (show j < buf.length by omega)] using this
    · intro h j _ _ hj
      have hjb : j < buf.length := by omega
      have hm : buf[j] ∈ buf.take str.len := by
        rw [List.mem_iff_getElem]
        exact ⟨j, by rw [List.length_take]; omega, by rw [List.getElem_take]⟩
      have := h _ hm
      simpa [List.getD_eq_getElem?_getD, List.getElem?_eq_getElem hjb] using this
  refine ⟨h1, ?_⟩
  rcases (is_digits_only_loop_spec str str.len 0).2 with h | h
  · have h0 : is_digits_only str = 0 := h
    have hn1 : ¬ is_digits_only str = 1 := by rw [h0]; decide
    rw [h1] at hn1
    push_neg at hn1
    obtain ⟨c, hc, hcd⟩ := hn1
    refine ⟨fun _ => ⟨c, hc, by simpa using hcd⟩, fun _ => h0⟩
  · have h1' : is_digits_only str = 1 := h
    refine ⟨fun h0 => absurd (h0.symm.trans h1') (by decide), ?_⟩
    rintro ⟨c, hc, hcd⟩
    have := (h1.1 h1') c hc
    rw [this] at hcd
    exact absurd hcd (by decide)

/-! ### The ticket parser: reachable builders -/

/-- An iteration without error from a builder that `k` iterations lead to is what `k + 1`
iterations lead to. -/
theorem ticket_iterations_succ (lib : Lib) :
    ∀ (k : Nat) (b0 b : Builder), ticket_iterations lib k b0 = some b → b.i < b.ntokens →
      (ticket_dispatch lib b).1 = TicketError.OK →
      ticket_iterations lib (k + 1) b0
        = some { (ticket_dispatch lib b).2 with i := (ticket_dispatch lib b).2.i + 1 } := by
  intro k
  induction k with
  | zero =>
    intro b0 b h hi hd
    have := Option.some.inj h
    subst this
    rw [ticket_iterations, if_pos hi, if_neg (not_not.mpr hd)]
    rfl
  | succ k ih =>
    intro b0 b h hi hd
    rw [ticket_iterations] at h
    split_ifs at h with h1 h2
    rw [ticket_iterations, if_pos h1, if_neg h2]
    exact ih _ b h hi hd

/-- Iterations without error stay within the tokens. -/
theorem ticket_iterations_bound (lib : Lib) :
    ∀ (k : Nat) (b0 b : Builder), ticket_iterations lib k b0 = some b →
      k = 0 ∨ b0.i + k ≤ b0.ntokens := by
  intro k
  induction k with
  | zero => intro _ _ _; exact Or.inl rfl
  | succ k ih =>
    intro b0 b h
    rw [ticket_iterations] at h
    split_ifs at h with h1 h2
    obtain ⟨_, f2, _, f4, _⟩ := ticket_dispatch_frame lib b0
    rcases ih _ b h with h0 | hle
    · right; omega
    · right
      have hle' : (ticket_dispatch lib b0).2.i + 1 + k ≤ (ticket_dispatch lib b0).2.ntokens := hle
      rw [f2] at hle'
      omega

/-- When the loop returns `OK` no token is left. -/
theorem ticket_loop_end (lib : Lib) :
    ∀ (fuel : Nat) (b : Builder), (ticket_loop lib fuel b).1 = TicketError.OK →
      ¬ (ticket_loop lib fuel b).2.i < (ticket_loop lib fuel b).2.ntokens := by
  intro fuel
  induction fuel with
  | zero => intro b h; simp [ticket_loop] at h
  | succ fuel ih =>
    intro b h
    unfold ticket_loop at h ⊢
    by_cases hi : b.i < b.ntokens
    · rw [if_pos hi] at h ⊢
      simp only [] at h ⊢
      by_cases hd : (ticket_dispatch lib b).1 = TicketError.OK
      · rw [if_neg (not_not.mpr hd)] at h ⊢
        exact ih _ h
      · rw [if_pos hd] at h
        exact absurd h hd
    · rw [if_neg hi]
      exact hi

/-- `ticket_from_string` after a successful tokenizer run is the loop on the initial
builder. -/
theorem ticket_from_string_loop (lib : Lib) (json : Bytes) (len : Nat)
    (tokens : List jsmntok_t)
    (hparse : lib.jsmn_parse json len MAX_TOKENS = (jsmnerr_t.JSMN_SUCCESS, tokens)) :
    ticket_from_string lib json len
      = ((ticket_loop lib (tokens.length + 1) (initial_builder json tokens)).1,
          (ticket_loop lib (tokens.length + 1) (initial_builder json tokens)).2.ticket) := by
  unfold ticket_from_string initial_builder
  simp only [hparse]

/-- A property that every successful iteration from a reachable builder keeps, and that
holds of some reachable builder, holds of the builder the loop ends with when
`ticket_from_string` returns `OK`. -/
theorem ticket_from_string_invariant (lib : Lib) (json : Bytes) (len : Nat)
    (tokens : List jsmntok_t) (ticket : Ticket)
    (hparse : lib.jsmn_parse json len MAX_TOKENS = (jsmnerr_t.JSMN_SUCCESS, tokens))
    (hok : ticket_from_string lib json len = (TicketError.OK, ticket))
    (Q : Builder → Prop)
    (hstep : ∀ k b, ticket_iterations lib k (initial_builder json tokens) = some b → Q b →
      b.i < b.ntokens → (ticket_dispatch lib b).1 = TicketError.OK →
      Q { (ticket_dispatch lib b).2 with i := (ticket_dispatch lib b).2.i + 1 })
    (k : Nat) (b : Builder)
    (hk : ticket_iterations lib k (initial_builder json tokens) = some b) (hq : Q b) :
    ∃ bf, bf.ticket = ticket ∧ ¬ bf.i < bf.ntokens ∧ Q bf := by
  rw [ticket_from_string_loop lib json len tokens hparse] at hok
  have h1 : (ticket_loop lib (tokens.length + 1) (initial_builder json tokens)).1
      = TicketError.OK := congrArg Prod.fst hok
  have h2 : (ticket_loop lib (tokens.length + 1) (initial_builder json tokens)).2.ticket
      = ticket := congrArg Prod.snd hok
  have hkl : k ≤ tokens.length + 1 := by
    rcases ticket_iterations_bound lib k _ b hk with h0 | hle
    · omega
    · have : 0 + k ≤ tokens.length := hle
      omega
  rw [ticket_loop_of_iterations lib k _ b (tokens.length + 1) hk hkl] at h1 h2
  have hinv := ticket_loop_invariant lib
    (fun b => (∃ k, ticket_iterations lib k (initial_builder json tokens) = some b) ∧ Q b)
    (by
      rintro b' ⟨⟨k', hk'⟩, hq'⟩ hi hd
      exact ⟨⟨k' + 1, ticket_iterations_succ lib k' _ b' hk' hi hd⟩, hstep k' b' hk' hq' hi hd⟩)
    _ b ⟨⟨k, hk⟩, hq⟩ h1
  exact ⟨_, h2, ticket_loop_end lib _ b h1, hinv.2⟩

theorem token_index_of_string (tokens : List jsmntok_t) (p : Nat)
    (h : (tokens.getD p jsmntok_zero).type = jsmntype_t.JSMN_STRING) : p < tokens.length := by
  by_contra hp
  rw [List.getD_eq_default _ _ (not_lt.mp hp)] at h
  exact absurd h (by decide)

theorem do_scope_nrealms (b : Builder) (h : (do_scope b).1 = TicketError.OK) :
    (do_scope b).2.ticket.nrealms ≤ MAX_REALMS := by
  unfold do_scope at h ⊢
  simp only [] at h ⊢
  by_cases h1 : b.i + 1 ≥ b.ntokens
  · rw [if_pos h1] at h
    exact TicketError.noConfusion h
  · rw [if_neg h1] at h ⊢
    by_cases h2 : (b.tokens.getD (b.i + 1) jsmntok_zero).type ≠ jsmntype_t.JSMN_ARRAY
    · rw [if_pos h2] at h
      exact TicketError.noConfusion h
    · rw [if_neg h2] at h ⊢
      by_cases h3 : (b.tokens.getD (b.i + 1) jsmntok_zero).size > MAX_REALMS
      · rw [if_pos h3] at h
        exact TicketError.noConfusion h
      · rw [if_neg h3]
        exact not_lt.mp h3

theorem do_scope_too_many (b : Builder) (hv : b.i + 1 < b.ntokens)
    (ht : (b.tokens.getD (b.i + 1) jsmntok_zero).type = jsmntype_t.JSMN_ARRAY)
    (hs : (b.tokens.getD (b.i + 1) jsmntok_zero).size > MAX_REALMS) :
    (do_scope b).1 = TicketError.ERROR_NREALMS := by
  unfold do_scope
  simp only []
  rw [if_neg (by simp only [ge_iff_le, not_le]; exact hv), if_neg (not_not.mpr ht), if_pos hs]

theorem do_rw_missing (b : Builder) (hv : ¬ b.i + 1 < b.ntokens) :
    (do_rw b).1 = TicketError.ERROR_MISSING_EXPECTED_TOKEN := by
  unfold do_rw
  simp only []
  rw [if_pos (by simp only [ge_iff_le]; exact not_lt.mp hv)]

theorem do_rw_zero_or_one (b : Builder) : (do_rw b).2.2 = 0 ∨ (do_rw b).2.2 = 1 := by
  unfold do_rw
  simp only []
  split_ifs
  · exact Or.inl rfl
  · exact Or.inr rfl
  · exact Or.inl rfl

/-- The value `do_rw` stores: 1 for a primitive that spells `true`, 0 for anything else. -/
theorem do_rw_value (b : Builder) (hv : b.i + 1 < b.ntokens) :
    (do_rw b).2.2
      = if (b.tokens.getD (b.i + 1) jsmntok_zero).type = jsmntype_t.JSMN_PRIMITIVE
            ∧ name_is b.input (b.tokens.getD (b.i + 1) jsmntok_zero) (cstr "true")
        then 1 else 0 := by
  have hiff := key_cond_iff b.input (b.tokens.getD (b.i + 1) jsmntok_zero) (cstr "true") 4
    (by decide) (by decide)
  unfold do_rw
  simp only []
  rw [if_neg (by simp only [ge_iff_le, not_le]; exact hv)]
  by_cases hc : (b.tokens.getD (b.i + 1) jsmntok_zero).type = jsmntype_t.JSMN_PRIMITIVE
      ∧ name_is b.input (b.tokens.getD (b.i + 1) jsmntok_zero) (cstr "true")
  · have h4 : (b.tokens.getD (b.i + 1) jsmntok_zero).end_
        - (b.tokens.getD (b.i + 1) jsmntok_zero).start = 4 := (hiff.2 hc.2).1
    have hs := (hiff.2 hc.2).2
    rw [h4] at hs
    rw [if_pos hc, if_pos ⟨hc.1, h4, hs⟩]
  · rw [if_neg hc, if_neg]
    rintro ⟨h1, h4, hs⟩
    apply hc
    refine ⟨h1, hiff.1 ⟨h4, ?_⟩⟩
    rw [h4]
    exact hs

/-- One dispatch changes `rw` only on a key `rw` (to what `do_rw` stores), and on success
keeps the number of realms within the capacity. -/
theorem ticket_dispatch_rw_nrealms (lib : Lib) (b : Builder) :
    ((ticket_dispatch lib b).2.ticket.rw = b.ticket.rw
        ∨ (key_is b.input (b.tokens.getD b.i jsmntok_zero) "rw"
            ∧ (ticket_dispatch lib b).1 = (do_rw b).1
            ∧ (ticket_dispatch lib b).2.ticket.rw = (do_rw b).2.2))
    ∧ ((ticket_dispatch lib b).1 = TicketError.OK → b.ticket.nrealms ≤ MAX_REALMS →
        (ticket_dispatch lib b).2.ticket.nrealms ≤ MAX_REALMS) := by
  rcases ticket_dispatch_cases lib b with
    ⟨_, e, hd⟩ | ⟨_, hd⟩ | ⟨_, hd⟩ | ⟨_, hd⟩ | ⟨_, hd⟩ | ⟨_, hd⟩ | ⟨_, hd⟩ | ⟨_, hd⟩
      | ⟨_, hd⟩ | ⟨hk, hd⟩ | ⟨_, hd⟩
  · rw [hd]; exact ⟨Or.inl rfl, fun _ h => h⟩
  · rw [hd]; exact ⟨Or.inl rfl, fun _ h => h⟩
  · rw [hd]; exact ⟨Or.inl rfl, fun _ h => h⟩
  · rw [hd]
    obtain ⟨x, hx, _⟩ := do_algo_frame lib b
    rw [hx]
    exact ⟨Or.inl rfl, fun _ h => h⟩
  · rw [hd]; exact ⟨Or.inl rfl, fun _ h => h⟩
  · rw [hd]
    refine ⟨?_, fun h _ => do_scope_nrealms b h⟩
    obtain ⟨i', R, n, hx, _⟩ := do_scope_frame b
    rw [hx]
    exact Or.inl rfl
  · rw [hd]
    refine ⟨?_, fun h _ => do_scope_nrealms b h⟩
    obtain ⟨i', R, n, hx, _⟩ := do_scope_frame b
    rw [hx]
    exact Or.inl rfl
  · rw [hd]; exact ⟨Or.inl rfl, fun _ h => h⟩
  · rw [hd]; exact ⟨Or.inl rfl, fun _ h => h⟩
  · rw [hd]; exact ⟨Or.inr ⟨hk, rfl, rfl⟩, fun _ h => h⟩
  · rw [hd]; exact ⟨Or.inl rfl, fun _ h => h⟩

/-- A ticket that unseals but does not parse gives 400: the request is left as it was, and
the calls made are the header parse, the unseal and the ticket parse. -/
theorem authenticate_ticket_rejected (lib : Lib) (conf : ngx_http_dlg_auth_loc_conf_t)
    (r : ngx_http_request_t) (ctx : ngx_http_dlg_auth_ctx_t)
    (hp : ngx_str_t × ngx_str_t) (authorization : ngx_table_elt_t)
    (hdr : HawkcAuthorizationHeader) (json : Bytes)
    (hd : determine_host_and_port conf r = some hp)
    (ha : r.headers_in.authorization = some authorization)
    (hparse : lib.hawkc_parse_authorization_header authorization.value.bytes
      = (HawkcError.HAWKC_OK, hdr))
    (henc : lib.ciron_calculate_encryption_buffer_length hdr.id.length ≤ ENCRYPTION_BUFFER_SIZE)
    (hout : lib.ciron_calculate_unseal_buffer_length hdr.id.length 0 ≤ OUTPUT_BUFFER_SIZE)
    (hun : lib.ciron_unseal hdr.id conf.pwd_table conf.iron_password
      = (CironError.CIRON_OK, json))
    (hti : (ticket_from_string lib json json.length).1 ≠ TicketError.OK) :
    ngx_dlg_auth_authenticate lib conf r ctx
      = some ⟨NGX_HTTP_BAD_REQUEST, r, ticket_trace conf authorization hdr json⟩ := by
  have hid : (hawkc_context_parsed
      (hawkc_context_set_port
        (hawkc_context_set_host
          (hawkc_context_set_path
            (hawkc_context_set_method hawkc_context_init r.method_name.bytes)
            r.unparsed_uri.bytes)
          hp.1.bytes)
        hp.2.bytes)
      hdr).header_in.id = hdr.id := rfl
  unfold ngx_dlg_auth_authenticate
  simp only [hd, ha, hparse, hid, hun]
  rw [if_neg (by simp), if_neg (not_lt.mpr henc), if_neg (not_lt.mpr hout), if_neg (by simp),
    if_pos hti]
  rfl

/-- The handler answers 400 to a request whose ticket unseals but does not parse. -/
theorem handler_ticket_rejected (lib : Lib) (conf : ngx_http_dlg_auth_loc_conf_t)
    (r : ngx_http_request_t) (buf : Bytes)
    (hp : ngx_str_t × ngx_str_t) (authorization : ngx_table_elt_t)
    (hdr : HawkcAuthorizationHeader) (json : Bytes)
    (hdata : conf.realm.data = some buf) (hoff : conf.realm.bytes ≠ cstr "off")
    (hd : determine_host_and_port conf r = some hp)
    (ha : r.headers_in.authorization = some authorization)
    (hparse : lib.hawkc_parse_authorization_header authorization.value.bytes
      = (HawkcError.HAWKC_OK, hdr))
    (henc : lib.ciron_calculate_encryption_buffer_length hdr.id.length ≤ ENCRYPTION_BUFFER_SIZE)
    (hout : lib.ciron_calculate_unseal_buffer_length hdr.id.length 0 ≤ OUTPUT_BUFFER_SIZE)
    (hun : lib.ciron_unseal hdr.id conf.pwd_table conf.iron_password
      = (CironError.CIRON_OK, json))
    (hti : (ticket_from_string lib json json.length).1 ≠ TicketError.OK) :
    ngx_dlg_auth_handler lib conf r
      = some ⟨NGX_HTTP_BAD_REQUEST,
          { r with ctx := some ⟨ngx_null_string, ngx_null_string, ngx_null_string⟩ },
          ticket_trace conf authorization hdr json⟩ := by
  have ho := authenticate_ticket_rejected lib conf
    { r with ctx := some ⟨ngx_null_string, ngx_null_string, ngx_null_string⟩ }
    ⟨ngx_null_string, ngx_null_string, ngx_null_string⟩ hp authorization hdr json
    hd ha hparse henc hout hun hti
  rw [handler_of_authenticate lib conf r buf authorization _ hdata hoff ha ho]
  rw [if_pos (by show (400 : Int) ≠ 0; decide)]

/-- A successful `ticket_from_string` had a successful tokenizer run. -/
theorem ticket_from_string_ok_parse (lib : Lib) (json : Bytes) (len : Nat) (ticket : Ticket)
    (h : ticket_from_string lib json len = (TicketError.OK, ticket)) :
    lib.jsmn_parse json len MAX_TOKENS
      = (jsmnerr_t.JSMN_SUCCESS, (lib.jsmn_parse json len MAX_TOKENS).2) := by
  unfold ticket_from_string at h
  simp only [] at h
  rcases hj : (lib.jsmn_parse json len MAX_TOKENS).1 with _ | _ | _ | _
  · rw [hj] at h; simp only [] at h; exact TicketError.noConfusion (congrArg Prod.fst h)
  · rw [hj] at h; simp only [] at h; exact TicketError.noConfusion (congrArg Prod.fst h)
  · rw [hj] at h; simp only [] at h; exact TicketError.noConfusion (congrArg Prod.fst h)
  · exact Prod.ext hj rfl

/-! ### Host and port -/

/-- The first loop of `get_host_and_port` stops at the first colon among the first `len`
bytes, or at `len`. -/
theorem get_host_scan_spec (buf : Bytes) (len : Nat) :
    ∀ fuel i, i + fuel = len →
      i ≤ get_host_scan buf len fuel i ∧ get_host_scan buf len fuel i ≤ len
      ∧ (∀ j, i ≤ j → j < get_host_scan buf len fuel i → buf.getD j 0 ≠ 58)
      ∧ (get_host_scan buf len fuel i < len →
          buf.getD (get_host_scan buf len fuel i) 0 = 58) := by
  intro fuel
  induction fuel with
  | zero =>
    intro i hi
    refine ⟨le_refl _, by simp only [get_host_scan]; omega, ?_, ?_⟩
    · intro j h1 h2; simp only [get_host_scan] at h2; omega
    · intro h; simp only [get_host_scan] at h; omega
  | succ fuel ih =>
    intro i hi
    unfold get_host_scan
    by_cases hc : i < len ∧ buf.getD i 0 ≠ 58
    · rw [if_pos hc]
      obtain ⟨h1, h2, h3, h4⟩ := ih (i + 1) (by omega)
      refine ⟨by omega, h2, ?_, h4⟩
      intro j hj1 hj2
      by_cases hji : j = i
      · rw [hji]; exact hc.2
      · exact h3 j (by omega) hj2
    · rw [if_neg hc]
      refine ⟨le_refl _, by omega, fun j h1 h2 => by omega, ?_⟩
      intro hlt
      by_contra hne
      exact hc ⟨hlt, hne⟩

theorem get_host_and_port_fst (h : ngx_str_t) (ssl : Bool) :
    (get_host_and_port h ssl).1
      = ⟨get_host_scan (h.data.getD []) h.len h.len 0, h.data⟩ := by
  unfold get_host_and_port
  simp only []
  split_ifs <;> rfl

theorem get_host_and_port_snd (h : ngx_str_t) (ssl : Bool) :
    (get_host_and_port h ssl).2
      = if (h.data.getD []).getD (get_host_scan (h.data.getD []) h.len h.len 0) 0 = 58
            ∧ get_host_scan (h.data.getD []) h.len h.len 0 + 1 < h.len then
          ⟨h.len - (get_host_scan (h.data.getD []) h.len h.len 0 + 1),
            some ((h.data.getD []).drop (get_host_scan (h.data.getD []) h.len h.len 0 + 1))⟩
        else if ssl then ⟨3, some (cstr "443")⟩ else ⟨2, some (cstr "80")⟩ := by
  unfold get_host_and_port
  simp only []
  by_cases hc : (h.data.getD []).getD (get_host_scan (h.data.getD []) h.len h.len 0) 0 = 58
      ∧ get_host_scan (h.data.getD []) h.len h.len 0 + 1 < h.len
  · have hne : ¬ h.len - (get_host_scan (h.data.getD []) h.len h.len 0 + 1) = 0 := by omega
    simp only [if_pos hc, if_neg hne]
  · simp only [if_neg hc, if_true]
    split_ifs <;> rfl

theorem getD_take_of_lt (buf : Bytes) (n j : Nat) (hj : j < n) :
    (buf.take n).getD j 0 = buf.getD j 0 := by
  simp [List.getD_eq_getElem?_getD, List.getElem?_take, hj]

/-- The index the scan returns when the header value has a colon: the position of the
first one. -/
theorem get_host_scan_colon (buf pre post : Bytes) (len : Nat) (hlen : len ≤ buf.length)
    (hb : buf.take len = pre ++ 58 :: post) (hpre : (58 : UInt8) ∉ pre) :
    get_host_scan buf len len 0 = pre.length ∧ len = pre.length + 1 + post.length
      ∧ buf.getD pre.length 0 = 58 := by
  have hl : len = pre.length + 1 + post.length := by
    have := congrArg List.length hb
    simp only [List.length_take, List.length_append, List.length_cons] at this
    omega
  obtain ⟨_, h2, h3, h4⟩ := get_host_scan_spec buf len len 0 (by omega)
  have hget : ∀ j, j < len → buf.getD j 0 = (pre ++ 58 :: post).getD j 0 := by
    intro j hj
    rw [← hb, getD_take_of_lt buf len j hj]
  have hcolon : buf.getD pre.length 0 = 58 := by
    rw [hget _ (by omega), List.getD_append_right _ _ _ _ (le_refl _)]
    simp
  refine ⟨?_, hl, hcolon⟩
  rcases Nat.lt_trichotomy (get_host_scan buf len len 0) pre.length with hlt | heq | hgt
  · exfalso
    have h58 := h4 (by omega)
    rw [hget _ (by omega)] at h58
    apply hpre
    have hm : (pre ++ 58 :: post).getD (get_host_scan buf len len 0) 0
        = pre[get_host_scan buf len len 0] := by
      simp [List.getD_eq_getElem?_getD, List.getElem?_append_left hlt,
        List.getElem?_eq_getElem hlt]
    rw [hm] at h58
    rw [← h58]
    exact List.getElem_mem _
  · exact heq
  · exact absurd hcolon (h3 _ (Nat.zero_le _) hgt)

/-- The index the scan returns when the header value has no colon: its length. -/
theorem get_host_scan_no_colon (buf : Bytes) (len : Nat) (hlen : len ≤ buf.length)
    (hno : (58 : UInt8) ∉ buf.take len) :
    get_host_scan buf len len 0 = len := by
  obtain ⟨_, h2, _, h4⟩ := get_host_scan_spec buf len len 0 (by omega)
  by_contra hne
  have hlt : get_host_scan buf len len 0 < len := by omega
  have h58 := h4 hlt
  apply hno
  have hjb : get_host_scan buf len len 0 < buf.length := by omega
  rw [List.mem_iff_getElem]
  refine ⟨get_host_scan buf len len 0, by rw [List.length_take]; omega, ?_⟩
  rw [List.getElem_take]
  simpa [List.getD_eq_getElem?_getD, List.getElem?_eq_getElem hjb] using h58

theorem do_time_loop_non_digit : ∀ (cs : Bytes) (x : Int),
    (∃ c ∈ cs, isdigit c = false) → do_time_loop cs x = none := by
  intro cs
  induction cs with
  | nil => intro x h; obtain ⟨c, hc, _⟩ := h; exact absurd hc (List.not_mem_nil _)
  | cons c cs ih =>
    intro x h
    unfold do_time_loop
    by_cases hc : isdigit c = true
    · rw [hc]
      simp only [Bool.not_true, Bool.false_eq_true, if_false]
      apply ih
      obtain ⟨c1, hmem, hd⟩ := h
      rcases List.mem_cons.mp hmem with heq | hin
      · rw [heq, hc] at hd
        exact absurd hd (by decide)
      · exact ⟨c1, hin, hd⟩
    · have hf : isdigit c = false := by simpa using hc
      rw [hf]
      rfl

/-- The rename loop either finds no match and changes nothing, or renames the first match
and leaves every other element as it was. -/
theorem rename_loop_frame : ∀ l : List ngx_table_elt_t,
    ((∀ d ∈ l, rename_matches d = false) ∧ rename_loop l = (l, false))
    ∨ ∃ pre d post, l = pre ++ d :: post ∧ (∀ x ∈ pre, rename_matches x = false)
        ∧ rename_matches d = true ∧ rename_loop l = (pre ++ renamed d :: post, true) := by
  intro l
  induction l with
  | nil => exact Or.inl ⟨fun d hd => absurd hd (List.not_mem_nil _), rfl⟩
  | cons d ds ih =>
    by_cases hm : d.key.len = 13 ∧ memcmp_eq d.lowcase_key (cstr "authorization") 13 = true
    · right
      refine ⟨[], d, ds, rfl, fun x hx => absurd hx (List.not_mem_nil _), ?_, ?_⟩
      · simp [rename_matches, hm.1, hm.2]
      · unfold rename_loop
        rw [if_pos hm]
        rfl
    · have hmf : rename_matches d = false := by
        unfold rename_matches
        by_cases h13 : d.key.len = 13
        · have : memcmp_eq d.lowcase_key (cstr "authorization") 13 = false := by
            by_contra hne
            exact hm ⟨h13, by simpa using hne⟩
          simp [this]
        · simp [h13]
      rcases ih with ⟨hall, hr⟩ | ⟨pre, d1, post, hl, hpre, hd1, hr⟩
      · left
        refine ⟨?_, ?_⟩
        · intro x hx
          rcases List.mem_cons.mp hx with heq | hin
          · rw [heq]; exact hmf
          · exact hall x hin
        · unfold rename_loop
          rw [if_neg hm, hr]
      · right
        refine ⟨d :: pre, d1, post, by rw [hl]; rfl, ?_, hd1, ?_⟩
        · intro x hx
          rcases List.mem_cons.mp hx with heq | hin
          · rw [heq]; exact hmf
          · exact hpre x hin
        · unfold rename_loop
          rw [if_neg hm, hr]
          rfl

/-! ### Configuration -/

/-- The copy loop of the merge writes the entries `i .. i + k - 1` of the parent over those
of the child and leaves the others alone. -/
theorem merge_pwd_table_loop_getD (parent : List CironPwdTableEntry) :
    ∀ (k i : Nat) (child : List CironPwdTableEntry), i + k ≤ child.length →
      ∀ j, (merge_pwd_table_loop parent k i child).getD j CironPwdTableEntry_zero
        = if i ≤ j ∧ j < i + k then parent.getD j CironPwdTableEntry_zero
          else child.getD j CironPwdTableEntry_zero := by
  intro k
  induction k with
  | zero =>
    intro i child _ j
    rw [if_neg (by omega)]
    rfl
  | succ k ih =>
    intro i child hle j
    unfold merge_pwd_table_loop
    rw [ih (i + 1) _ (by rw [List.length_set]; omega) j]
    by_cases hj : j = i
    · subst hj
      rw [if_neg (by omega), if_pos (by omega)]
      simp [List.getD_eq_getElem?_getD, List.getElem?_set, show j < child.length by omega]
    · have hset : (child.set i (parent.getD i CironPwdTableEntry_zero)).getD j
          CironPwdTableEntry_zero = child.getD j CironPwdTableEntry_zero := by
        simp [List.getD_eq_getElem?_getD, List.getElem?_set, Ne.symm hj]
      rw [hset]
      by_cases hc : i + 1 ≤ j ∧ j < i + 1 + k
      · rw [if_pos hc, if_pos (by omega)]
      · rw [if_neg hc, if_neg (by omega)]

theorem merge_loc_conf_conf (parent child : ngx_http_dlg_auth_loc_conf_t) :
    (ngx_http_dlg_auth_merge_loc_conf parent child).conf = merge_fields parent child := by
  unfold ngx_http_dlg_auth_merge_loc_conf
  simp only []
  split_ifs <;> rfl

/-- With a `Host` header present, `determine_host_and_port` leaves the port at its initial
value and the host either at its initial value (no override) or at the host that
`get_host_and_port` reads from the header (some override). -/
theorem determine_host_and_port_with_host_header (conf : ngx_http_dlg_auth_loc_conf_t)
    (r : ngx_http_request_t) (h : ngx_table_elt_t) (hh : r.headers_in.host = some h) :
    determine_host_and_port conf r
      = some (if conf.host.len ≠ 0 ∨ conf.port.len ≠ 0 then
                (get_host_and_port h.value r.ssl).1
              else ngx_null_string,
              ngx_null_string) := by
  unfold determine_host_and_port
  simp only [hh]
  by_cases h1 : conf.host.len ≠ 0
  · by_cases h2 : conf.port.len ≠ 0
    · simp [h1, h2, ngx_null_string]
    · simp [h1, h2, ngx_null_string]
  · by_cases h2 : conf.port.len ≠ 0
    · simp [h1, h2, ngx_null_string]
    · simp [h1, h2, ngx_null_string]

/-- The host `get_host_and_port` returns is what precedes the first colon of the value, or
the whole value when it has no colon. -/
theorem get_host_and_port_host_bytes (h : ngx_str_t) (buf : Bytes) (ssl : Bool)
    (hdata : h.data = some buf) (hlen : h.len ≤ buf.length) :
    (∀ pre post : Bytes, h.bytes = pre ++ 58 :: post → (58 : UInt8) ∉ pre →
        (get_host_and_port h ssl).1.bytes = pre)
    ∧ ((58 : UInt8) ∉ h.bytes → (get_host_and_port h ssl).1.bytes = h.bytes) := by
  have hbytes : h.bytes = buf.take h.len := by simp [ngx_str_t.bytes, hdata]
  constructor
  · intro pre post hsplit hpre
    rw [hbytes] at hsplit
    obtain ⟨hr, hl, _⟩ := get_host_scan_colon buf pre post h.len hlen hsplit hpre
    rw [get_host_and_port_fst]
    simp only [ngx_str_t.bytes, hdata, Option.getD_some]
    rw [hr]
    have : buf.take pre.length = (buf.take h.len).take pre.length := by
      rw [List.take_take, Nat.min_eq_left (by omega)]
    rw [this, hsplit]
    simp
  · intro hno
    rw [hbytes] at hno
    have hr := get_host_scan_no_colon buf h.len hlen hno
    rw [get_host_and_port_fst]
    simp only [ngx_str_t.bytes, hdata, Option.getD_some]
    rw [hr]

/-- Host and port of every context handed to MAC validation are the bytes of the pair
`determine_host_and_port` returns. -/
theorem validated_context_host_port (lib : Lib) (conf : ngx_http_dlg_auth_loc_conf_t)
    (r : ngx_http_request_t) (ctx : ngx_http_dlg_auth_ctx_t) (o : Outcome)
    (h : ngx_dlg_auth_authenticate lib conf r ctx = some o)
    (c : HawkcContext) (hc : Event.hawkc_validate_hmac c ∈ o.trace) :
    ∃ hp, determine_host_and_port conf r = some hp ∧ c.host = hp.1.bytes
      ∧ c.port = hp.2.bytes := by
  obtain ⟨hp, a, hdr, json, ticket, ht, ho⟩ :=
    authenticate_with_validation lib conf r ctx o h c hc
  obtain ⟨rest, htr, hrest⟩ := authenticate_verify_trace lib conf r ctx hp.1
    (hawkc_parsed_context r hp hdr) ticket (ticket_trace conf a hdr json)
  rw [← ho] at htr
  have hcc : c = hawkc_context_set_algorithm
      (hawkc_context_set_password (hawkc_parsed_context r hp hdr) ticket.pwd)
      ticket.hawkAlgorithm := by
    rw [htr] at hc
    rcases List.mem_append.mp hc with hc1 | hc1
    · simp [ticket_trace] at hc1
    · rcases List.mem_cons.mp hc1 with hc2 | hc2
      · exact Event.hawkc_validate_hmac.inj hc2
      · exact absurd hc2 (hrest c)
  refine ⟨hp, ht.1, ?_, ?_⟩
  · rw [hcc]; rfl
  · rw [hcc]; rfl

/-- The flag `rw` in terms of the tokens the loop dispatches on, at whatever depth of the
ticket they lie: after a parse that returns `OK`, `rw` is 0 or 1; when the loop dispatched
on a string token `rw` and on no such token after it, `rw` is 1 exactly when the token
that follows it is a primitive whose text is the four bytes `true`; when the loop
dispatched on no string token `rw`, `rw` is 0. -/
theorem rw_from_last_key (lib : Lib) (json : Bytes) (len : Nat) (tokens : List jsmntok_t)
    (ticket : Ticket)
    (hparse : lib.jsmn_parse json len MAX_TOKENS = (jsmnerr_t.JSMN_SUCCESS, tokens))
    (hok : ticket_from_string lib json len = (TicketError.OK, ticket)) :
    (ticket.rw = 0 ∨ ticket.rw = 1)
    ∧ (∀ k b, ticket_iterations lib k (initial_builder json tokens) = some b →
        key_is json (tokens.getD b.i jsmntok_zero) "rw" →
        (∀ k1 b1, ticket_iterations lib k1 (initial_builder json tokens) = some b1 →
          b.i < b1.i → ¬ key_is json (tokens.getD b1.i jsmntok_zero) "rw") →
        (ticket.rw = 1 ↔
          (tokens.getD (b.i + 1) jsmntok_zero).type = jsmntype_t.JSMN_PRIMITIVE
            ∧ name_is json (tokens.getD (b.i + 1) jsmntok_zero) (cstr "true")))
    ∧ ((∀ k b, ticket_iterations lib k (initial_builder json tokens) = some b →
          ¬ key_is json (tokens.getD b.i jsmntok_zero) "rw") →
        ticket.rw = 0) := by
  refine ⟨?_, ?_, ?_⟩
  · obtain ⟨bf, hbf, _, hq⟩ := ticket_from_string_invariant lib json len tokens ticket hparse hok
      (fun b => b.ticket.rw = 0 ∨ b.ticket.rw = 1)
      (fun _ b _ hq _ _ => by
        rcases (ticket_dispatch_rw_nrealms lib b).1 with h | ⟨_, _, h⟩
        · show (ticket_dispatch lib b).2.ticket.rw = 0 ∨ (ticket_dispatch lib b).2.ticket.rw = 1
          rw [h]; exact hq
        · show (ticket_dispatch lib b).2.ticket.rw = 0 ∨ (ticket_dispatch lib b).2.ticket.rw = 1
          rw [h]; exact do_rw_zero_or_one b)
      0 _ rfl (Or.inl rfl)
    rw [← hbf]
    exact hq
  · intro k b hk hkey hlast
    obtain ⟨f1, f2, f3, _⟩ := ticket_iterations_frame lib k _ b hk
    have hkey' : key_is b.input (b.tokens.getD b.i jsmntok_zero) "rw" := by
      rw [f1, f3]; exact hkey
    have hi : b.i < b.ntokens := by
      rw [f2]; exact token_index_of_string tokens b.i hkey.1
    obtain ⟨bf, hbf, hend, hq⟩ := ticket_from_string_invariant lib json len tokens ticket
      hparse hok
      (fun b1 => b1 = b
        ∨ (b.i < b1.i ∧ b.i + 1 < b.ntokens ∧ b1.ticket.rw = (do_rw b).2.2))
      (fun k1 b1 hk1 hq1 _ hd1 => by
        rcases hq1 with hq1 | ⟨hlt, hv, hrw⟩
        · rw [hq1] at hd1 ⊢
          rw [ticket_dispatch_rw lib b hkey'] at hd1 ⊢
          have hv : b.i + 1 < b.ntokens := by
            by_contra hnv
            have hm := do_rw_missing b hnv
            have hd2 : (do_rw b).1 = TicketError.OK := hd1
            rw [hm] at hd2
            exact absurd hd2 (by decide)
          exact Or.inr ⟨by show b.i < b.i + 1 + 1; omega, hv, rfl⟩
        · obtain ⟨g1, _, g3, _⟩ := ticket_iterations_frame lib k1 _ b1 hk1
          obtain ⟨_, _, _, e4, _⟩ := ticket_dispatch_frame lib b1
          rcases (ticket_dispatch_rw_nrealms lib b1).1 with h | ⟨hkey1, _, _⟩
          · refine Or.inr ⟨?_, hv, ?_⟩
            · show b.i < (ticket_dispatch lib b1).2.i + 1
              omega
            · show (ticket_dispatch lib b1).2.ticket.rw = (do_rw b).2.2
              rw [h]; exact hrw
          · rw [g1, g3] at hkey1
            exact absurd hkey1 (hlast k1 b1 hk1 hlt))
      k b hk (Or.inl rfl)
    rcases hq with hq | ⟨_, hv, hrw⟩
    · rw [hq] at hend
      exact absurd hi hend
    · rw [hbf] at hrw
      rw [hrw, do_rw_value b hv, f1, f3]
      by_cases hc : ((initial_builder json tokens).tokens.getD (b.i + 1) jsmntok_zero).type
            = jsmntype_t.JSMN_PRIMITIVE
          ∧ name_is (initial_builder json tokens).input
              ((initial_builder json tokens).tokens.getD (b.i + 1) jsmntok_zero) (cstr "true")
      · rw [if_pos hc]
        exact ⟨fun _ => hc, fun _ => rfl⟩
      · rw [if_neg hc]
        exact ⟨fun h => absurd h (by decide), fun h => absurd h hc⟩
  · intro hno
    obtain ⟨bf, hbf, _, hq⟩ := ticket_from_string_invariant lib json len tokens ticket hparse hok
      (fun b => b.ticket.rw = 0)
      (fun k b hk hq _ _ => by
        obtain ⟨g1, _, g3, _⟩ := ticket_iterations_frame lib k _ b hk
        rcases (ticket_dispatch_rw_nrealms lib b).1 with h | ⟨hkey, _, _⟩
        · show (ticket_dispatch lib b).2.ticket.rw = 0
          rw [h]; exact hq
        · rw [g1, g3] at hkey
          exact absurd hkey (hno k b hk))
      0 _ rfl rfl
    rw [← hbf]
    exact hq

/-- The read-write sample ticket: its key `rw` is the tenth token, reached after five
iterations, and its value is the primitive `true`. -/
theorem rw_from_last_key_witness :
    (sample_ticket 1).rw = 1 ↔
      (ticket_rw_tokens.getD 10 jsmntok_zero).type = jsmntype_t.JSMN_PRIMITIVE
        ∧ name_is ticket_rw_json (ticket_rw_tokens.getD 10 jsmntok_zero) (cstr "true") :=
  (rw_from_last_key (sample_lib 1000 1000) ticket_rw_json 87 ticket_rw_tokens (sample_ticket 1)
    (by decide) (by decide)).2.1 5
    { initial_builder ticket_rw_json ticket_rw_tokens with
      i := 9,
      ticket := { ticket_init with client := cstr "c1", pwd := cstr "k",
                                   hawkAlgorithm := some ⟨256⟩, exp := 2000 } }
    (by decide) (by decide)
    (fun _ b1 _ hlt hkey =>
      (by decide : ∀ j, j < ticket_rw_tokens.length → 9 < j →
          ¬ key_is ticket_rw_json (ticket_rw_tokens.getD j jsmntok_zero) "rw")
        b1.i (token_index_of_string ticket_rw_tokens b1.i hkey.1) hlt hkey)

/-- The clock-skew allowance the merge leaves fits a `time_t` when the allowance of the
child and that of the parent are each the unset marker or a value below `2^63`. -/
theorem merge_clock_skew_fits (parent child : ngx_http_dlg_auth_loc_conf_t)
    (hc : child.allowed_clock_skew = NGX_CONF_UNSET_UINT ∨ child.allowed_clock_skew < 2 ^ 63)
    (hp : parent.allowed_clock_skew = NGX_CONF_UNSET_UINT
      ∨ parent.allowed_clock_skew < 2 ^ 63) :
    ((ngx_http_dlg_auth_merge_loc_conf parent child).conf.allowed_clock_skew : Int)
      < 2 ^ 63 := by
  rw [merge_loc_conf_conf]
  show ((ngx_conf_merge_uint_value child.allowed_clock_skew parent.allowed_clock_skew 1 : Nat)
    : Int) < 2 ^ 63
  have hu : NGX_CONF_UNSET_UINT = 2 ^ 64 - 1 := rfl
  unfold ngx_conf_merge_uint_value
  split_ifs with h1 h2
  · norm_num
  · rcases hp with hp | hp
    · exact absurd hp h2
    · exact_mod_cast hp
  · rcases hc with hc | hc
    · exact absurd hc h1
    · exact_mod_cast hc

/-- A key that is the last token has no value: `do_time` returns
`ERROR_MISSING_EXPECTED_TOKEN` and does not write the destination. -/
theorem do_time_missing (b : Builder) (tp : Int) (hv : ¬ b.i + 1 < b.ntokens) :
    do_time b tp
      = (TicketError.ERROR_MISSING_EXPECTED_TOKEN, { b with i := b.i + 1 }, tp) := by
  unfold do_time
  simp only []
  rw [if_pos (by simp only [ge_iff_le]; exact not_lt.mp hv)]

/-! ## The claims -/

/-- C8: for a location whose realm `R` is non-empty and not `off`, a request without an
`Authorization` header is answered 401 with exactly one added header `WWW-Authenticate`
whose value is `Hawk realm="` followed by `R` and a closing quote; the declared length
`13 + |R|` is the number of bytes written. -/
theorem handler_missing_authorization_challenge (lib : Lib)
    (conf : ngx_http_dlg_auth_loc_conf_t) (r : ngx_http_request_t) (buf : Bytes)
    (hdata : conf.realm.data = some buf) (hlen : conf.realm.len ≤ buf.length)
    (hoff : conf.realm.bytes ≠ cstr "off")
    (hauth : r.headers_in.authorization = none) :
    ∃ o h written,
      ngx_dlg_auth_handler lib conf r = some o
      ∧ o.rc = NGX_HTTP_UNAUTHORIZED
      ∧ o.r.headers_out.headers = r.headers_out.headers ++ [h]
      ∧ o.r.headers_out.www_authenticate = some h
      ∧ h.key = ngx_string (cstr "WWW-Authenticate")
      ∧ h.value.data = some written
      ∧ written = cstr "Hawk realm=\"" ++ conf.realm.bytes ++ cstr "\""
      ∧ h.value.len = 13 + conf.realm.bytes.length
      ∧ written.length = h.value.len := by
  have hb : conf.realm.bytes = buf.take conf.realm.len := by
    simp [ngx_str_t.bytes, hdata]
  have hbl : conf.realm.bytes.length = conf.realm.len := by
    rw [hb, List.length_take]; omega
  have hnoff : ¬ (conf.realm.len = 3 ∧ strncmp_eq (conf.realm.data.getD []) (cstr "off") 3 = true) := by
    rintro ⟨h3, hs⟩
    apply hoff
    have := (strncmp_eq_off _).1 hs
    rw [hb, h3]
    simpa [hdata] using this
  have h12 : (cstr "Hawk realm=\"").take 12 = cstr "Hawk realm=\"" := by decide
  have h1 : (cstr "\"").take 1 = cstr "\"" := by decide
  have hl12 : (cstr "Hawk realm=\"").length = 12 := by decide
  have hl1 : (cstr "\"").length = 1 := by decide
  have hh : ngx_dlg_auth_handler lib conf r
      = some ⟨NGX_HTTP_UNAUTHORIZED,
          (ngx_dlg_auth_send_simple_401
            { r with ctx := some ⟨ngx_null_string, ngx_null_string, ngx_null_string⟩ }
            conf.realm).2, []⟩ := by
    unfold ngx_dlg_auth_handler
    rw [hdata] at hnoff
    simp only [hdata, hauth]
    rw [if_neg hnoff, if_pos trivial]
    rfl
  refine ⟨_, ⟨1, ngx_string (cstr "WWW-Authenticate"),
      ⟨13 + conf.realm.len,
        some ((cstr "Hawk realm=\"").take 12 ++ conf.realm.bytes ++ (cstr "\"").take 1)⟩, []⟩,
    _, hh, rfl, rfl, rfl, rfl, rfl, ?_, ?_, ?_⟩
  · simp only [h12, h1]
  · simp only [hbl]
  · simp only [List.length_append, h12, h1, hl12, hl1, hbl]; omega

/-- C8 at the sample location: an anonymous request is challenged with
`Hawk realm="api"`. -/
theorem handler_missing_authorization_challenge_witness :
    ∃ o h written,
      ngx_dlg_auth_handler (sample_lib 1000 1000) sample_conf
          (sample_request_anonymous NGX_HTTP_GET "GET" "example.com:443") = some o
      ∧ o.rc = NGX_HTTP_UNAUTHORIZED
      ∧ o.r.headers_out.headers
          = (sample_request_anonymous NGX_HTTP_GET "GET" "example.com:443").headers_out.headers
              ++ [h]
      ∧ o.r.headers_out.www_authenticate = some h
      ∧ h.key = ngx_string (cstr "WWW-Authenticate")
      ∧ h.value.data = some written
      ∧ written = cstr "Hawk realm=\"" ++ sample_conf.realm.bytes ++ cstr "\""
      ∧ h.value.len = 13 + sample_conf.realm.bytes.length
      ∧ written.length = h.value.len :=
  handler_missing_authorization_challenge (sample_lib 1000 1000) sample_conf
    (sample_request_anonymous NGX_HTTP_GET "GET" "example.com:443") (cstr "api")
    rfl (by decide) (by decide) rfl

/-- C2: a location whose realm is the empty string (length 0, pointer not NULL, as
`dlg_auth "";` stores it) is not declined: an anonymous request is answered 401 with the
challenge `Hawk realm=""`. The handler tests the pointer, not the length. -/
theorem handler_empty_realm_not_declined :
    sample_conf_empty_realm.realm.len = 0
    ∧ (ngx_dlg_auth_handler (sample_lib 1000 1000) sample_conf_empty_realm
        (sample_request_anonymous NGX_HTTP_GET "GET" "example.com:443")).map Outcome.rc
      = some NGX_HTTP_UNAUTHORIZED
    ∧ (ngx_dlg_auth_handler (sample_lib 1000 1000) sample_conf_empty_realm
        (sample_request_anonymous NGX_HTTP_GET "GET" "example.com:443")).map
          (fun o => o.r.headers_out.headers.map (fun h => h.value.bytes))
      = some [cstr "Hawk realm=\"\""] := by
  decide

/-- C3: with both overrides configured (`proxy.internal`, `8443`) and the header
`Host: example.com:8080`, the function yields the host segment of the header and an empty
port, not the overrides; with no override configured it yields an empty host and an empty
port, not the segments of the header. -/
theorem determine_host_and_port_ignores_overrides :
    (determine_host_and_port sample_conf_overrides
        (sample_request NGX_HTTP_GET "GET" "example.com:8080" "Hawk1GET/xk")).map
          (fun hp => (hp.1.bytes, hp.2.bytes))
      = some (cstr "example.com", [])
    ∧ (determine_host_and_port sample_conf
        (sample_request NGX_HTTP_GET "GET" "example.com:8080" "Hawk1GET/xk")).map
          (fun hp => (hp.1.bytes, hp.2.bytes))
      = some ([], []) := by
  decide

/-- C5: with `now = 1000`, `ts = 1000 + 2^32` and an allowance of one second the skew is
`-2^32`, far beyond the allowance, yet the clock-skew test does not fire (`abs` sees the
skew truncated to `int`, which is 0): no timestamp is set in the challenge and the
request is allowed. -/
theorem clock_skew_truncated_by_abs :
    (1000 : Int) - 4294968296 < -(sample_conf.allowed_clock_skew : Int)
    ∧ clock_skew_too_large sample_conf (wrap64 (1000 - 4294968296)) = false
    ∧ (ngx_dlg_auth_handler (sample_lib 1000 4294968296) sample_conf
        (sample_request NGX_HTTP_GET "GET" "example.com:443" "Hawk1GET/xk")).map
          (fun o => (o.rc, o.trace.contains (Event.hawkc_www_authenticate_header_set_ts 1000)))
      = some (NGX_OK, false) := by
  decide

/-- C1: when the realm is set and not `off`, the `Authorization` header parses,
both buffer-size checks pass, the ticket unseals and parses, the MAC validates under the
key and algorithm of the ticket, the skew is within the allowance, which fits a `time_t`
(it is below `2^63`, as every allowance the merge of the configuration leaves is), the
ticket has not expired, the realm is among the realms of the ticket,
and the method is safe or `rw` is set: `ngx_dlg_auth_authenticate` returns `NGX_OK` and so
does the handler. -/
theorem handler_allows (lib : Lib) (conf : ngx_http_dlg_auth_loc_conf_t)
    (r : ngx_http_request_t) (hp : ngx_str_t × ngx_str_t) (authorization : ngx_table_elt_t)
    (hdr : HawkcAuthorizationHeader) (json : Bytes) (ticket : Ticket) (buf : Bytes)
    (hdata : conf.realm.data = some buf) (hlen : conf.realm.len ≤ buf.length)
    (hoff : conf.realm.bytes ≠ cstr "off")
    (h : SignatureValid lib conf r hp authorization hdr json ticket)
    (hskew : |lib.time - hdr.ts| ≤ (conf.allowed_clock_skew : Int))
    (hfit : (conf.allowed_clock_skew : Int) < 2 ^ 63)
    (hexp : ticket.exp ≥ lib.time)
    (hscope : ∃ i, i < ticket.nrealms ∧ ticket.realms.getD i [] = conf.realm.bytes)
    (hmeth : r.method = NGX_HTTP_GET ∨ r.method = NGX_HTTP_HEAD ∨ r.method = NGX_HTTP_OPTIONS
      ∨ r.method = NGX_HTTP_PROPFIND ∨ ticket.rw ≠ 0) :
    (∀ ctx, ∃ o, ngx_dlg_auth_authenticate lib conf r ctx = some o ∧ o.rc = NGX_OK)
    ∧ ∃ o, ngx_dlg_auth_handler lib conf r = some o ∧ o.rc = NGX_OK := by
  have hsk := clock_skew_ok_of_abs_le conf (lib.time - hdr.ts) hskew hfit
  have hm : ¬ (IS_UNSAFE_METHOD r.method = true ∧ ticket.rw = 0) := by
    rintro ⟨hu, hrw⟩
    rw [IS_UNSAFE_METHOD_iff] at hu
    rcases hmeth with h1 | h1 | h1 | h1 | h1
    · exact hu.1 h1
    · exact hu.2.1 h1
    · exact hu.2.2.1 h1
    · exact hu.2.2.2 h1
    · exact h1 hrw
  have key : ∀ (r' : ngx_http_request_t) (host : ngx_str_t) (tr : List Event),
      r'.method = r.method →
      authenticate_authorize conf r' host ticket lib.time tr = ⟨NGX_OK, r', tr⟩ := by
    intro r' host tr hr
    unfold authenticate_authorize
    rw [hr, if_neg hm, if_neg (not_lt.mpr hexp),
      ticket_has_scope_of_granted conf host ticket buf hdata hlen hscope, if_neg (by simp)]
  constructor
  · intro ctx
    refine ⟨_, authenticate_of_signature lib conf r ctx hp authorization hdr json ticket h hsk, ?_⟩
    rw [key (published_request lib r ctx hdr ticket) _ _ rfl]
  · have ho := authenticate_of_signature lib conf
      { r with ctx := some ⟨ngx_null_string, ngx_null_string, ngx_null_string⟩ }
      ⟨ngx_null_string, ngx_null_string, ngx_null_string⟩ hp authorization hdr json ticket
      (SignatureValid_set_ctx lib conf r _ hp authorization hdr json ticket h) hsk
    rw [key (published_request lib
      { r with ctx := some ⟨ngx_null_string, ngx_null_string, ngx_null_string⟩ }
      ⟨ngx_null_string, ngx_null_string, ngx_null_string⟩ hdr ticket) _ _ rfl] at ho
    refine ⟨_, handler_of_authenticate lib conf r buf authorization _ hdata hoff h.1.2.1 ho, ?_⟩
    rw [if_neg (by simp)]

/-- C1 at the sample location: the signed GET request of scenario 3 is allowed. -/
theorem handler_allows_witness :
    (∀ ctx, ∃ o, ngx_dlg_auth_authenticate (sample_lib 1000 1000) sample_conf
        (sample_request NGX_HTTP_GET "GET" "example.com:443" "Hawk1GET/xk") ctx = some o
      ∧ o.rc = NGX_OK)
    ∧ ∃ o, ngx_dlg_auth_handler (sample_lib 1000 1000) sample_conf
        (sample_request NGX_HTTP_GET "GET" "example.com:443" "Hawk1GET/xk") = some o
      ∧ o.rc = NGX_OK :=
  handler_allows (sample_lib 1000 1000) sample_conf
    (sample_request NGX_HTTP_GET "GET" "example.com:443" "Hawk1GET/xk")
    (ngx_null_string, ngx_null_string)
    (sample_header "Authorization" "authorization" "Hawk1GET/xk")
    (sample_hdr ticket_rw_json 1000 "GET/xk") ticket_rw_json (sample_ticket 1) (cstr "api")
    rfl (by decide) (by decide) (by decide)
    (by simp [sample_lib, sample_hdr, sample_conf]) (by simp [sample_conf])
    (by decide) ⟨0, by decide, by decide⟩ (Or.inl rfl)

/-- C4, as stated, fails for an unsafe method with `rw = 0`: a signed POST with the
read-only ticket, past the expiry of the ticket and with the clocks in step, is answered
403, not the simple 401. -/
theorem expired_ticket_unsafe_method_forbidden :
    SignatureValid (sample_lib 3000 3000) sample_conf
        (sample_request NGX_HTTP_POST "POST" "example.com:443" "Hawk2POST/xk")
        (ngx_null_string, ngx_null_string)
        (sample_header "Authorization" "authorization" "Hawk2POST/xk")
        (sample_hdr ticket_ro_json 3000 "POST/xk") ticket_ro_json (sample_ticket 0)
    ∧ clock_skew_too_large sample_conf (wrap64 ((sample_lib 3000 3000).time - 3000)) = false
    ∧ (sample_ticket 0).exp < (sample_lib 3000 3000).time
    ∧ (ngx_dlg_auth_authenticate (sample_lib 3000 3000) sample_conf
        (sample_request NGX_HTTP_POST "POST" "example.com:443" "Hawk2POST/xk") ctx_zero).map
          (fun o => (o.rc, o.r.headers_out.headers))
      = some (NGX_HTTP_FORBIDDEN, []) := by
  decide

/-- C4, amended: for a request that reaches the access checks (header parsed, ticket
unsealed and parsed, MAC valid, clock-skew test passed) with `ticket.exp < now`,
`ngx_dlg_auth_authenticate` returns 403 without a challenge when the method is unsafe and
`ticket.rw` is 0, and the simple 401 challenge in every other case: the method test is
decided before the expiry test. -/
theorem expired_ticket_outcome (lib : Lib) (conf : ngx_http_dlg_auth_loc_conf_t)
    (r : ngx_http_request_t) (ctx : ngx_http_dlg_auth_ctx_t)
    (hp : ngx_str_t × ngx_str_t) (authorization : ngx_table_elt_t)
    (hdr : HawkcAuthorizationHeader) (json : Bytes) (ticket : Ticket)
    (h : SignatureValid lib conf r hp authorization hdr json ticket)
    (hskew : clock_skew_too_large conf (wrap64 (lib.time - hdr.ts)) = false)
    (hexp : ticket.exp < lib.time) :
    ∃ o, ngx_dlg_auth_authenticate lib conf r ctx = some o
      ∧ ((IS_UNSAFE_METHOD r.method = true ∧ ticket.rw = 0) →
          o.rc = NGX_HTTP_FORBIDDEN ∧ o.r.headers_out = r.headers_out)
      ∧ (¬ (IS_UNSAFE_METHOD r.method = true ∧ ticket.rw = 0) →
          o.rc = NGX_HTTP_UNAUTHORIZED
          ∧ o.r = (ngx_dlg_auth_send_simple_401 (published_request lib r ctx hdr ticket)
                    conf.realm).2) := by
  refine ⟨_, authenticate_of_signature lib conf r ctx hp authorization hdr json ticket h hskew,
    ?_, ?_⟩
  · intro hm
    have hm' : IS_UNSAFE_METHOD (published_request lib r ctx hdr ticket).method = true
        ∧ ticket.rw = 0 := hm
    unfold authenticate_authorize
    rw [if_pos hm']
    exact ⟨rfl, rfl⟩
  · intro hm
    have hm' : ¬ (IS_UNSAFE_METHOD (published_request lib r ctx hdr ticket).method = true
        ∧ ticket.rw = 0) := hm
    unfold authenticate_authorize
    rw [if_neg hm', if_pos hexp]
    exact ⟨rfl, rfl⟩

/-- C4, amended, on a signed GET with the read-only ticket past its expiry. -/
theorem expired_ticket_outcome_witness :
    ∃ o, ngx_dlg_auth_authenticate (sample_lib 3000 3000) sample_conf
        (sample_request NGX_HTTP_GET "GET" "example.com:443" "Hawk2GET/xk") ctx_zero = some o
      ∧ ((IS_UNSAFE_METHOD NGX_HTTP_GET = true ∧ (sample_ticket 0).rw = 0) →
          o.rc = NGX_HTTP_FORBIDDEN
          ∧ o.r.headers_out
              = (sample_request NGX_HTTP_GET "GET" "example.com:443" "Hawk2GET/xk").headers_out)
      ∧ (¬ (IS_UNSAFE_METHOD NGX_HTTP_GET = true ∧ (sample_ticket 0).rw = 0) →
          o.rc = NGX_HTTP_UNAUTHORIZED
          ∧ o.r = (ngx_dlg_auth_send_simple_401
                    (published_request (sample_lib 3000 3000)
                      (sample_request NGX_HTTP_GET "GET" "example.com:443" "Hawk2GET/xk")
                      ctx_zero (sample_hdr ticket_ro_json 3000 "GET/xk") (sample_ticket 0))
                    sample_conf.realm).2) :=
  expired_ticket_outcome (sample_lib 3000 3000) sample_conf
    (sample_request NGX_HTTP_GET "GET" "example.com:443" "Hawk2GET/xk") ctx_zero
    (ngx_null_string, ngx_null_string)
    (sample_header "Authorization" "authorization" "Hawk2GET/xk")
    (sample_hdr ticket_ro_json 3000 "GET/xk") ticket_ro_json (sample_ticket 0)
    (by decide) (by decide) (by decide)

/-- C6: in every run of `ngx_dlg_auth_authenticate`, a MAC validation call is preceded by
a successful `ciron_unseal` and a successful `ticket_from_string`, is made on the context
whose key and algorithm are `ticket.pwd` and `ticket.hawkAlgorithm`, and is the only one;
when the unseal or the parsing of the ticket fails the result is 400 and no MAC validation
is called. -/
theorem mac_validation_after_ticket (lib : Lib) (conf : ngx_http_dlg_auth_loc_conf_t)
    (r : ngx_http_request_t) (ctx : ngx_http_dlg_auth_ctx_t) (o : Outcome)
    (h : ngx_dlg_auth_authenticate lib conf r ctx = some o) :
    (∀ c, Event.hawkc_validate_hmac c ∈ o.trace →
      ∃ hp authorization hdr json ticket rest,
        TicketObtained lib conf r hp authorization hdr json ticket
        ∧ c = hawkc_request_context r hp hdr ticket
        ∧ c.password = ticket.pwd ∧ c.algorithm = ticket.hawkAlgorithm
        ∧ o.trace = ticket_trace conf authorization hdr json
            ++ Event.hawkc_validate_hmac c :: rest
        ∧ ∀ c', Event.hawkc_validate_hmac c' ∉ rest)
    ∧ (∀ hp authorization hdr,
        determine_host_and_port conf r = some hp →
        r.headers_in.authorization = some authorization →
        lib.hawkc_parse_authorization_header authorization.value.bytes
          = (HawkcError.HAWKC_OK, hdr) →
        lib.ciron_calculate_encryption_buffer_length hdr.id.length ≤ ENCRYPTION_BUFFER_SIZE →
        lib.ciron_calculate_unseal_buffer_length hdr.id.length 0 ≤ OUTPUT_BUFFER_SIZE →
        ((lib.ciron_unseal hdr.id conf.pwd_table conf.iron_password).1 ≠ CironError.CIRON_OK
          ∨ (ticket_from_string lib
              (lib.ciron_unseal hdr.id conf.pwd_table conf.iron_password).2
              (lib.ciron_unseal hdr.id conf.pwd_table conf.iron_password).2.length).1
            ≠ TicketError.OK) →
        o.rc = NGX_HTTP_BAD_REQUEST ∧ ∀ c, Event.hawkc_validate_hmac c ∉ o.trace) := by
  constructor
  · intro c hc
    obtain ⟨hp, a, hdr, json, ticket, ht, ho⟩ :=
      authenticate_with_validation lib conf r ctx o h c hc
    obtain ⟨rest, htr, hrest⟩ := authenticate_verify_trace lib conf r ctx hp.1
      (hawkc_parsed_context r hp hdr) ticket (ticket_trace conf a hdr json)
    rw [← ho] at htr
    have hcc : c = hawkc_request_context r hp hdr ticket := by
      rw [htr] at hc
      rcases List.mem_append.mp hc with hc1 | hc1
      · simp [ticket_trace] at hc1
      · rcases List.mem_cons.mp hc1 with hc2 | hc2
        · exact Event.hawkc_validate_hmac.inj hc2
        · exact absurd hc2 (hrest c)
    refine ⟨hp, a, hdr, json, ticket, rest, ht, hcc, ?_, ?_, ?_, hrest⟩
    · rw [hcc]; rfl
    · rw [hcc]; rfl
    · rw [hcc]; exact htr
  · intro hp a hdr hd ha hparse henc hout hfail
    have hid : (hawkc_context_parsed
        (hawkc_context_set_port
          (hawkc_context_set_host
            (hawkc_context_set_path
              (hawkc_context_set_method hawkc_context_init r.method_name.bytes)
              r.unparsed_uri.bytes)
            hp.1.bytes)
          hp.2.bytes)
        hdr).header_in.id = hdr.id := rfl
    unfold ngx_dlg_auth_authenticate at h
    simp only [hd, ha, hparse, hid] at h
    rw [if_neg (by simp), if_neg (not_lt.mpr henc), if_neg (not_lt.mpr hout)] at h
    by_cases hu : (lib.ciron_unseal hdr.id conf.pwd_table conf.iron_password).1
        = CironError.CIRON_OK
    · have hti := hfail.resolve_left (not_not.mpr hu)
      rw [if_neg (not_not.mpr hu), if_pos hti] at h
      have ho := Option.some.inj h
      subst ho
      exact ⟨rfl, by simp⟩
    · rw [if_pos hu] at h
      have ho := Option.some.inj h
      subst ho
      exact ⟨rfl, by simp⟩

/-- C6 on the signed GET request of the sample: the run exists, so the statement applies
to it. -/
theorem mac_validation_after_ticket_witness :
    ∃ o, ngx_dlg_auth_authenticate (sample_lib 1000 1000) sample_conf
        (sample_request NGX_HTTP_GET "GET" "example.com:443" "Hawk1GET/xk") ctx_zero = some o
      ∧ ∀ c, Event.hawkc_validate_hmac c ∈ o.trace →
          ∃ hp authorization hdr json ticket rest,
            TicketObtained (sample_lib 1000 1000) sample_conf
              (sample_request NGX_HTTP_GET "GET" "example.com:443" "Hawk1GET/xk")
              hp authorization hdr json ticket
            ∧ c = hawkc_request_context
                (sample_request NGX_HTTP_GET "GET" "example.com:443" "Hawk1GET/xk") hp hdr ticket
            ∧ c.password = ticket.pwd ∧ c.algorithm = ticket.hawkAlgorithm
            ∧ o.trace = ticket_trace sample_conf authorization hdr json
                ++ Event.hawkc_validate_hmac c :: rest
            ∧ ∀ c', Event.hawkc_validate_hmac c' ∉ rest := by
  rcases h : ngx_dlg_auth_authenticate (sample_lib 1000 1000) sample_conf
      (sample_request NGX_HTTP_GET "GET" "example.com:443" "Hawk1GET/xk") ctx_zero with _ | o
  · exact absurd h (by decide)
  · exact ⟨o, rfl, (mac_validation_after_ticket (sample_lib 1000 1000) sample_conf
      (sample_request NGX_HTTP_GET "GET" "example.com:443" "Hawk1GET/xk") ctx_zero o h).1⟩

/-- C7: with no host or port override configured, the host and the port handed to MAC
validation are empty whatever the `Host` header says, and replacing the `Host` header of a
request by any other one leaves the value the handler returns unchanged: a request that
is allowed stays allowed under the same mac. -/
theorem host_header_not_signed (lib : Lib) (conf : ngx_http_dlg_auth_loc_conf_t)
    (r : ngx_http_request_t) (h : ngx_table_elt_t) (l : ngx_list_t) (h' : ngx_table_elt_t)
    (hh : conf.host.len = 0) (hpo : conf.port.len = 0) (hhost : r.headers_in.host = some h) :
    determine_host_and_port conf r = some (ngx_null_string, ngx_null_string)
    ∧ determine_host_and_port conf (replace_host_header r l h')
        = some (ngx_null_string, ngx_null_string)
    ∧ (ngx_dlg_auth_handler lib conf (replace_host_header r l h')).map Outcome.rc
        = (ngx_dlg_auth_handler lib conf r).map Outcome.rc := by
  have h1 := determine_host_and_port_no_override conf r h hh hpo hhost
  have h2 : determine_host_and_port conf (replace_host_header r l h')
      = some (ngx_null_string, ngx_null_string) :=
    determine_host_and_port_no_override conf _ h' hh hpo rfl
  refine ⟨h1, h2, ?_⟩
  rw [handler_rc, handler_rc]
  have ha : (replace_host_header r l h').headers_in.authorization
      = r.headers_in.authorization := rfl
  rw [ha]
  split_ifs
  · rfl
  · rfl
  · rfl
  · apply authenticate_rc
    · exact h2.trans h1.symm
    · rfl
    · rfl
    · rfl
    · rfl

/-- C7 on the sample: the signed GET request is allowed, and it is still allowed, under
the same mac, after one byte of the host part and one byte of the port part of its `Host`
header were changed. -/
theorem host_header_not_signed_witness :
    (determine_host_and_port sample_conf
        (sample_request NGX_HTTP_GET "GET" "example.com:443" "Hawk1GET/xk")
        = some (ngx_null_string, ngx_null_string)
      ∧ determine_host_and_port sample_conf
          (replace_host_header
            (sample_request NGX_HTTP_GET "GET" "example.com:443" "Hawk1GET/xk")
            ⟨[sample_header "Host" "host" "exbmple.com:444",
              sample_header "Authorization" "authorization" "Hawk1GET/xk"], []⟩
            (sample_header "Host" "host" "exbmple.com:444"))
          = some (ngx_null_string, ngx_null_string)
      ∧ (ngx_dlg_auth_handler (sample_lib 1000 1000) sample_conf
          (replace_host_header
            (sample_request NGX_HTTP_GET "GET" "example.com:443" "Hawk1GET/xk")
            ⟨[sample_header "Host" "host" "exbmple.com:444",
              sample_header "Authorization" "authorization" "Hawk1GET/xk"], []⟩
            (sample_header "Host" "host" "exbmple.com:444"))).map Outcome.rc
        = (ngx_dlg_auth_handler (sample_lib 1000 1000) sample_conf
            (sample_request NGX_HTTP_GET "GET" "example.com:443" "Hawk1GET/xk")).map Outcome.rc)
    ∧ (ngx_dlg_auth_handler (sample_lib 1000 1000) sample_conf
        (sample_request NGX_HTTP_GET "GET" "example.com:443" "Hawk1GET/xk")).map Outcome.rc
      = some NGX_OK
    ∧ replace_host_header
        (sample_request NGX_HTTP_GET "GET" "example.com:443" "Hawk1GET/xk")
        ⟨[sample_header "Host" "host" "exbmple.com:444",
          sample_header "Authorization" "authorization" "Hawk1GET/xk"], []⟩
        (sample_header "Host" "host" "exbmple.com:444")
      = sample_request NGX_HTTP_GET "GET" "exbmple.com:444" "Hawk1GET/xk" :=
  ⟨host_header_not_signed (sample_lib 1000 1000) sample_conf
      (sample_request NGX_HTTP_GET "GET" "example.com:443" "Hawk1GET/xk")
      (sample_header "Host" "host" "example.com:443")
      ⟨[sample_header "Host" "host" "exbmple.com:444",
        sample_header "Authorization" "authorization" "Hawk1GET/xk"], []⟩
      (sample_header "Host" "host" "exbmple.com:444") rfl rfl rfl,
    by decide, rfl⟩

/-- C9: for a request that has passed MAC validation and the clock-skew test with a ticket
that has not expired, `ngx_dlg_auth_authenticate` returns 403 exactly when the method is
none of GET, HEAD, OPTIONS, PROPFIND and `ticket.rw` is 0; for the four safe methods the
access checks give the same outcome whatever the value of `rw`. -/
theorem method_authorization (lib : Lib) (conf : ngx_http_dlg_auth_loc_conf_t)
    (r : ngx_http_request_t) (ctx : ngx_http_dlg_auth_ctx_t)
    (hp : ngx_str_t × ngx_str_t) (authorization : ngx_table_elt_t)
    (hdr : HawkcAuthorizationHeader) (json : Bytes) (ticket : Ticket)
    (h : SignatureValid lib conf r hp authorization hdr json ticket)
    (hskew : clock_skew_too_large conf (wrap64 (lib.time - hdr.ts)) = false)
    (hexp : ¬ ticket.exp < lib.time) :
    ∃ o, ngx_dlg_auth_authenticate lib conf r ctx = some o
      ∧ o = authenticate_authorize conf (published_request lib r ctx hdr ticket) hp.1 ticket
          lib.time (verification_trace conf r hp authorization hdr json ticket)
      ∧ (o.rc = NGX_HTTP_FORBIDDEN
          ↔ (r.method ≠ NGX_HTTP_GET ∧ r.method ≠ NGX_HTTP_HEAD ∧ r.method ≠ NGX_HTTP_OPTIONS
              ∧ r.method ≠ NGX_HTTP_PROPFIND) ∧ ticket.rw = 0)
      ∧ ((r.method = NGX_HTTP_GET ∨ r.method = NGX_HTTP_HEAD ∨ r.method = NGX_HTTP_OPTIONS
            ∨ r.method = NGX_HTTP_PROPFIND) →
          ∀ v w : Int,
            authenticate_authorize conf (published_request lib r ctx hdr ticket) hp.1
                { ticket with rw := v } lib.time
                (verification_trace conf r hp authorization hdr json ticket)
              = authenticate_authorize conf (published_request lib r ctx hdr ticket) hp.1
                { ticket with rw := w } lib.time
                (verification_trace conf r hp authorization hdr json ticket)) := by
  refine ⟨_, authenticate_of_signature lib conf r ctx hp authorization hdr json ticket h hskew,
    rfl, ?_, ?_⟩
  · have hmeth : (published_request lib r ctx hdr ticket).method = r.method := rfl
    rw [← IS_UNSAFE_METHOD_iff]
    unfold authenticate_authorize
    rw [hmeth]
    by_cases hm : IS_UNSAFE_METHOD r.method = true ∧ ticket.rw = 0
    · rw [if_pos hm]
      exact ⟨fun _ => hm, fun _ => rfl⟩
    · rw [if_neg hm, if_neg hexp]
      constructor
      · intro hrc
        split_ifs at hrc
        · have h401 : NGX_HTTP_UNAUTHORIZED = NGX_HTTP_FORBIDDEN := hrc
          exact absurd h401 (by decide)
        · have h0 : NGX_OK = NGX_HTTP_FORBIDDEN := hrc
          exact absurd h0 (by decide)
      · intro hm'
        exact absurd hm' hm
  · intro hsafe v w
    have hmeth : (published_request lib r ctx hdr ticket).method = r.method := rfl
    have hu : ¬ IS_UNSAFE_METHOD r.method = true := by
      rw [IS_UNSAFE_METHOD_iff]
      rintro ⟨h1, h2, h3, h4⟩
      rcases hsafe with h5 | h5 | h5 | h5
      · exact h1 h5
      · exact h2 h5
      · exact h3 h5
      · exact h4 h5
    have key : ∀ v : Int,
        authenticate_authorize conf (published_request lib r ctx hdr ticket) hp.1
            { ticket with rw := v } lib.time
            (verification_trace conf r hp authorization hdr json ticket)
          = authenticate_authorize conf (published_request lib r ctx hdr ticket) hp.1
            ticket lib.time (verification_trace conf r hp authorization hdr json ticket) := by
      intro v
      have hu' : ¬ IS_UNSAFE_METHOD (published_request lib r ctx hdr ticket).method = true := hu
      rw [authenticate_authorize_safe conf _ hp.1 { ticket with rw := v } lib.time _ hu',
        authenticate_authorize_safe conf _ hp.1 ticket lib.time _ hu', ticket_has_scope_rw]
    rw [key v, key w]

/-- C9 on the sample: a signed POST with the read-only ticket is answered 403. -/
theorem method_authorization_witness :
    ∃ o, ngx_dlg_auth_authenticate (sample_lib 1000 1000) sample_conf
        (sample_request NGX_HTTP_POST "POST" "example.com:443" "Hawk2POST/xk") ctx_zero = some o
      ∧ o.rc = NGX_HTTP_FORBIDDEN := by
  obtain ⟨o, h1, _, h3, _⟩ := method_authorization (sample_lib 1000 1000) sample_conf
    (sample_request NGX_HTTP_POST "POST" "example.com:443" "Hawk2POST/xk") ctx_zero
    (ngx_null_string, ngx_null_string)
    (sample_header "Authorization" "authorization" "Hawk2POST/xk")
    (sample_hdr ticket_ro_json 1000 "POST/xk") ticket_ro_json (sample_ticket 0)
    (by decide) (by decide) (by decide)
  exact ⟨o, h1, h3.2 (by decide)⟩

/-- C10: `ticket_has_realm` returns 1 when one of the first `nrealms` realms of the ticket
has the length and the bytes of the realm asked for, and 0 otherwise; a request that has
passed every earlier check and whose configured realm is not among the realms of the
ticket gets the simple 401. -/
theorem ticket_has_realm_exact :
    (∀ (ticket : Ticket) (realm : Bytes),
      (ticket_has_realm ticket realm realm.length = 1
        ↔ ∃ i, i < ticket.nrealms ∧ ticket.realms.getD i [] = realm)
      ∧ (ticket_has_realm ticket realm realm.length = 0
        ↔ ¬ ∃ i, i < ticket.nrealms ∧ ticket.realms.getD i [] = realm))
    ∧ (∀ (lib : Lib) (conf : ngx_http_dlg_auth_loc_conf_t) (r : ngx_http_request_t)
        (ctx : ngx_http_dlg_auth_ctx_t) (hp : ngx_str_t × ngx_str_t)
        (authorization : ngx_table_elt_t) (hdr : HawkcAuthorizationHeader) (json : Bytes)
        (ticket : Ticket) (buf : Bytes),
        conf.realm.data = some buf → conf.realm.len ≤ buf.length →
        SignatureValid lib conf r hp authorization hdr json ticket →
        clock_skew_too_large conf (wrap64 (lib.time - hdr.ts)) = false →
        ¬ (IS_UNSAFE_METHOD r.method = true ∧ ticket.rw = 0) →
        ¬ ticket.exp < lib.time →
        (¬ ∃ i, i < ticket.nrealms ∧ ticket.realms.getD i [] = conf.realm.bytes) →
        ngx_dlg_auth_authenticate lib conf r ctx
          = some ⟨NGX_HTTP_UNAUTHORIZED,
              (ngx_dlg_auth_send_simple_401 (published_request lib r ctx hdr ticket)
                conf.realm).2,
              verification_trace conf r hp authorization hdr json ticket⟩) := by
  constructor
  · intro ticket realm
    have := ticket_has_realm_bytes ticket realm realm.length (le_refl _)
    rwa [List.take_length] at this
  · intro lib conf r ctx hp a hdr json ticket buf hdata hlen h hskew hm hexp hscope
    rw [authenticate_of_signature lib conf r ctx hp a hdr json ticket h hskew]
    have hm' : ¬ (IS_UNSAFE_METHOD (published_request lib r ctx hdr ticket).method = true
        ∧ ticket.rw = 0) := hm
    unfold authenticate_authorize
    rw [if_neg hm', if_neg hexp,
      ticket_has_scope_of_not_granted conf hp.1 ticket buf hdata hlen hscope, if_pos rfl]
    rfl

/-- C10 on the sample: the realm `api` is granted by the sample ticket and its prefix `ap`
is not, and the signed GET request at a location with realm `admin` gets the simple 401. -/
theorem ticket_has_realm_exact_witness :
    ticket_has_realm (sample_ticket 1) (cstr "api") 3 = 1
    ∧ ticket_has_realm (sample_ticket 1) (cstr "ap") 2 = 0
    ∧ ngx_dlg_auth_authenticate (sample_lib 1000 1000) sample_conf_admin
        (sample_request NGX_HTTP_GET "GET" "example.com:443" "Hawk1GET/xk") ctx_zero
      = some ⟨NGX_HTTP_UNAUTHORIZED,
          (ngx_dlg_auth_send_simple_401
            (published_request (sample_lib 1000 1000)
              (sample_request NGX_HTTP_GET "GET" "example.com:443" "Hawk1GET/xk") ctx_zero
              (sample_hdr ticket_rw_json 1000 "GET/xk") (sample_ticket 1))
            sample_conf_admin.realm).2,
          verification_trace sample_conf_admin
            (sample_request NGX_HTTP_GET "GET" "example.com:443" "Hawk1GET/xk")
            (ngx_null_string, ngx_null_string)
            (sample_header "Authorization" "authorization" "Hawk1GET/xk")
            (sample_hdr ticket_rw_json 1000 "GET/xk") ticket_rw_json (sample_ticket 1)⟩ :=
  ⟨by decide, by decide,
    ticket_has_realm_exact.2 (sample_lib 1000 1000) sample_conf_admin
      (sample_request NGX_HTTP_GET "GET" "example.com:443" "Hawk1GET/xk") ctx_zero
      (ngx_null_string, ngx_null_string)
      (sample_header "Authorization" "authorization" "Hawk1GET/xk")
      (sample_hdr ticket_rw_json 1000 "GET/xk") ticket_rw_json (sample_ticket 1) (cstr "admin")
      rfl (by decide) (by decide) (by decide) (by decide) (by decide) (by decide)⟩

/-- C15: a location configured with `dlg_auth off;` alone, under a level that configures
nothing, does not merge: the sanity check looks at the length of the merged realm only, so
the literal `off` counts as a realm and the missing password is reported. -/
theorem merge_off_without_password_fails :
    conf_off.realm.bytes = cstr "off"
    ∧ ngx_http_dlg_auth_merge_loc_conf ngx_http_dlg_auth_create_loc_conf conf_off
      = ⟨ngx_conf_rc.NGX_CONF_ERROR, { conf_off with allowed_clock_skew := 1 },
          ["Neither iron password nor iron password table configured"]⟩ := by
  decide

/-- C17: an enclosing level built by `dlg_auth_iron_pwd pw;` and a location built by
`dlg_auth_iron_pwd id1 pw1;` merge without error into a location that has both a single
password and a password table in use, and the handler hands both to `ciron_unseal`. -/
theorem merge_mixes_password_forms :
    (ngx_http_dlg_auth_merge_loc_conf conf_parent_single conf_api_table).rc
      = ngx_conf_rc.NGX_CONF_OK
    ∧ (ngx_http_dlg_auth_merge_loc_conf conf_parent_single conf_api_table).conf.iron_password.bytes
      = cstr "pw"
    ∧ (ngx_http_dlg_auth_merge_loc_conf conf_parent_single conf_api_table).conf.pwd_table.nentries
      = 1
    ∧ (ngx_dlg_auth_handler (sample_lib 1000 1000)
        (ngx_http_dlg_auth_merge_loc_conf conf_parent_single conf_api_table).conf
        (sample_request NGX_HTTP_GET "GET" "example.com:443" "Hawk1GET/xk")).map
          (fun o => o.trace.any Event.unseal_with_both)
      = some true := by
  decide

/-- C18: a request whose `Authorization` header lies in the second part of the header list
(twenty headers come before it) is allowed and keeps a header with the lowercase key
`authorization`, as the loop looks at the first part only; so does, after the first one
was renamed, a request that carries two `Authorization` headers. -/
theorem authorization_header_survives :
    (ngx_dlg_auth_handler (sample_lib 1000 1000) sample_conf
        (sample_request_with_headers NGX_HTTP_GET "GET" "example.com:443" "Hawk1GET/xk"
          headers_authorization_in_second_part)).map
          (fun o => (o.rc, o.r.headers_in.headers.elts.any is_authorization_header))
      = some (NGX_OK, true)
    ∧ (ngx_dlg_auth_handler (sample_lib 1000 1000) sample_conf
        (sample_request_with_headers NGX_HTTP_GET "GET" "example.com:443" "Hawk1GET/xk"
          headers_authorization_twice)).map
          (fun o => (o.rc, o.r.headers_in.headers.elts.any is_authorization_header))
      = some (NGX_OK, true) := by
  decide

/-- C12: a ticket whose scope array holds the number 1 parses `OK` with one realm granted
(the empty one), as `do_scope` drops the result of `do_string`; after an earlier scope
array `["admin"]` the array `[1]` leaves the realm `admin` granted. -/
theorem scope_array_element_type_unchecked :
    ticket_from_string (tokens_lib ticket_scope_number_json ticket_scope_number_tokens)
        ticket_scope_number_json ticket_scope_number_json.length
      = (TicketError.OK, { ticket_init with nrealms := 1 })
    ∧ ticket_from_string (tokens_lib ticket_scope_twice_json ticket_scope_twice_tokens)
        ticket_scope_twice_json ticket_scope_twice_json.length
      = (TicketError.OK,
          { ticket_init with nrealms := 1, realms := cstr "admin" :: List.replicate 9 [] })
    ∧ ticket_has_realm
        (ticket_from_string (tokens_lib ticket_scope_twice_json ticket_scope_twice_tokens)
          ticket_scope_twice_json ticket_scope_twice_json.length).2 (cstr "admin") 5 = 1 := by
  decide

/-- C13, as stated, fails for `rw`: a ticket whose `rw` value is the string `true`, not a
primitive, parses `OK` (with `rw = 0`). -/
theorem rw_value_type_unchecked :
    (ticket_rw_string_tokens.getD 2 jsmntok_zero).type = jsmntype_t.JSMN_STRING
    ∧ key_is ticket_rw_string_json (ticket_rw_string_tokens.getD 1 jsmntok_zero) "rw"
    ∧ ticket_from_string (tokens_lib ticket_rw_string_json ticket_rw_string_tokens)
        ticket_rw_string_json ticket_rw_string_json.length
      = (TicketError.OK, ticket_init) := by
  decide

/-- C13, amended: when the loop of `ticket_from_string` comes to a key that is followed by
a value token, the result is `ERROR_UNEXPECTED_TOKEN_TYPE` if the key is one of `client`,
`pwd`, `owner`, `user`, `hawkAlgorithm` and the value is not a string, or the key is `exp`
and the value is not a primitive, or the key is `scope` or `scopes` and the value is not
an array; on the key `rw` a value of any type is accepted. -/
theorem value_type_enforced (lib : Lib) (json : Bytes) (len : Nat)
    (tokens : List jsmntok_t) (k : Nat) (b : Builder)
    (hparse : lib.jsmn_parse json len MAX_TOKENS = (jsmnerr_t.JSMN_SUCCESS, tokens))
    (hk : ticket_iterations lib k (initial_builder json tokens) = some b)
    (hv : b.i + 1 < b.ntokens) :
    ((((key_is b.input (b.tokens.getD b.i jsmntok_zero) "client"
            ∨ key_is b.input (b.tokens.getD b.i jsmntok_zero) "pwd"
            ∨ key_is b.input (b.tokens.getD b.i jsmntok_zero) "owner"
            ∨ key_is b.input (b.tokens.getD b.i jsmntok_zero) "user"
            ∨ key_is b.input (b.tokens.getD b.i jsmntok_zero) "hawkAlgorithm")
          ∧ (b.tokens.getD (b.i + 1) jsmntok_zero).type ≠ jsmntype_t.JSMN_STRING)
        ∨ (key_is b.input (b.tokens.getD b.i jsmntok_zero) "exp"
          ∧ (b.tokens.getD (b.i + 1) jsmntok_zero).type ≠ jsmntype_t.JSMN_PRIMITIVE)
        ∨ ((key_is b.input (b.tokens.getD b.i jsmntok_zero) "scope"
            ∨ key_is b.input (b.tokens.getD b.i jsmntok_zero) "scopes")
          ∧ (b.tokens.getD (b.i + 1) jsmntok_zero).type ≠ jsmntype_t.JSMN_ARRAY)) →
      (ticket_from_string lib json len).1 = TicketError.ERROR_UNEXPECTED_TOKEN_TYPE)
    ∧ (key_is b.input (b.tokens.getD b.i jsmntok_zero) "rw" →
      (ticket_dispatch lib b).1 = TicketError.OK) := by
  constructor
  · intro hbad
    have hd : (ticket_dispatch lib b).1 = TicketError.ERROR_UNEXPECTED_TOKEN_TYPE := by
      rcases hbad with ⟨hkey, ht⟩ | ⟨hkey, ht⟩ | ⟨hkey, ht⟩
      · rcases hkey with hkey | hkey | hkey | hkey | hkey
        · rw [ticket_dispatch_client lib b hkey]; exact do_string_wrong_type b _ hv ht
        · rw [ticket_dispatch_pwd lib b hkey]; exact do_string_wrong_type b _ hv ht
        · rw [ticket_dispatch_owner lib b hkey]; exact do_string_wrong_type b _ hv ht
        · rw [ticket_dispatch_user lib b hkey]; exact do_string_wrong_type b _ hv ht
        · rw [ticket_dispatch_hawkAlgorithm lib b hkey]; exact do_algo_wrong_type lib b hv ht
      · rw [ticket_dispatch_exp lib b hkey]; exact do_time_wrong_type b _ hv ht
      · rcases hkey with hkey | hkey
        · rw [ticket_dispatch_scope lib b hkey]; exact do_scope_wrong_type b hv ht
        · rw [ticket_dispatch_scopes lib b hkey]; exact do_scope_wrong_type b hv ht
    rw [ticket_from_string_of_iterations lib json len tokens k b hparse hk (by omega)
      (by rw [hd]; decide), hd]
  · intro hkey
    rw [ticket_dispatch_rw lib b hkey]
    exact do_rw_ok b hv

/-- C13, amended, on a ticket whose `client` value is a number. -/
theorem value_type_enforced_witness :
    (ticket_from_string (tokens_lib ticket_client_number_json ticket_client_number_tokens)
        ticket_client_number_json 15).1 = TicketError.ERROR_UNEXPECTED_TOKEN_TYPE :=
  (value_type_enforced (tokens_lib ticket_client_number_json ticket_client_number_tokens)
    ticket_client_number_json 15 ticket_client_number_tokens 1
    { initial_builder ticket_client_number_json ticket_client_number_tokens with i := 1 }
    (by decide) (by decide) (by decide)).1
    (Or.inl ⟨Or.inl (by decide), by decide⟩)

/-- C14, as stated, fails for long digit strings: the expiry `9223372036854775808`
(`2^63`) parses `OK` and is stored as `-2^63`, a negative number. -/
theorem expiry_overflows :
    ticket_from_string (tokens_lib ticket_exp_overflow_json ticket_exp_overflow_tokens)
        ticket_exp_overflow_json ticket_exp_overflow_json.length
      = (TicketError.OK, { ticket_init with exp := -9223372036854775808 })
    ∧ token_text ticket_exp_overflow_json (ticket_exp_overflow_tokens.getD 2 jsmntok_zero)
      = cstr "9223372036854775808"
    ∧ digits_value (cstr "9223372036854775808") = 9223372036854775808 := by
  decide

/-- C14, amended: on a primitive value token whose text is a string of decimal digits that
denotes a number below `2^63`, `do_time` returns `OK` and sets the destination to that
number. -/
theorem do_time_value (b : Builder) (tp : Int) (hv : b.i + 1 < b.ntokens)
    (hprim : (b.tokens.getD (b.i + 1) jsmntok_zero).type = jsmntype_t.JSMN_PRIMITIVE)
    (hdigits : ∀ c ∈ token_text b.input (b.tokens.getD (b.i + 1) jsmntok_zero),
      isdigit c = true)
    (hfit : digits_value (token_text b.input (b.tokens.getD (b.i + 1) jsmntok_zero)) < 2 ^ 63) :
    do_time b tp
      = (TicketError.OK, { b with i := b.i + 1 },
          (digits_value (token_text b.input (b.tokens.getD (b.i + 1) jsmntok_zero)) : Int)) := by
  have hloop := do_time_loop_digits _ 0 hdigits hfit
  unfold token_text at hloop
  unfold do_time
  simp only []
  rw [if_neg (by simp only [ge_iff_le, not_le]; exact hv), if_neg (not_not.mpr hprim)]
  have h0 : ((0 : Nat) : Int) = 0 := rfl
  rw [h0] at hloop
  rw [hloop]
  rfl

/-- C14, amended, on the expiry `2000` of the sample ticket. -/
theorem do_time_value_witness :
    do_time { initial_builder ticket_rw_json ticket_rw_tokens with i := 7 } 0
      = (TicketError.OK, { initial_builder ticket_rw_json ticket_rw_tokens with i := 8 },
          (digits_value (token_text ticket_rw_json (ticket_rw_tokens.getD 8 jsmntok_zero)) : Int))
    ∧ digits_value (token_text ticket_rw_json (ticket_rw_tokens.getD 8 jsmntok_zero)) = 2000 :=
  ⟨do_time_value { initial_builder ticket_rw_json ticket_rw_tokens with i := 7 } 0
      (by decide) (by decide) (by decide) (by decide),
    by decide⟩

/-- C16, as stated, fails: at a location with no realm the port override `abc` merges with
`NGX_CONF_OK` under an enclosing level that sets nothing, and `is_digits_only` returns 1
for the empty string, which represents no number. -/
theorem merge_accepts_non_digit_port_without_realm :
    (merge_str conf_port_abc.port ngx_http_dlg_auth_create_loc_conf.port).bytes = cstr "abc"
    ∧ (ngx_http_dlg_auth_merge_loc_conf ngx_http_dlg_auth_create_loc_conf conf_port_abc).rc
      = ngx_conf_rc.NGX_CONF_OK
    ∧ is_digits_only (ngx_string []) = 1 := by
  decide

/-- C16, amended: when the effective realm (the one of the child, else the inherited one) is
non-empty and the effective `dlg_auth_port` value is non-empty and holds a byte outside
`0`..`9`, `ngx_http_dlg_auth_merge_loc_conf` returns `NGX_CONF_ERROR`; and on a non-empty
string `is_digits_only` returns 1 exactly when every byte is a decimal digit, and 0
exactly when some byte is not. -/
theorem merge_rejects_non_digit_port (parent child : ngx_http_dlg_auth_loc_conf_t)
    (buf : Bytes)
    (hrealm : (merge_str child.realm parent.realm).len ≠ 0)
    (hdata : (merge_str child.port parent.port).data = some buf)
    (hlen : (merge_str child.port parent.port).len ≤ buf.length)
    (hne : (merge_str child.port parent.port).len ≠ 0)
    (hbad : ∃ c ∈ (merge_str child.port parent.port).bytes, isdigit c = false) :
    (ngx_http_dlg_auth_merge_loc_conf parent child).rc = ngx_conf_rc.NGX_CONF_ERROR
    ∧ ∀ (str : ngx_str_t) (sbuf : Bytes), str.data = some sbuf → str.len ≤ sbuf.length →
        str.len ≠ 0 →
        (is_digits_only str = 1 ↔ ∀ c ∈ str.bytes, isdigit c = true)
        ∧ (is_digits_only str = 0 ↔ ∃ c ∈ str.bytes, isdigit c = false) := by
  constructor
  · have h0 : is_digits_only (merge_fields parent child).port = 0 :=
      (is_digits_only_spec _ buf hdata hlen).2.2 hbad
    have hr : (merge_fields parent child).realm.len ≠ 0 := hrealm
    have hp : (merge_fields parent child).port.len > 0 := Nat.pos_of_ne_zero hne
    unfold ngx_http_dlg_auth_merge_loc_conf
    simp only []
    rw [if_pos hr]
    by_cases hpw : (merge_fields parent child).iron_password.len = 0
        ∧ (merge_fields parent child).pwd_table.nentries = 0
    · rw [if_pos hpw]
    · rw [if_neg hpw, if_pos ⟨hp, h0⟩]
  · intro str sbuf hd hl _
    exact is_digits_only_spec str sbuf hd hl

/-- C16, amended, on the location with realm `api` and port `80a`, and on the strings `80a`
and `8080`. -/
theorem merge_rejects_non_digit_port_witness :
    (ngx_http_dlg_auth_merge_loc_conf ngx_http_dlg_auth_create_loc_conf conf_api_port_80a).rc
      = ngx_conf_rc.NGX_CONF_ERROR
    ∧ is_digits_only (ngx_string (cstr "80a")) = 0
    ∧ is_digits_only (ngx_string (cstr "8080")) = 1 :=
  have h := merge_rejects_non_digit_port ngx_http_dlg_auth_create_loc_conf conf_api_port_80a
    (cstr "80a") (by decide) (by decide) (by decide) (by decide) (by decide)
  ⟨h.1,
    ((h.2 (ngx_string (cstr "80a")) (cstr "80a") rfl (by decide) (by decide)).2).2 (by decide),
    ((h.2 (ngx_string (cstr "8080")) (cstr "8080") rfl (by decide) (by decide)).1).2
      (by decide)⟩

/-- C21, as stated, fails: a ticket with all eight keys and a scope array of eleven realms
has twenty-eight tokens, one more than `MAX_TOKENS`; under a tokenizer that honours its
capacity `ticket_from_string` returns `ERROR_JSON_NTOKENS`, not `ERROR_NREALMS`. -/
theorem full_ticket_with_eleven_realms_hits_token_cap :
    ticket_full_eleven_tokens.length = MAX_TOKENS + 1
    ∧ (ticket_full_eleven_tokens.getD 16 jsmntok_zero).size = MAX_REALMS + 1
    ∧ key_is ticket_full_eleven_json (ticket_full_eleven_tokens.getD 15 jsmntok_zero) "scope"
    ∧ ticket_from_string (bounded_tokens_lib ticket_full_eleven_json ticket_full_eleven_tokens)
        ticket_full_eleven_json ticket_full_eleven_json.length
      = (TicketError.ERROR_JSON_NTOKENS, ticket_init) := by
  decide

/-- C21, amended: when the tokenizer succeeds and the loop of `ticket_from_string` comes to
a key `scope` or `scopes` whose value is an array of `MAX_REALMS + 1` elements,
`ticket_from_string` returns `ERROR_NREALMS`, and the handler answers 400 to a request
whose ticket unseals to that text; and whenever `ticket_from_string` returns `OK`,
`nrealms` is at most `MAX_REALMS`. -/
theorem scope_array_too_long (lib : Lib) (json : Bytes) (tokens : List jsmntok_t)
    (k : Nat) (b : Builder)
    (hparse : lib.jsmn_parse json json.length MAX_TOKENS = (jsmnerr_t.JSMN_SUCCESS, tokens))
    (hk : ticket_iterations lib k (initial_builder json tokens) = some b)
    (hkey : key_is json (tokens.getD b.i jsmntok_zero) "scope"
      ∨ key_is json (tokens.getD b.i jsmntok_zero) "scopes")
    (hv : b.i + 1 < tokens.length)
    (ht : (tokens.getD (b.i + 1) jsmntok_zero).type = jsmntype_t.JSMN_ARRAY)
    (hs : (tokens.getD (b.i + 1) jsmntok_zero).size = MAX_REALMS + 1) :
    (ticket_from_string lib json json.length).1 = TicketError.ERROR_NREALMS
    ∧ (∀ (conf : ngx_http_dlg_auth_loc_conf_t) (r : ngx_http_request_t) (buf : Bytes)
        (hp : ngx_str_t × ngx_str_t) (authorization : ngx_table_elt_t)
        (hdr : HawkcAuthorizationHeader),
        conf.realm.data = some buf → conf.realm.bytes ≠ cstr "off" →
        determine_host_and_port conf r = some hp →
        r.headers_in.authorization = some authorization →
        lib.hawkc_parse_authorization_header authorization.value.bytes
          = (HawkcError.HAWKC_OK, hdr) →
        lib.ciron_calculate_encryption_buffer_length hdr.id.length ≤ ENCRYPTION_BUFFER_SIZE →
        lib.ciron_calculate_unseal_buffer_length hdr.id.length 0 ≤ OUTPUT_BUFFER_SIZE →
        lib.ciron_unseal hdr.id conf.pwd_table conf.iron_password
          = (CironError.CIRON_OK, json) →
        ∃ o, ngx_dlg_auth_handler lib conf r = some o ∧ o.rc = 400)
    ∧ (∀ (lib1 : Lib) (json1 : Bytes) (len1 : Nat) (ticket : Ticket),
        ticket_from_string lib1 json1 len1 = (TicketError.OK, ticket) →
        ticket.nrealms ≤ MAX_REALMS) := by
  obtain ⟨f1, f2, f3, _⟩ := ticket_iterations_frame lib k _ b hk
  have hv' : b.i + 1 < b.ntokens := by rw [f2]; exact hv
  have ht' : (b.tokens.getD (b.i + 1) jsmntok_zero).type = jsmntype_t.JSMN_ARRAY := by
    rw [f1]; exact ht
  have hs' : (b.tokens.getD (b.i + 1) jsmntok_zero).size > MAX_REALMS := by
    rw [f1]
    have : (tokens.getD (b.i + 1) jsmntok_zero).size = MAX_REALMS + 1 := hs
    show MAX_REALMS < (tokens.getD (b.i + 1) jsmntok_zero).size
    omega
  have hd : (ticket_dispatch lib b).1 = TicketError.ERROR_NREALMS := by
    rcases hkey with hkey | hkey
    · rw [ticket_dispatch_scope lib b (by rw [f1, f3]; exact hkey)]
      exact do_scope_too_many b hv' ht' hs'
    · rw [ticket_dispatch_scopes lib b (by rw [f1, f3]; exact hkey)]
      exact do_scope_too_many b hv' ht' hs'
  have hres : (ticket_from_string lib json json.length).1 = TicketError.ERROR_NREALMS := by
    rw [ticket_from_string_of_iterations lib json json.length tokens k b hparse hk (by omega)
      (by rw [hd]; decide), hd]
  refine ⟨hres, ?_, ?_⟩
  · intro conf r buf hp authorization hdr hdata hoff hdet ha hhdr henc hout hun
    exact ⟨_, handler_ticket_rejected lib conf r buf hp authorization hdr json hdata hoff hdet
      ha hhdr henc hout hun (by rw [hres]; decide), rfl⟩
  · intro lib1 json1 len1 ticket hok
    obtain ⟨bf, hbf, _, hq⟩ := ticket_from_string_invariant lib1 json1 len1 _ ticket
      (ticket_from_string_ok_parse lib1 json1 len1 ticket hok) hok
      (fun b => b.ticket.nrealms ≤ MAX_REALMS)
      (fun _ b _ hq _ hd => (ticket_dispatch_rw_nrealms lib1 b).2 hd hq)
      0 _ rfl (Nat.zero_le _)
    rw [← hbf]
    exact hq

/-- C21, amended, on the ticket with nothing but eleven realms, sealed into the header of
the sample request. -/
theorem scope_array_too_long_witness :
    (ticket_from_string
        (sealed_ticket_lib ticket_eleven_realms_json ticket_eleven_realms_tokens)
        ticket_eleven_realms_json ticket_eleven_realms_json.length).1
      = TicketError.ERROR_NREALMS
    ∧ (∃ o, ngx_dlg_auth_handler
          (sealed_ticket_lib ticket_eleven_realms_json ticket_eleven_realms_tokens) sample_conf
          (sample_request NGX_HTTP_GET "GET" "example.com:443" "Hawk1GET/xk") = some o
        ∧ o.rc = 400)
    ∧ (sample_ticket 1).nrealms ≤ MAX_REALMS :=
  have h := scope_array_too_long
    (sealed_ticket_lib ticket_eleven_realms_json ticket_eleven_realms_tokens)
    ticket_eleven_realms_json ticket_eleven_realms_tokens 1
    { initial_builder ticket_eleven_realms_json ticket_eleven_realms_tokens with i := 1 }
    (by decide) (by decide) (Or.inl (by decide)) (by decide) (by decide) (by decide)
  ⟨h.1,
    h.2.1 sample_conf (sample_request NGX_HTTP_GET "GET" "example.com:443" "Hawk1GET/xk")
      (cstr "api") (ngx_null_string, ngx_null_string)
      (sample_header "Authorization" "authorization" "Hawk1GET/xk")
      (sample_hdr ticket_eleven_realms_json 0 "")
      rfl (by decide) (by decide) rfl (by decide) (by decide) (by decide) (by decide),
    h.2.2 (sample_lib 1000 1000) ticket_rw_json 87 (sample_ticket 1) (by decide)⟩

/-- C23: the ticket whose only key `rw` has the array `["rw",true]` as its value parses
`OK` with `rw = 1`: `do_rw` takes the array as the value (setting `rw` to 0), and the loop
then dispatches on the string `rw` inside the array, with the primitive `true` after it. -/
theorem rw_set_from_inside_array_value :
    key_is ticket_rw_array_json (ticket_rw_array_tokens.getD 1 jsmntok_zero) "rw"
    ∧ (ticket_rw_array_tokens.getD 2 jsmntok_zero).type = jsmntype_t.JSMN_ARRAY
    ∧ (ticket_rw_array_tokens.getD 0 jsmntok_zero).size = 2
    ∧ ticket_from_string (tokens_lib ticket_rw_array_json ticket_rw_array_tokens)
        ticket_rw_array_json ticket_rw_array_json.length
      = (TicketError.OK, { ticket_init with rw := 1 }) := by
  decide

/-- C22, as stated, fails: for the `Host` value `example.com:`, whose only colon is its last
byte, the port is not the empty rest of the value but the scheme default. -/
theorem host_with_trailing_colon_gets_default_port :
    (get_host_and_port (ngx_string (cstr "example.com:")) false).1.bytes = cstr "example.com"
    ∧ (get_host_and_port (ngx_string (cstr "example.com:")) false).2.bytes = cstr "80"
    ∧ (get_host_and_port (ngx_string (cstr "example.com:")) true).2.bytes = cstr "443" := by
  decide

/-- C22, amended: `get_host_and_port` splits the `Host` value at its first colon: the host is
what precedes it, the port what follows it when that is not empty (then host, colon and
port make up the value) and the scheme default (`443` for TLS, else `80`) when nothing
follows; without a colon the host is the whole value and the port the scheme default. -/
theorem get_host_and_port_split (h : ngx_str_t) (buf : Bytes) (ssl : Bool)
    (hdata : h.data = some buf) (hlen : h.len ≤ buf.length) :
    (∀ pre post : Bytes, h.bytes = pre ++ 58 :: post → (58 : UInt8) ∉ pre →
        (get_host_and_port h ssl).1.bytes = pre
        ∧ (get_host_and_port h ssl).2.bytes
            = (if post = [] then (if ssl = true then cstr "443" else cstr "80") else post)
        ∧ (post ≠ [] →
            (get_host_and_port h ssl).1.bytes ++ 58 :: (get_host_and_port h ssl).2.bytes
              = h.bytes))
    ∧ ((58 : UInt8) ∉ h.bytes →
        (get_host_and_port h ssl).1.bytes = h.bytes
        ∧ (get_host_and_port h ssl).2.bytes = (if ssl = true then cstr "443" else cstr "80")) := by
  have hbytes : h.bytes = buf.take h.len := by simp [ngx_str_t.bytes, hdata]
  have hdef : (if ssl = true then (⟨3, some (cstr "443")⟩ : ngx_str_t)
      else ⟨2, some (cstr "80")⟩).bytes = (if ssl = true then cstr "443" else cstr "80") := by
    cases ssl <;> rfl
  constructor
  · intro pre post hsplit hpre
    rw [hbytes] at hsplit
    obtain ⟨hr, hl, hcolon⟩ := get_host_scan_colon buf pre post h.len hlen hsplit hpre
    have hhost : (get_host_and_port h ssl).1.bytes = pre := by
      rw [get_host_and_port_fst]
      simp only [ngx_str_t.bytes, hdata, Option.getD_some]
      rw [hr]
      have : buf.take pre.length = (buf.take h.len).take pre.length := by
        rw [List.take_take, Nat.min_eq_left (by omega)]
      rw [this, hsplit]
      simp
    have hport : (get_host_and_port h ssl).2.bytes
        = (if post = [] then (if ssl = true then cstr "443" else cstr "80") else post) := by
      rw [get_host_and_port_snd]
      simp only [hdata, Option.getD_some]
      rw [hr]
      by_cases hpost : post = []
      · have hl0 : post.length = 0 := by rw [hpost]; rfl
        rw [if_neg (by omega), if_pos hpost]
        exact hdef
      · have hl1 : 0 < post.length := List.length_pos.mpr hpost
        rw [if_pos ⟨hcolon, by omega⟩, if_neg hpost]
        simp only [ngx_str_t.bytes, Option.getD_some]
        have : (buf.drop (pre.length + 1)).take (h.len - (pre.length + 1))
            = (buf.take h.len).drop (pre.length + 1) := by
          rw [List.drop_take]
        rw [this, hsplit]
        simp
    refine ⟨hhost, hport, ?_⟩
    intro hpost
    rw [hhost, hport, if_neg hpost, hbytes, hsplit]
  · intro hno
    rw [hbytes] at hno
    have hr := get_host_scan_no_colon buf h.len hlen hno
    constructor
    · rw [get_host_and_port_fst]
      simp only [ngx_str_t.bytes, hdata, Option.getD_some]
      rw [hr]
    · rw [get_host_and_port_snd]
      simp only [hdata, Option.getD_some]
      rw [hr, if_neg (by omega)]
      exact hdef

/-- C22, amended, on the `Host` value `example.com:8080`. -/
theorem get_host_and_port_split_witness :
    (get_host_and_port (ngx_string (cstr "example.com:8080")) false).1.bytes
      = cstr "example.com"
    ∧ (get_host_and_port (ngx_string (cstr "example.com:8080")) false).2.bytes
      = (if cstr "8080" = [] then (if false = true then cstr "443" else cstr "80")
          else cstr "8080")
    ∧ (cstr "8080" ≠ [] →
        (get_host_and_port (ngx_string (cstr "example.com:8080")) false).1.bytes
            ++ 58 :: (get_host_and_port (ngx_string (cstr "example.com:8080")) false).2.bytes
          = (ngx_string (cstr "example.com:8080")).bytes) :=
  (get_host_and_port_split (ngx_string (cstr "example.com:8080")) (cstr "example.com:8080")
    false rfl (by decide)).1 (cstr "example.com") (cstr "8080") (by decide) (by decide)

/-- C25: on a primitive value token whose text holds at least one byte that is not
a decimal digit, `do_time` returns `ERROR_PARSE_TIME_VALUE` and does not write the
destination; when the token is the value of a key `exp`, the dispatch returns that error
and leaves the ticket, `exp` included, as it was. A primitive that the tokenizer emits
holds at least one byte, so this covers every primitive `exp` value that is not a string
of digits. -/
theorem do_time_rejects_non_digit (b : Builder) (tp : Int) (hv : b.i + 1 < b.ntokens)
    (hprim : (b.tokens.getD (b.i + 1) jsmntok_zero).type = jsmntype_t.JSMN_PRIMITIVE)
    (hbad : ∃ c ∈ token_text b.input (b.tokens.getD (b.i + 1) jsmntok_zero),
      isdigit c = false) :
    do_time b tp = (TicketError.ERROR_PARSE_TIME_VALUE, { b with i := b.i + 1 }, tp)
    ∧ ∀ lib : Lib, key_is b.input (b.tokens.getD b.i jsmntok_zero) "exp" →
        (ticket_dispatch lib b).1 = TicketError.ERROR_PARSE_TIME_VALUE
        ∧ (ticket_dispatch lib b).2.ticket = b.ticket := by
  have hdt : ∀ tp : Int,
      do_time b tp = (TicketError.ERROR_PARSE_TIME_VALUE, { b with i := b.i + 1 }, tp) := by
    intro tp
    have hloop := do_time_loop_non_digit _ 0 hbad
    unfold token_text at hloop
    unfold do_time
    simp only []
    rw [if_neg (by simp only [ge_iff_le, not_le]; exact hv), if_neg (not_not.mpr hprim)]
    rw [hloop]
  refine ⟨hdt tp, ?_⟩
  intro lib hkey
  rw [ticket_dispatch_exp lib b hkey, hdt b.ticket.exp]
  exact ⟨rfl, rfl⟩

/-- C25 on the ticket whose expiry is `-5`. -/
theorem do_time_rejects_non_digit_witness :
    do_time { initial_builder ticket_exp_negative_json ticket_exp_negative_tokens with i := 1 } 0
      = (TicketError.ERROR_PARSE_TIME_VALUE,
          { initial_builder ticket_exp_negative_json ticket_exp_negative_tokens with i := 2 }, 0) :=
  (do_time_rejects_non_digit
    { initial_builder ticket_exp_negative_json ticket_exp_negative_tokens with i := 1 } 0
    (by decide) (by decide) (by decide)).1

/-- C26: in a ticket with the array `scope` = `["a","b"]` followed by the array `scopes` =
`[1,"c"]` the first realm after parsing is `a`, an element of the earlier array, while the
last array parsed alone leaves the first realm empty: the realms do not come from the last
array only. -/
theorem realms_not_from_last_array_only :
    ticket_from_string (tokens_lib ticket_scope_scopes_json ticket_scope_scopes_tokens)
        ticket_scope_scopes_json ticket_scope_scopes_json.length
      = (TicketError.OK,
          { ticket_init with nrealms := 2, realms := cstr "a" :: cstr "c" :: List.replicate 8 [] })
    ∧ ticket_from_string (tokens_lib ticket_scopes_only_json ticket_scopes_only_tokens)
        ticket_scopes_only_json ticket_scopes_only_json.length
      = (TicketError.OK,
          { ticket_init with nrealms := 2, realms := [] :: cstr "c" :: List.replicate 8 [] })
    ∧ ticket_has_realm
        (ticket_from_string (tokens_lib ticket_scope_scopes_json ticket_scope_scopes_tokens)
          ticket_scope_scopes_json ticket_scope_scopes_json.length).2 (cstr "a") 1 = 1
    ∧ ticket_has_realm
        (ticket_from_string (tokens_lib ticket_scopes_only_json ticket_scopes_only_tokens)
          ticket_scopes_only_json ticket_scopes_only_json.length).2 (cstr "a") 1 = 0 := by
  decide

/-- C29: the ticket whose `rw` value is an object with the member `rw: true` parses `OK` with
`rw = 1`, and the ticket whose scope array holds the array `["client","x"]` parses `OK`
with client `x`: string tokens nested inside the value of another key are dispatched on
as keys and set fields of the ticket. -/
theorem nested_keys_set_ticket_fields :
    (ticket_rw_nested_tokens.getD 2 jsmntok_zero).type = jsmntype_t.JSMN_OBJECT
    ∧ ticket_from_string (tokens_lib ticket_rw_nested_json ticket_rw_nested_tokens)
        ticket_rw_nested_json ticket_rw_nested_json.length
      = (TicketError.OK, { ticket_init with rw := 1 })
    ∧ (ticket_scope_nested_tokens.getD 3 jsmntok_zero).type = jsmntype_t.JSMN_ARRAY
    ∧ ticket_from_string (tokens_lib ticket_scope_nested_json ticket_scope_nested_tokens)
        ticket_scope_nested_json ticket_scope_nested_json.length
      = (TicketError.OK, { ticket_init with client := cstr "x", nrealms := 1 }) := by
  decide

/-- C30: on a request whose header list holds a matching `Authorization` header in its
second part, `ngx_dlg_auth_rename_authorization_header` changes nothing: the header keeps
its name and the authorization reference stays set. -/
theorem rename_leaves_second_part :
    headers_authorization_in_second_part.elts.any rename_matches = true
    ∧ ngx_dlg_auth_rename_authorization_header
        (sample_request_with_headers NGX_HTTP_GET "GET" "example.com:443" "Hawk1GET/xk"
          headers_authorization_in_second_part)
      = sample_request_with_headers NGX_HTTP_GET "GET" "example.com:443" "Hawk1GET/xk"
          headers_authorization_in_second_part
    ∧ (ngx_dlg_auth_rename_authorization_header
        (sample_request_with_headers NGX_HTTP_GET "GET" "example.com:443" "Hawk1GET/xk"
          headers_authorization_in_second_part)).headers_in.authorization
      = some (sample_header "Authorization" "authorization" "Hawk1GET/xk") := by
  decide

/-- C28: after `ngx_http_dlg_auth_merge_loc_conf` the realm, the single password, the host
override and the port override of the child are its own where it had set them (length not
zero) and those of the parent otherwise; the password table is its own when it has
entries in use, and otherwise has the entry count of the parent and, at every index in
use, the entry of the parent; the clock skew is its own if set, else that of the parent
if set, else 1. The array of the child is taken to hold the entries of the parent. -/
theorem merge_inherits (parent child : ngx_http_dlg_auth_loc_conf_t)
    (hcap : parent.pwd_table.nentries ≤ child.pwd_table.entries.length) :
    (ngx_http_dlg_auth_merge_loc_conf parent child).conf.realm
      = (if child.realm.len ≠ 0 then child.realm else parent.realm)
    ∧ (ngx_http_dlg_auth_merge_loc_conf parent child).conf.iron_password
      = (if child.iron_password.len ≠ 0 then child.iron_password else parent.iron_password)
    ∧ (ngx_http_dlg_auth_merge_loc_conf parent child).conf.host
      = (if child.host.len ≠ 0 then child.host else parent.host)
    ∧ (ngx_http_dlg_auth_merge_loc_conf parent child).conf.port
      = (if child.port.len ≠ 0 then child.port else parent.port)
    ∧ (child.pwd_table.nentries ≠ 0 →
        (ngx_http_dlg_auth_merge_loc_conf parent child).conf.pwd_table = child.pwd_table)
    ∧ (child.pwd_table.nentries = 0 →
        (ngx_http_dlg_auth_merge_loc_conf parent child).conf.pwd_table.nentries
          = parent.pwd_table.nentries
        ∧ ∀ j, j < parent.pwd_table.nentries →
            (ngx_http_dlg_auth_merge_loc_conf parent child).conf.pwd_table.entries.getD j
                CironPwdTableEntry_zero
              = parent.pwd_table.entries.getD j CironPwdTableEntry_zero)
    ∧ (ngx_http_dlg_auth_merge_loc_conf parent child).conf.allowed_clock_skew
      = (if child.allowed_clock_skew ≠ NGX_CONF_UNSET_UINT then child.allowed_clock_skew
          else if parent.allowed_clock_skew ≠ NGX_CONF_UNSET_UINT then
            parent.allowed_clock_skew
          else 1) := by
  have hstr : ∀ c p : ngx_str_t, merge_str c p = (if c.len ≠ 0 then c else p) := by
    intro c p
    unfold merge_str
    by_cases h : c.len = 0
    · rw [if_pos h, if_neg (not_not.mpr h)]
    · rw [if_neg h, if_pos h]
  rw [merge_loc_conf_conf]
  refine ⟨hstr _ _, hstr _ _, hstr _ _, hstr _ _, ?_, ?_, ?_⟩
  · intro hn
    show merge_pwd_table child.pwd_table parent.pwd_table = child.pwd_table
    unfold merge_pwd_table
    rw [if_neg hn]
  · intro hn
    have hm : merge_pwd_table child.pwd_table parent.pwd_table
        = ⟨merge_pwd_table_loop parent.pwd_table.entries parent.pwd_table.nentries 0
            child.pwd_table.entries, parent.pwd_table.nentries⟩ := by
      unfold merge_pwd_table
      rw [if_pos hn]
    refine ⟨?_, ?_⟩
    · show (merge_pwd_table child.pwd_table parent.pwd_table).nentries = _
      rw [hm]
    · intro j hj
      show (merge_pwd_table child.pwd_table parent.pwd_table).entries.getD j _ = _
      rw [hm]
      show (merge_pwd_table_loop parent.pwd_table.entries parent.pwd_table.nentries 0
          child.pwd_table.entries).getD j CironPwdTableEntry_zero = _
      rw [merge_pwd_table_loop_getD parent.pwd_table.entries parent.pwd_table.nentries 0
        child.pwd_table.entries (by omega) j, if_pos (by omega)]
  · show ngx_conf_merge_uint_value child.allowed_clock_skew parent.allowed_clock_skew 1 = _
    unfold ngx_conf_merge_uint_value
    by_cases hc : child.allowed_clock_skew = NGX_CONF_UNSET_UINT
    · rw [if_pos hc, if_neg (not_not.mpr hc)]
      by_cases hp : parent.allowed_clock_skew = NGX_CONF_UNSET_UINT
      · rw [if_pos hp, if_neg (not_not.mpr hp)]
      · rw [if_neg hp, if_pos hp]
    · rw [if_neg hc, if_pos hc]

/-- C28 on a location that sets only the realm `off`, under the level with realm `api` and
the table entry `(id1, pw1)`: realm of the child, table of the parent, default clock skew. -/
theorem merge_inherits_witness :
    (ngx_http_dlg_auth_merge_loc_conf conf_api_table conf_off).conf.realm
      = (if conf_off.realm.len ≠ 0 then conf_off.realm else conf_api_table.realm)
    ∧ (ngx_http_dlg_auth_merge_loc_conf conf_api_table conf_off).conf.pwd_table.nentries
      = conf_api_table.pwd_table.nentries
    ∧ (∀ j, j < conf_api_table.pwd_table.nentries →
        (ngx_http_dlg_auth_merge_loc_conf conf_api_table conf_off).conf.pwd_table.entries.getD j
            CironPwdTableEntry_zero
          = conf_api_table.pwd_table.entries.getD j CironPwdTableEntry_zero)
    ∧ conf_api_table.pwd_table.nentries = 1 :=
  have h := merge_inherits conf_api_table conf_off (by decide)
  ⟨h.1, (h.2.2.2.2.2.1 rfl).1, (h.2.2.2.2.2.1 rfl).2, by decide⟩

/-- C31: for every location configuration and every request with a `Host` header,
`determine_host_and_port` returns a port of length 0; the host it returns is empty when
neither a host nor a port override is configured, and is the host `get_host_and_port`
reads from the `Host` header (what precedes its first colon, or all of it) when at least
one override is configured; and every context handed to MAC validation carries that host
and an empty port. -/
theorem determine_host_and_port_result (conf : ngx_http_dlg_auth_loc_conf_t)
    (r : ngx_http_request_t) (h : ngx_table_elt_t) (buf : Bytes)
    (hh : r.headers_in.host = some h) (hdata : h.value.data = some buf)
    (hlen : h.value.len ≤ buf.length) :
    ∃ host port, determine_host_and_port conf r = some (host, port)
      ∧ port.len = 0 ∧ port.bytes = []
      ∧ (conf.host.len = 0 → conf.port.len = 0 → host.len = 0 ∧ host.bytes = [])
      ∧ ((conf.host.len ≠ 0 ∨ conf.port.len ≠ 0) →
          host = (get_host_and_port h.value r.ssl).1
          ∧ (∀ pre post : Bytes, h.value.bytes = pre ++ 58 :: post → (58 : UInt8) ∉ pre →
              host.bytes = pre)
          ∧ ((58 : UInt8) ∉ h.value.bytes → host.bytes = h.value.bytes))
      ∧ (∀ (lib : Lib) (ctx : ngx_http_dlg_auth_ctx_t) (o : Outcome),
          ngx_dlg_auth_authenticate lib conf r ctx = some o →
          ∀ c, Event.hawkc_validate_hmac c ∈ o.trace → c.host = host.bytes ∧ c.port = []) := by
  have hd := determine_host_and_port_with_host_header conf r h hh
  refine ⟨_, _, hd, rfl, rfl, ?_, ?_, ?_⟩
  · intro h1 h2
    rw [if_neg (by rintro (h | h); exact h h1; exact h h2)]
    exact ⟨rfl, rfl⟩
  · intro hor
    rw [if_pos hor]
    obtain ⟨g1, g2⟩ := get_host_and_port_host_bytes h.value buf r.ssl hdata hlen
    exact ⟨rfl, g1, g2⟩
  · intro lib ctx o ho c hc
    obtain ⟨hp, hdp, hhost, hport⟩ := validated_context_host_port lib conf r ctx o ho c hc
    rw [hd] at hdp
    have hpe := (Option.some.inj hdp).symm
    rw [hpe] at hhost hport
    exact ⟨hhost, hport⟩

/-- C31 on the sample request with `Host: example.com:8080` at the location with both
overrides: the host is `example.com`, the port has length 0. -/
theorem determine_host_and_port_result_witness :
    ∃ host port,
      determine_host_and_port sample_conf_overrides
          (sample_request NGX_HTTP_GET "GET" "example.com:8080" "Hawk1GET/xk")
        = some (host, port)
      ∧ port.len = 0 ∧ host.bytes = cstr "example.com" := by
  obtain ⟨host, port, h1, h2, _, _, h5, _⟩ := determine_host_and_port_result
    sample_conf_overrides (sample_request NGX_HTTP_GET "GET" "example.com:8080" "Hawk1GET/xk")
    (sample_header "Host" "host" "example.com:8080") (cstr "example.com:8080")
    rfl rfl (by decide)
  exact ⟨host, port, h1, h2,
    (h5 (Or.inl (by decide))).2.1 (cstr "example.com") (cstr "8080") (by decide) (by decide)⟩

end DlgAuth
